import Mathlib

/-!
# Contrail reference tracker (`ContrailManager`)

A shallow embedding of `src/contrail/src/contrail/manager.cpp`.

* Every member function becomes a function on an explicit manager state; a
  function that mutates the object returns the new state next to its result.
* The publisher `pub_discrete_progress_` is the list of the messages published
  so far, oldest first, so "nothing was published" is an unchanged list.
* An output parameter `ref` is passed in and returned.
* `ros::Time` is a number of nanoseconds (`ros::Time(0)` is `0`) and
  `ros::Duration` a signed number of nanoseconds; the 32-bit range of their
  seconds is not modelled. Every reading of `ros::Time::now()` is an argument.
* `double` is an arbitrary linearly ordered field `R`; the functions of libm and
  Eigen the source calls are the fields of `Numerics R`, and `realNumerics` reads
  them over the real numbers.
* `int path_c_` is an `Int`; the conversions to `size_t` and `uint32_t` that the
  source performs implicitly are the explicit `toSizeT` and `toU32`. The
  increment `path_c_++` is exact: it would overflow only on a path of `2 ^ 31`
  poses, and the theorems about paths assume fewer.
* Logging (`ROS_INFO`, `ROS_ERROR`) has no effect on the state and is left out.
-/

namespace Contrail

/-! ## Messages and library types -/

/-- The type `ros::Time`, in nanoseconds. -/
abbrev Time := Nat

/-- The type `ros::Duration`, in nanoseconds. -/
abbrev Duration := Int

/-- The message `std_msgs/Header`. -/
structure Header where
  seq : Nat
  stamp : Time
  frame_id : String
  deriving DecidableEq, Repr

instance : Inhabited Header := ⟨⟨0, 0, ""⟩⟩

/-- The message `geometry_msgs/Point`. -/
structure Point (R : Type) where
  x : R
  y : R
  z : R

/-- The message `geometry_msgs/Vector3`. -/
structure Vector3 (R : Type) where
  x : R
  y : R
  z : R

/-- The message `geometry_msgs/Quaternion`. -/
structure Quaternion (R : Type) where
  x : R
  y : R
  z : R
  w : R

/-- The message `geometry_msgs/Pose`. -/
structure Pose (R : Type) where
  position : Point R
  orientation : Quaternion R

/-- The message `geometry_msgs/PoseStamped`. -/
structure PoseStamped (R : Type) where
  header : Header
  pose : Pose R

/-- The message `nav_msgs/Path`. -/
structure Path (R : Type) where
  header : Header
  poses : List (PoseStamped R)

/-- The message `contrail_msgs/CubicSpline`, with the fields the manager reads. -/
structure CubicSpline (R : Type) where
  header : Header
  t : List R
  x : List R
  y : List R
  z : List R
  yaw : List R

/-- The quotient `((double)num) / den` of two `uint32_t` values, kept as its two
operands: with `den = 0` it is not a finite number. -/
structure DoubleQuot where
  num : Nat
  den : Nat
  deriving DecidableEq, Repr

/-- The rational value of a quotient, when it has one. -/
def DoubleQuot.value (q : DoubleQuot) : Option ℚ :=
  if q.den = 0 then none else some ((q.num : ℚ) / (q.den : ℚ))

/-- The message `contrail_msgs/WaypointProgress`. -/
structure WaypointProgress where
  header : Header
  current : Nat
  progress : DoubleQuot
  deriving DecidableEq, Repr

/-- The message `mavros_msgs/PositionTarget`. -/
structure PositionTarget (R : Type) where
  header : Header
  coordinate_frame : Nat
  type_mask : Nat
  position : Point R
  velocity : Vector3 R
  acceleration_or_force : Vector3 R
  yaw : R
  yaw_rate : R

/-- The type `Eigen::Vector3d`. -/
structure Vector3d (R : Type) where
  x : R
  y : R
  z : R

/-- The type `Eigen::Quaterniond`, in the order of its constructor `(w, x, y, z)`. -/
structure Quaterniond (R : Type) where
  w : R
  x : R
  y : R
  z : R

/-- The type `Eigen::Matrix3d`. -/
abbrev Matrix3d (R : Type) := Matrix (Fin 3) (Fin 3) R

/-- The type `Eigen::Affine3d`: a linear part and a translation. -/
structure Affine3d (R : Type) where
  linear : Matrix3d R
  translation : Vector3d R

/-- The functions of libm and Eigen that the manager calls. -/
structure Numerics (R : Type) where
  /-- The call `std::atan2(y, x)`. -/
  atan2 : R → R → R
  /-- The constant `M_PI`. -/
  pi : R
  /-- The member `Eigen::Vector3d::norm()`. -/
  norm : Vector3d R → R
  /-- The member `Eigen::Quaterniond::normalized()`. -/
  normalized : Quaterniond R → Quaterniond R
  /-- The constructor `Eigen::Quaterniond(const Matrix3d&)`. -/
  quat_of_matrix : Matrix3d R → Quaterniond R
  /-- The member `Eigen::Quaterniond::toRotationMatrix()`. -/
  toRotationMatrix : Quaterniond R → Matrix3d R

/-- The enum `ContrailManager::TrackingRef`. -/
inductive TrackingRef where
  | NONE
  | SPLINE
  | PATH
  | POSE
  deriving DecidableEq, Repr

/-- The data members of `ContrailManager` that carry tracking state. -/
structure ContrailManager (R : Type) where
  pub_discrete_progress_ : List WaypointProgress
  msg_spline_ : CubicSpline R
  msg_path_ : Path R
  msg_pose_ : PoseStamped R
  param_fallback_to_pose_ : Bool
  pose_reached_ : Bool
  path_c_ : Int
  dsp_reached_time_ : Time
  param_hold_duration_ : Duration
  param_dsp_radius_ : R
  param_dsp_yaw_ : R
  tracked_ref_ : TrackingRef

/-- The fields of `contrail::ManagerParamsConfig`; the hold duration is already
converted to a `ros::Duration`. -/
structure ManagerParamsConfig (R : Type) where
  fallback_to_pose : Bool
  waypoint_hold_duration : Duration
  waypoint_radius : R
  waypoint_yaw_accuracy : R

section Model

variable {R : Type} [LinearOrderedField R]

instance : Inhabited (PoseStamped R) := ⟨⟨default, ⟨⟨0, 0, 0⟩, ⟨0, 0, 0, 0⟩⟩⟩⟩

/-! ## Integer conversions -/

/-- The conversion of an `int` to `size_t` (64 bits). -/
def toSizeT (c : Int) : Nat := (c % (2 ^ 64 : Int)).toNat

/-- The conversion of an integer to `uint32_t`. -/
def toU32 (c : Int) : Nat := (c % (2 ^ 32 : Int)).toNat

/-! ## Constants of `mavros_msgs/PositionTarget` -/

def FRAME_LOCAL_NED : Nat := 1
def IGNORE_VX : Nat := 8
def IGNORE_VY : Nat := 16
def IGNORE_VZ : Nat := 32
def IGNORE_AFX : Nat := 64
def IGNORE_AFY : Nat := 128
def IGNORE_AFZ : Nat := 256
def FORCE : Nat := 512
def IGNORE_YAW_RATE : Nat := 2048

/-! ## Geometry helpers -/

/-- Source: `ContrailManager::position_from_msg`. -/
def position_from_msg (p : Point R) : Vector3d R := ⟨p.x, p.y, p.z⟩

/-- Source: `ContrailManager::quaternion_from_msg`. -/
def quaternion_from_msg (num : Numerics R) (q : Quaternion R) : Quaterniond R :=
  num.normalized ⟨q.w, q.x, q.y, q.z⟩

/-- Source: `ContrailManager::yaw_from_quaternion` (the `Eigen::Quaterniond` overload). -/
def yaw_from_quaternion (num : Numerics R) (q : Quaterniond R) : R :=
  let siny := 2 * (q.w * q.z + q.x * q.y)
  let cosy := 1 - 2 * (q.y * q.y + q.z * q.z)
  num.atan2 siny cosy

/-- Source: `ContrailManager::radial_dist`. -/
def radial_dist (num : Numerics R) (a b : Vector3d R) : R :=
  num.norm ⟨a.x - b.x, a.y - b.y, a.z - b.z⟩

/-- Source: `ContrailManager::rotation_dist`. -/
def rotation_dist (num : Numerics R) (a b : R) : R :=
  let rad := |a - b|
  if rad > num.pi then rad - num.pi else rad

/-- Source: `ContrailManager::affine_from_msg`. -/
def affine_from_msg (num : Numerics R) (pose : Pose R) : Affine3d R :=
  { translation := position_from_msg pose.position
    linear := num.toRotationMatrix (quaternion_from_msg num pose.orientation) }

/-- Source: `ContrailManager::target_from_pose` (the `geometry_msgs::Pose` overload);
`now` is the reading of `ros::Time::now()`. -/
def target_from_pose (num : Numerics R) (frame_id : String) (p : Pose R) (now : Time) :
    PositionTarget R :=
  { header := { seq := 0, stamp := now, frame_id := frame_id }
    coordinate_frame := FRAME_LOCAL_NED
    type_mask := IGNORE_VX ||| IGNORE_VY ||| IGNORE_VZ |||
                 IGNORE_AFX ||| IGNORE_AFY ||| IGNORE_AFZ |||
                 FORCE ||| IGNORE_YAW_RATE
    position := p.position
    yaw := yaw_from_quaternion num (quaternion_from_msg num p.orientation)
    velocity := ⟨0, 0, 0⟩
    acceleration_or_force := ⟨0, 0, 0⟩
    yaw_rate := 0 }

/-! ## Validity predicates -/

/-- Source: `ContrailManager::check_msg_spline`. -/
def check_msg_spline (spline : CubicSpline R) (_t : Time) : Bool :=
  let checks : Bool × Bool × Bool × Bool × Bool :=
    if spline.header.stamp > 0 then
      (decide (spline.t.length > 0),
       decide (spline.x.length = spline.t.length),
       decide (spline.y.length = spline.t.length),
       decide (spline.z.length = spline.t.length),
       decide (spline.yaw.length = spline.t.length))
    else (false, false, false, false, false)
  checks.1 && checks.2.1 && checks.2.2.1 && checks.2.2.2.1 && checks.2.2.2.2

/-- Source: `ContrailManager::check_msg_path`. -/
def check_msg_path (path : Path R) : Bool :=
  decide (path.header.stamp > 0) && decide (path.poses.length > 0)

/-- Source: `ContrailManager::check_msg_pose`. -/
def check_msg_pose (pose : PoseStamped R) : Bool :=
  decide (pose.header.stamp > 0)

namespace ContrailManager

/-- Source: `ContrailManager::has_spline_reference`. -/
def has_spline_reference (s : ContrailManager R) (t : Time) : Bool :=
  check_msg_spline s.msg_spline_ t

/-- Source: `ContrailManager::has_path_reference`. -/
def has_path_reference (s : ContrailManager R) : Bool :=
  check_msg_path s.msg_path_

/-- Source: `ContrailManager::has_pose_reference`. -/
def has_pose_reference (s : ContrailManager R) : Bool :=
  check_msg_pose s.msg_pose_

/-- Source: `ContrailManager::has_reference`. -/
def has_reference (s : ContrailManager R) (t : Time) : Bool :=
  s.has_spline_reference t || s.has_path_reference || s.has_pose_reference

/-- Source: `ContrailManager::get_reference_used`. -/
def get_reference_used (s : ContrailManager R) : TrackingRef :=
  s.tracked_ref_

/-! ## Notifications, timer and tolerance -/

/-- Source: `ContrailManager::publish_waypoint_reached`; `wp_c` and `wp_num` are
the `uint32_t` arguments. -/
def publish_waypoint_reached (s : ContrailManager R) (frame_id : String) (t : Time)
    (wp_c wp_num : Nat) : ContrailManager R :=
  let msg_out : WaypointProgress :=
    { header := { seq := 0, stamp := t, frame_id := frame_id }
      current := wp_c
      progress := ⟨wp_c, wp_num⟩ }
  { s with pub_discrete_progress_ := s.pub_discrete_progress_ ++ [msg_out] }

/-- Source: `ContrailManager::reset_waypoint_timer`. -/
def reset_waypoint_timer (s : ContrailManager R) : ContrailManager R :=
  { s with dsp_reached_time_ := 0 }

/-- Source: `ContrailManager::check_waypoint_reached`. -/
def check_waypoint_reached (num : Numerics R) (s : ContrailManager R)
    (pos_s : Vector3d R) (yaw_s : R) (pos_c : Vector3d R) (yaw_c : R) : Bool :=
  decide (radial_dist num pos_s pos_c < s.param_dsp_radius_) &&
    decide (rotation_dist num yaw_s yaw_c < s.param_dsp_yaw_)

/-- Source: `ContrailManager::check_waypoint_complete`. -/
def check_waypoint_complete (s : ContrailManager R) (t : Time) : Bool × ContrailManager R :=
  if s.dsp_reached_time_ = 0 then
    (false, { s with dsp_reached_time_ := t })
  else if ((t : Int) - (s.dsp_reached_time_ : Int)) > s.param_hold_duration_ then
    (true, s)
  else
    (false, s)

/-- Source: `ContrailManager::callback_cfg_settings`. -/
def callback_cfg_settings (s : ContrailManager R) (config : ManagerParamsConfig R) :
    ContrailManager R :=
  { s with
    param_fallback_to_pose_ := config.fallback_to_pose
    param_hold_duration_ := config.waypoint_hold_duration
    param_dsp_radius_ := config.waypoint_radius
    param_dsp_yaw_ := config.waypoint_yaw_accuracy }

/-! ## The tracking state machine -/

/-- Source: `ContrailManager::set_reference_used`. The first component of the
intermediate triple is `success`, the second the (possibly overwritten)
parameter `update_dsp_progress`. -/
def set_reference_used (s : ContrailManager R) (state : TrackingRef) (t : Time)
    (update_dsp_progress : Bool) : Bool × ContrailManager R :=
  let r : Bool × Bool × ContrailManager R :=
    if s.tracked_ref_ ≠ state then
      let d : Bool × Bool :=
        if state = TrackingRef.NONE then
          (true, update_dsp_progress)
        else if state = TrackingRef.SPLINE ∧ s.has_spline_reference t = true then
          (true, update_dsp_progress)
        else if state = TrackingRef.PATH ∧ s.has_path_reference = true then
          (true, true)
        else if state = TrackingRef.POSE ∧ s.has_pose_reference = true then
          (true, if s.pose_reached_ = false then true else update_dsp_progress)
        else
          (false, update_dsp_progress)
      let s1 : ContrailManager R :=
        if d.1 = true then
          let s0 : ContrailManager R := { s with tracked_ref_ := state }
          if s0.tracked_ref_ ≠ TrackingRef.POSE then { s0 with pose_reached_ := false } else s0
        else s
      (d.1, d.2, s1)
    else
      (true, update_dsp_progress, s)
  let s2 : ContrailManager R :=
    if r.2.1 = true then
      if state = TrackingRef.PATH then
        r.2.2.publish_waypoint_reached r.2.2.msg_path_.header.frame_id t
          (toU32 r.2.2.path_c_) (toU32 r.2.2.msg_path_.poses.length)
      else if state = TrackingRef.POSE then
        r.2.2.publish_waypoint_reached r.2.2.msg_pose_.header.frame_id t 0 1
      else r.2.2
    else r.2.2
  (r.1, s2)

/-- Source: `ContrailManager::set_spline_reference`; `tc` is the reading of
`ros::Time::now()`. -/
def set_spline_reference (s : ContrailManager R) (spline : CubicSpline R) (tc : Time) :
    Bool × ContrailManager R :=
  if check_msg_spline spline tc = true then
    let s1 : ContrailManager R := { s with msg_spline_ := spline }
    (true, (s1.set_reference_used TrackingRef.SPLINE tc false).2)
  else
    (false, s)

/-- Source: `ContrailManager::set_discrete_path_reference`; `tc` is the reading
of `ros::Time::now()`. -/
def set_discrete_path_reference (s : ContrailManager R) (path : Path R) (tc : Time) :
    Bool × ContrailManager R :=
  if check_msg_path path = true then
    let s1 : ContrailManager R := ({ s with msg_path_ := path, path_c_ := 0 }).reset_waypoint_timer
    (true, (s1.set_reference_used TrackingRef.PATH tc true).2)
  else
    (false, s)

/-- Source: `ContrailManager::set_discrete_pose_reference`; `tc` is the reading
of `ros::Time::now()`. -/
def set_discrete_pose_reference (s : ContrailManager R) (pose : PoseStamped R)
    (is_fallback : Bool) (tc : Time) : Bool × ContrailManager R :=
  if check_msg_pose pose = true then
    let s1 : ContrailManager R := ({ s with msg_pose_ := pose }).reset_waypoint_timer
    let s2 : ContrailManager R := { s1 with pose_reached_ := is_fallback }
    (true, (s2.set_reference_used TrackingRef.POSE tc (!is_fallback)).2)
  else
    (false, s)

/-! ## Queries -/

/-- Source: `ContrailManager::get_spline_reference`. -/
def get_spline_reference (s : ContrailManager R) (ref : PositionTarget R) (_t : Time) :
    Bool × PositionTarget R × ContrailManager R :=
  (true, ref, s)

/-- The test both discrete queries make: `check_waypoint_reached` of the target
pose `p` against the current pose `g_c`, with the arguments the source builds. -/
def waypoint_reached_at (num : Numerics R) (s : ContrailManager R) (p : Pose R)
    (g_c : Affine3d R) : Bool :=
  s.check_waypoint_reached num
    (position_from_msg p.position)
    (yaw_from_quaternion num (quaternion_from_msg num p.orientation))
    g_c.translation
    (yaw_from_quaternion num (num.quat_of_matrix g_c.linear))

/-- Source: `ContrailManager::get_discrete_path_reference` (the `Eigen::Affine3d`
overload). `tc` is the clock reading inside `set_discrete_pose_reference`, `now`
the one inside `target_from_pose`. An element access `poses[i]` is `getD`; both
accesses are guarded by the validity of the path and the index test. -/
def get_discrete_path_reference (num : Numerics R) (s : ContrailManager R)
    (ref : PositionTarget R) (t : Time) (g_c : Affine3d R) (tc now : Time) :
    Bool × PositionTarget R × ContrailManager R :=
  if s.has_path_reference = true then
    if toSizeT s.path_c_ < s.msg_path_.poses.length then
      let ps_pose : Pose R := (s.msg_path_.poses.getD (toSizeT s.path_c_) default).pose
      let s5 : ContrailManager R :=
        if waypoint_reached_at num s
            (s.msg_path_.poses.getD (toSizeT s.path_c_) default).pose g_c = true then
          let c := s.check_waypoint_complete t
          if c.1 = true then
            let s1 : ContrailManager R :=
              if toSizeT c.2.path_c_ < c.2.msg_path_.poses.length then
                ({ c.2 with path_c_ := c.2.path_c_ + 1 }).reset_waypoint_timer
              else c.2
            let s2 : ContrailManager R :=
              s1.publish_waypoint_reached s1.msg_path_.header.frame_id t
                (toU32 s1.path_c_) (toU32 s1.msg_path_.poses.length)
            if toSizeT s2.path_c_ ≥ s2.msg_path_.poses.length then
              let s3 : ContrailManager R :=
                if s2.param_fallback_to_pose_ = true then
                  let hold : PoseStamped R :=
                    { header := s2.msg_path_.header
                      pose := (s2.msg_path_.poses.getD
                        (s2.msg_path_.poses.length - 1) default).pose }
                  (s2.set_discrete_pose_reference hold true tc).2
                else
                  (s2.set_reference_used TrackingRef.NONE t false).2
              ({ s3 with path_c_ := 0 }).reset_waypoint_timer
            else s2
          else c.2
        else
          s.reset_waypoint_timer
      (true, target_from_pose num s5.msg_path_.header.frame_id ps_pose now, s5)
    else
      (false, ref, s)
  else
    (false, ref, s)

/-- Source: `ContrailManager::get_discrete_pose_reference` (the `Eigen::Affine3d`
overload); `now` is the clock reading inside `target_from_pose`. -/
def get_discrete_pose_reference (num : Numerics R) (s : ContrailManager R)
    (ref : PositionTarget R) (t : Time) (g_c : Affine3d R) (now : Time) :
    Bool × PositionTarget R × ContrailManager R :=
  if s.has_pose_reference = true then
    let s4 : ContrailManager R :=
      if s.pose_reached_ = false then
        if waypoint_reached_at num s s.msg_pose_.pose g_c = true then
          let c := s.check_waypoint_complete t
          if c.1 = true then
            let s1 : ContrailManager R :=
              c.2.publish_waypoint_reached c.2.msg_pose_.header.frame_id t 1 1
            let s2 : ContrailManager R :=
              if s1.param_fallback_to_pose_ = false then
                (s1.set_reference_used TrackingRef.NONE t false).2
              else s1
            ({ s2 with pose_reached_ := true }).reset_waypoint_timer
          else c.2
        else
          s.reset_waypoint_timer
      else s
    (true, target_from_pose num s4.msg_pose_.header.frame_id s4.msg_pose_.pose now, s4)
  else
    (true, ref, s)

/-- Source: `ContrailManager::get_reference` (the `Eigen::Affine3d` overload). -/
def get_reference (num : Numerics R) (s : ContrailManager R) (ref : PositionTarget R)
    (t : Time) (g_c : Affine3d R) (tc now : Time) :
    Bool × PositionTarget R × ContrailManager R :=
  if s.get_reference_used = TrackingRef.SPLINE then
    s.get_spline_reference ref t
  else if s.get_reference_used = TrackingRef.PATH then
    get_discrete_path_reference num s ref t g_c tc now
  else if s.get_reference_used = TrackingRef.POSE then
    get_discrete_pose_reference num s ref t g_c now
  else
    (false, ref, s)

/-- Source: `ContrailManager::get_reference` (the `geometry_msgs::Pose` overload). -/
def get_reference_msg (num : Numerics R) (s : ContrailManager R) (ref : PositionTarget R)
    (t : Time) (p_c : Pose R) (tc now : Time) :
    Bool × PositionTarget R × ContrailManager R :=
  get_reference num s ref t (affine_from_msg num p_c) tc now

/-- Consecutive calls of `check_waypoint_complete` at the given times, with
nothing else touching the manager in between: the results in call order and the
final state. -/
def check_waypoint_complete_seq (s : ContrailManager R) :
    List Time → List Bool × ContrailManager R
  | [] => ([], s)
  | t :: ts =>
    ((s.check_waypoint_complete t).1 :: (check_waypoint_complete_seq (s.check_waypoint_complete t).2 ts).1,
      (check_waypoint_complete_seq (s.check_waypoint_complete t).2 ts).2)

end ContrailManager

/-! ## Sequences of queries -/

/-- The arguments of one `get_reference` call: the query time, the current pose
and the two clock readings. -/
structure Query (R : Type) where
  t : Time
  g_c : Affine3d R
  tc : Time
  now : Time

/-- Consecutive `get_reference` calls with nothing else touching the manager in
between; the caller passes the same setpoint variable to every call. The result
is the setpoint variable and the manager after the last call. -/
def get_reference_run (num : Numerics R) :
    PositionTarget R × ContrailManager R → List (Query R) →
    PositionTarget R × ContrailManager R
  | rs, [] => rs
  | rs, q :: qs =>
    get_reference_run num
      (ContrailManager.get_reference num rs.2 rs.1 q.t q.g_c q.tc q.now).2 qs

/-- The waypoint a `get_reference` query tests the vehicle against, when it
tests one: `path[path_c_]` while PATH is active with a valid path and an index
inside it, the stored pose while POSE is active with a valid pose that is not
yet marked reached. -/
def current_target (s : ContrailManager R) : Option (Pose R) :=
  match s.tracked_ref_ with
  | TrackingRef.PATH =>
    if s.has_path_reference = true ∧ toSizeT s.path_c_ < s.msg_path_.poses.length then
      some (s.msg_path_.poses.getD (toSizeT s.path_c_) default).pose
    else none
  | TrackingRef.POSE =>
    if s.has_pose_reference = true ∧ s.pose_reached_ = false then
      some s.msg_pose_.pose
    else none
  | _ => none

/-- A query with current pose `g_c` is in tolerance: there is a current target
and `check_waypoint_reached` holds for it. -/
def in_tolerance (num : Numerics R) (s : ContrailManager R) (g_c : Affine3d R) : Bool :=
  match current_target s with
  | some p => ContrailManager.waypoint_reached_at num s p g_c
  | none => false

/-- The vehicle at `g_c` is outside the tolerance of the target pose `p`: the
radial distance is at least the radius or the yaw distance at least the yaw
tolerance. -/
def outside_tolerance (num : Numerics R) (s : ContrailManager R) (p : Pose R)
    (g_c : Affine3d R) : Prop :=
  s.param_dsp_radius_ ≤
      radial_dist num (position_from_msg p.position) g_c.translation ∨
  s.param_dsp_yaw_ ≤
      rotation_dist num
        (yaw_from_quaternion num (quaternion_from_msg num p.orientation))
        (yaw_from_quaternion num (num.quat_of_matrix g_c.linear))

/-- Every query of the sequence is in tolerance in the state it is made in. -/
def all_in_tolerance (num : Numerics R) :
    PositionTarget R × ContrailManager R → List (Query R) → Bool
  | _, [] => true
  | rs, q :: qs =>
    in_tolerance num rs.2 q.g_c &&
      all_in_tolerance num
        (ContrailManager.get_reference num rs.2 rs.1 q.t q.g_c q.tc q.now).2 qs

/-! ## Reachable states -/

/-- The state the member initialisers of the constructor produce; the messages
are default-constructed. -/
def ContrailManager.initial : ContrailManager R :=
  { pub_discrete_progress_ := []
    msg_spline_ := { header := default, t := [], x := [], y := [], z := [], yaw := [] }
    msg_path_ := { header := default, poses := [] }
    msg_pose_ := default
    param_fallback_to_pose_ := false
    pose_reached_ := false
    path_c_ := 0
    dsp_reached_time_ := 0
    param_hold_duration_ := 0
    param_dsp_radius_ := 0
    param_dsp_yaw_ := 0
    tracked_ref_ := TrackingRef.NONE }

/-- The states a manager can be in: the state after the member initialisers,
closed under every public member function and every callback (the constructor
body itself only calls `callback_cfg_settings` and
`set_discrete_pose_reference`). An installed path has fewer than `2 ^ 31` poses,
the range of the `int` path index. -/
inductive Reachable (num : Numerics R) : ContrailManager R → Prop where
  | initial : Reachable num ContrailManager.initial
  | callback_cfg_settings (s : ContrailManager R) (config : ManagerParamsConfig R) :
      Reachable num s → Reachable num (s.callback_cfg_settings config)
  | set_reference_used (s : ContrailManager R) (state : TrackingRef) (t : Time)
      (update_dsp_progress : Bool) :
      Reachable num s → Reachable num (s.set_reference_used state t update_dsp_progress).2
  | set_spline_reference (s : ContrailManager R) (spline : CubicSpline R) (tc : Time) :
      Reachable num s → Reachable num (s.set_spline_reference spline tc).2
  | set_discrete_path_reference (s : ContrailManager R) (path : Path R) (tc : Time) :
      path.poses.length < 2 ^ 31 →
      Reachable num s → Reachable num (s.set_discrete_path_reference path tc).2
  | set_discrete_pose_reference (s : ContrailManager R) (pose : PoseStamped R)
      (is_fallback : Bool) (tc : Time) :
      Reachable num s → Reachable num (s.set_discrete_pose_reference pose is_fallback tc).2
  | get_reference (s : ContrailManager R) (ref : PositionTarget R) (t : Time)
      (g_c : Affine3d R) (tc now : Time) :
      Reachable num s →
      Reachable num (ContrailManager.get_reference num s ref t g_c tc now).2.2
  | get_spline_reference (s : ContrailManager R) (ref : PositionTarget R) (t : Time) :
      Reachable num s → Reachable num (s.get_spline_reference ref t).2.2
  | get_discrete_path_reference (s : ContrailManager R) (ref : PositionTarget R) (t : Time)
      (g_c : Affine3d R) (tc now : Time) :
      Reachable num s →
      Reachable num (ContrailManager.get_discrete_path_reference num s ref t g_c tc now).2.2
  | get_discrete_pose_reference (s : ContrailManager R) (ref : PositionTarget R) (t : Time)
      (g_c : Affine3d R) (now : Time) :
      Reachable num s →
      Reachable num (ContrailManager.get_discrete_pose_reference num s ref t g_c now).2.2

/-- What every member function preserves: the path index is not negative, the
stored path has fewer than `2 ^ 31` poses, the index is inside a valid stored
path, and an active POSE has a valid stored pose. -/
def ContrailManager.Consistent (s : ContrailManager R) : Prop :=
  0 ≤ s.path_c_ ∧
  s.msg_path_.poses.length < 2 ^ 31 ∧
  (s.has_path_reference = true → s.path_c_ < (s.msg_path_.poses.length : Int)) ∧
  (s.tracked_ref_ = TrackingRef.POSE → s.has_pose_reference = true)

/-! ## The validity rules in the words of the specification -/

/-- The specification of a valid curve reference: the timestamp is set
(non-zero) and all arrays have equal, nonzero length. -/
def spec_curve_valid (c : CubicSpline R) : Prop :=
  c.header.stamp ≠ 0 ∧
  ∃ n : Nat, n ≠ 0 ∧ c.t.length = n ∧ c.x.length = n ∧ c.y.length = n ∧
    c.z.length = n ∧ c.yaw.length = n

/-- The specification of a valid path reference: the timestamp is set and the
sequence length is greater than 0. -/
def spec_path_valid (p : Path R) : Prop :=
  p.header.stamp ≠ 0 ∧ p.poses.length > 0

/-- The specification of a valid pose reference: the timestamp is set. -/
def spec_pose_valid (q : PoseStamped R) : Prop :=
  q.header.stamp ≠ 0


/-! ## Operation by installs, requests, configuration and `get_reference` -/

/-- The discrete reference (PATH or POSE) that was active most recently: the
active type after an operation if it is discrete, else the one recorded before. -/
def last_discrete (prev active : TrackingRef) : TrackingRef :=
  if active = TrackingRef.PATH ∨ active = TrackingRef.POSE then active else prev

/-- The states reached from the initial state by payload installs,
`set_reference_used` requests, configuration updates and `get_reference`
queries, each with the discrete reference that was active most recently (NONE
while none was ever active). -/
inductive Operated (num : Numerics R) : ContrailManager R → TrackingRef → Prop where
  | initial : Operated num ContrailManager.initial TrackingRef.NONE
  | callback_cfg_settings (s : ContrailManager R) (last : TrackingRef)
      (config : ManagerParamsConfig R) :
      Operated num s last →
      Operated num (s.callback_cfg_settings config)
        (last_discrete last (s.callback_cfg_settings config).tracked_ref_)
  | set_reference_used (s : ContrailManager R) (last : TrackingRef) (state : TrackingRef)
      (t : Time) (update_dsp_progress : Bool) :
      Operated num s last →
      Operated num (s.set_reference_used state t update_dsp_progress).2
        (last_discrete last (s.set_reference_used state t update_dsp_progress).2.tracked_ref_)
  | set_spline_reference (s : ContrailManager R) (last : TrackingRef)
      (spline : CubicSpline R) (tc : Time) :
      Operated num s last →
      Operated num (s.set_spline_reference spline tc).2
        (last_discrete last (s.set_spline_reference spline tc).2.tracked_ref_)
  | set_discrete_path_reference (s : ContrailManager R) (last : TrackingRef)
      (path : Path R) (tc : Time) :
      Operated num s last →
      Operated num (s.set_discrete_path_reference path tc).2
        (last_discrete last (s.set_discrete_path_reference path tc).2.tracked_ref_)
  | set_discrete_pose_reference (s : ContrailManager R) (last : TrackingRef)
      (pose : PoseStamped R) (is_fallback : Bool) (tc : Time) :
      Operated num s last →
      Operated num (s.set_discrete_pose_reference pose is_fallback tc).2
        (last_discrete last (s.set_discrete_pose_reference pose is_fallback tc).2.tracked_ref_)
  | get_reference (s : ContrailManager R) (last : TrackingRef) (ref : PositionTarget R)
      (t : Time) (g_c : Affine3d R) (tc now : Time) :
      Operated num s last →
      Operated num (ContrailManager.get_reference num s ref t g_c tc now).2.2
        (last_discrete last
          (ContrailManager.get_reference num s ref t g_c tc now).2.2.tracked_ref_)

/-- How one operation can change the active type and the reached flag: not at
all, or the flag ends cleared, or POSE ends active, or POSE was active and NONE
ends active. -/
def reached_step (s s1 : ContrailManager R) : Prop :=
  (s1.tracked_ref_ = s.tracked_ref_ ∧ s1.pose_reached_ = s.pose_reached_) ∨
  s1.pose_reached_ = false ∨
  s1.tracked_ref_ = TrackingRef.POSE ∨
  (s.tracked_ref_ = TrackingRef.POSE ∧ s1.tracked_ref_ = TrackingRef.NONE)


/-- The payload of the active type passes its validity check: SPLINE goes with a
valid stored spline (at every query time), PATH with a valid stored path, POSE
with a valid stored pose. -/
def ContrailManager.ActiveValid (s : ContrailManager R) : Prop :=
  (s.tracked_ref_ = TrackingRef.SPLINE → ∀ t : Time, s.has_spline_reference t = true) ∧
  (s.tracked_ref_ = TrackingRef.PATH → s.has_path_reference = true) ∧
  (s.tracked_ref_ = TrackingRef.POSE → s.has_pose_reference = true)


/-! ## Sample data -/

/-- A waypoint at `(x, y, z)` with the identity orientation. -/
def sampleWaypoint (x y z : R) : PoseStamped R :=
  { header := { seq := 0, stamp := 5000000000, frame_id := "map" }
    pose := { position := ⟨x, y, z⟩, orientation := ⟨0, 0, 0, 1⟩ } }

/-- A valid path of two waypoints. -/
def samplePath : Path R :=
  { header := { seq := 0, stamp := 5000000000, frame_id := "map" }
    poses := [sampleWaypoint 0 0 1, sampleWaypoint 2 0 1] }

/-- A default-constructed spline message: zero stamp, empty arrays. -/
def emptySpline : CubicSpline R :=
  { header := default, t := [], x := [], y := [], z := [], yaw := [] }

/-- A manager tracking `samplePath` at its last waypoint, in tolerance since
`t = 10 s`, with no pose and no spline stored, radius `0.5`, yaw tolerance `0.1`
and hold duration `2 s`. -/
def sampleManager (fallback : Bool) : ContrailManager R :=
  { pub_discrete_progress_ := []
    msg_spline_ := emptySpline
    msg_path_ := samplePath
    msg_pose_ := default
    param_fallback_to_pose_ := fallback
    pose_reached_ := false
    path_c_ := 1
    dsp_reached_time_ := 10000000000
    param_hold_duration_ := 2000000000
    param_dsp_radius_ := 1 / 2
    param_dsp_yaw_ := 1 / 10
    tracked_ref_ := TrackingRef.PATH }

/-- The pose of a vehicle at `(x, y, z)` with the identity attitude. -/
def sampleVehicle (x y z : R) : Affine3d R :=
  { linear := 1, translation := ⟨x, y, z⟩ }

/-- An output setpoint before any query wrote to it. -/
def blankTarget : PositionTarget R :=
  { header := default, coordinate_frame := 0, type_mask := 0
    position := ⟨0, 0, 0⟩, velocity := ⟨0, 0, 0⟩, acceleration_or_force := ⟨0, 0, 0⟩
    yaw := 0, yaw_rate := 0 }

/-- A manager as constructed and configured with radius `0.5`, yaw tolerance
`0.1`, hold duration `2 s` and the given fallback flag. -/
def sampleConfigured (fallback : Bool) : ContrailManager R :=
  ContrailManager.initial.callback_cfg_settings
    { fallback_to_pose := fallback
      waypoint_hold_duration := 2000000000
      waypoint_radius := 1 / 2
      waypoint_yaw_accuracy := 1 / 10 }

/-- The configured manager after `samplePath` was installed at `t = 6 s`. -/
def sampleTrackingPath (fallback : Bool) : ContrailManager R :=
  ((sampleConfigured fallback).set_discrete_path_reference samplePath 6000000000).2

/-- The configured manager after a pose at `(2, 0, 1)` was installed at `t = 6 s`. -/
def sampleTrackingPose (fallback : Bool) : ContrailManager R :=
  ((sampleConfigured fallback).set_discrete_pose_reference
    (sampleWaypoint 2 0 1) false 6000000000).2

/-- A query at time `t` by a vehicle at `(x, y, z)` with the identity attitude. -/
def sampleQuery (t : Time) (x y z : R) : Query R :=
  { t := t, g_c := sampleVehicle x y z, tc := t, now := t }

/-- The configured manager after a pose at `(2, 0, 1)` was installed as already
reached at `t = 6 s`. -/
def sampleHoldingPose (fallback : Bool) : ContrailManager R :=
  ((sampleConfigured fallback).set_discrete_pose_reference
    (sampleWaypoint 2 0 1) true 6000000000).2

/-- The manager holding a reached pose after `samplePath` was installed at
`t = 7 s`. -/
def samplePathAfterPose (fallback : Bool) : ContrailManager R :=
  ((sampleHoldingPose fallback).set_discrete_path_reference samplePath 7000000000).2


/-- A valid spline message with two samples. -/
def sampleSpline : CubicSpline R :=
  { header := { seq := 0, stamp := 5000000000, frame_id := "map" }
    t := [0, 1], x := [0, 1], y := [0, 0], z := [1, 1], yaw := [0, 0] }

/-- The manager with the pose at `(2, 0, 1)` stored and unreached, after
`samplePath` was installed at `t = 7 s`: PATH is active at its first waypoint
`(0, 0, 1)`. -/
def samplePathWithPose (fallback : Bool) : ContrailManager R :=
  ((sampleTrackingPose fallback).set_discrete_path_reference samplePath 7000000000).2


end Model

/-! ## The numerics over the real numbers -/

/-- The algorithm of `Eigen::Quaterniond(const Matrix3d&)`, over the reals. -/
noncomputable def realQuatOfMatrix (m : Matrix3d ℝ) : Quaterniond ℝ :=
  if m 0 0 + m 1 1 + m 2 2 > 0 then
    let t := Real.sqrt (m 0 0 + m 1 1 + m 2 2 + 1)
    { w := (1 / 2) * t
      x := (m 2 1 - m 1 2) * ((1 / 2) / t)
      y := (m 0 2 - m 2 0) * ((1 / 2) / t)
      z := (m 1 0 - m 0 1) * ((1 / 2) / t) }
  else if m 2 2 > (if m 1 1 > m 0 0 then m 1 1 else m 0 0) then
    let t := Real.sqrt (m 2 2 - m 0 0 - m 1 1 + 1)
    { z := (1 / 2) * t
      w := (m 1 0 - m 0 1) * ((1 / 2) / t)
      x := (m 0 2 + m 2 0) * ((1 / 2) / t)
      y := (m 1 2 + m 2 1) * ((1 / 2) / t) }
  else if m 1 1 > m 0 0 then
    let t := Real.sqrt (m 1 1 - m 2 2 - m 0 0 + 1)
    { y := (1 / 2) * t
      w := (m 0 2 - m 2 0) * ((1 / 2) / t)
      z := (m 2 1 + m 1 2) * ((1 / 2) / t)
      x := (m 0 1 + m 1 0) * ((1 / 2) / t) }
  else
    let t := Real.sqrt (m 0 0 - m 1 1 - m 2 2 + 1)
    { x := (1 / 2) * t
      w := (m 2 1 - m 1 2) * ((1 / 2) / t)
      y := (m 1 0 + m 0 1) * ((1 / 2) / t)
      z := (m 2 0 + m 0 2) * ((1 / 2) / t) }

/-- The libm and Eigen functions read over the real numbers: `atan2` is the
argument of `x + y i`, `norm` the Euclidean norm, `normalized` divides a
quaternion of non-zero norm by its norm. -/
noncomputable def realNumerics : Numerics ℝ :=
  { atan2 := fun y x => Complex.arg ⟨x, y⟩
    pi := Real.pi
    norm := fun v => Real.sqrt (v.x * v.x + v.y * v.y + v.z * v.z)
    normalized := fun q =>
      if q.w * q.w + q.x * q.x + q.y * q.y + q.z * q.z > 0 then
        { w := q.w / Real.sqrt (q.w * q.w + q.x * q.x + q.y * q.y + q.z * q.z)
          x := q.x / Real.sqrt (q.w * q.w + q.x * q.x + q.y * q.y + q.z * q.z)
          y := q.y / Real.sqrt (q.w * q.w + q.x * q.x + q.y * q.y + q.z * q.z)
          z := q.z / Real.sqrt (q.w * q.w + q.x * q.x + q.y * q.y + q.z * q.z) }
      else q
    quat_of_matrix := realQuatOfMatrix
    toRotationMatrix := fun q =>
      !![1 - (2 * q.y * q.y + 2 * q.z * q.z), 2 * q.y * q.x - 2 * q.z * q.w,
           2 * q.z * q.x + 2 * q.y * q.w;
         2 * q.y * q.x + 2 * q.z * q.w, 1 - (2 * q.x * q.x + 2 * q.z * q.z),
           2 * q.z * q.y - 2 * q.x * q.w;
         2 * q.z * q.x - 2 * q.y * q.w, 2 * q.z * q.y + 2 * q.x * q.w,
           1 - (2 * q.x * q.x + 2 * q.y * q.y)] }

/-! ## Euler angles -/

/-- The Hamilton product of two quaternions. -/
def quat_mul {R : Type} [LinearOrderedField R] (p q : Quaterniond R) : Quaterniond R :=
  { w := p.w * q.w - p.x * q.x - p.y * q.y - p.z * q.z
    x := p.w * q.x + p.x * q.w + p.y * q.z - p.z * q.y
    y := p.w * q.y - p.x * q.z + p.y * q.w + p.z * q.x
    z := p.w * q.z + p.x * q.y - p.y * q.x + p.z * q.w }

/-- The unit quaternion of the Z-Y-X Euler rotation: yaw `psi` about the z axis,
then pitch `theta` about the y axis, then roll `phi` about the x axis. -/
noncomputable def euler_zyx (psi theta phi : ℝ) : Quaterniond ℝ :=
  quat_mul
    (quat_mul ⟨Real.cos (psi / 2), 0, 0, Real.sin (psi / 2)⟩
      ⟨Real.cos (theta / 2), 0, Real.sin (theta / 2), 0⟩)
    ⟨Real.cos (phi / 2), Real.sin (phi / 2), 0, 0⟩

/-- The orientation message that carries a quaternion. -/
def quaternion_to_msg {R : Type} (q : Quaterniond R) : Quaternion R :=
  { x := q.x, y := q.y, z := q.z, w := q.w }


/-! # Theorems -/

section Theorems

variable {R : Type}

open ContrailManager

/-! ## Evaluation of the real numerics on the sample data -/

theorem realQuatOfMatrix_one : realQuatOfMatrix (1 : Matrix3d ℝ) = ⟨1, 0, 0, 0⟩ := by
  have h4 : Real.sqrt (1 + 1 + 1 + 1) = 2 := by
    rw [show (1 + 1 + 1 + 1 : ℝ) = 2 ^ 2 by norm_num]
    exact Real.sqrt_sq (by norm_num)
  have h3 : (0 : ℝ) < 1 + 1 + 1 := by norm_num
  simp [realQuatOfMatrix, h4, h3]

theorem realNumerics_yaw_identity :
    yaw_from_quaternion realNumerics (quaternion_from_msg realNumerics ⟨0, 0, 0, 1⟩) = 0 := by
  have h0 : (⟨1, 0⟩ : ℂ) = 1 := by
    apply Complex.ext <;> simp
  simp [yaw_from_quaternion, quaternion_from_msg, realNumerics, h0]

theorem realNumerics_yaw_vehicle (x y z : ℝ) :
    yaw_from_quaternion realNumerics
      (realNumerics.quat_of_matrix (sampleVehicle x y z).linear) = 0 := by
  have h0 : (⟨1, 0⟩ : ℂ) = 1 := by
    apply Complex.ext <;> simp
  have hq : realNumerics.quat_of_matrix (sampleVehicle x y z).linear = ⟨1, 0, 0, 0⟩ := by
    simp [realNumerics, sampleVehicle, realQuatOfMatrix_one]
  rw [hq]
  simp [yaw_from_quaternion, realNumerics, h0]

/-- With positive tolerances, a vehicle with the identity attitude is in
tolerance of an identity-attitude waypoint at its own position. -/
theorem sample_in_tolerance (s : ContrailManager ℝ) (hr : 0 < s.param_dsp_radius_)
    (hy : 0 < s.param_dsp_yaw_) (x y z : ℝ) :
    waypoint_reached_at realNumerics s
      (sampleWaypoint x y z).pose (sampleVehicle x y z) = true := by
  have hyaw := realNumerics_yaw_identity
  have hv := realNumerics_yaw_vehicle x y z
  unfold waypoint_reached_at check_waypoint_reached
  simp only [sampleWaypoint, hyaw, hv]
  simp [radial_dist, rotation_dist, position_from_msg, sampleVehicle, realNumerics, hr]
  rw [if_neg (not_lt.mpr Real.pi_pos.le)]
  exact hy

/-- With a radius of at most one, a vehicle one unit away from a waypoint is
outside its tolerance. -/
theorem sample_outside_tolerance (s : ContrailManager ℝ) (hr : s.param_dsp_radius_ ≤ 1)
    (x y z : ℝ) :
    outside_tolerance realNumerics s (sampleWaypoint x y z).pose
      (sampleVehicle (x + 1) y z) := by
  left
  simp [radial_dist, position_from_msg, sampleVehicle, sampleWaypoint, realNumerics]
  exact hr

theorem sampleManager_radius_pos (fb : Bool) :
    0 < (sampleManager fb : ContrailManager ℝ).param_dsp_radius_ := by
  simp [sampleManager]

theorem sampleManager_yaw_pos (fb : Bool) :
    0 < (sampleManager fb : ContrailManager ℝ).param_dsp_yaw_ := by
  simp [sampleManager]

/-! ## Conversions -/

theorem toU32_natCast (n : Nat) (h : n < 2 ^ 32) : toU32 (n : Int) = n := by
  unfold toU32
  omega

theorem toSizeT_natCast (n : Nat) (h : n < 2 ^ 64) : toSizeT (n : Int) = n := by
  unfold toSizeT
  omega

/-! ## Payload installation -/

theorem check_msg_spline_false_of_bad (spline : CubicSpline R) (tc : Time)
    (h : spline.header.stamp = 0 ∨
      (spline.t = [] ∨ spline.x = [] ∨ spline.y = [] ∨ spline.z = [] ∨ spline.yaw = []) ∨
      ¬ (spline.x.length = spline.t.length ∧ spline.y.length = spline.t.length ∧
         spline.z.length = spline.t.length ∧ spline.yaw.length = spline.t.length)) :
    check_msg_spline spline tc = false := by
  unfold check_msg_spline
  by_cases hs : spline.header.stamp > 0
  · simp only [hs, if_true]
    rcases h with h | h | h
    · rw [h] at hs
      exact absurd hs (Nat.lt_irrefl 0)
    · by_cases hall : spline.x.length = spline.t.length ∧ spline.y.length = spline.t.length ∧
          spline.z.length = spline.t.length ∧ spline.yaw.length = spline.t.length
      · obtain ⟨hx, hy, hz, hw⟩ := hall
        have ht : spline.t.length = 0 := by
          rcases h with h | h | h | h | h
          · simp [h]
          · rw [← hx]; simp [h]
          · rw [← hy]; simp [h]
          · rw [← hz]; simp [h]
          · rw [← hw]; simp [h]
        simp [ht]
      · simp only [not_and] at hall
        by_cases hx : spline.x.length = spline.t.length
        · by_cases hy : spline.y.length = spline.t.length
          · by_cases hz : spline.z.length = spline.t.length
            · have := hall hx hy hz
              simp [this]
            · simp [hz]
          · simp [hy]
        · simp [hx]
    · simp only [not_and] at h
      by_cases hx : spline.x.length = spline.t.length
      · by_cases hy : spline.y.length = spline.t.length
        · by_cases hz : spline.z.length = spline.t.length
          · have := h hx hy hz
            simp [this]
          · simp [hz]
        · simp [hy]
      · simp [hx]
  · simp [hs]

/-- C1: installing an invalid payload is rejected and changes nothing. For every
manager state, `set_discrete_path_reference` with an empty pose list or a zero
stamp, `set_discrete_pose_reference` with a zero stamp (for either value of
`is_fallback`) and `set_spline_reference` with a zero stamp or with arrays that
are empty or of unequal length return `false` and the unchanged state: every
stored payload, the active type, the path index, the dwell timer, the reached
flag and the list of published notifications are as before. -/
theorem C1_invalid_install_rejected (s : ContrailManager R) (tc : Time) :
    (∀ path : Path R, path.poses = [] ∨ path.header.stamp = 0 →
      s.set_discrete_path_reference path tc = (false, s)) ∧
    (∀ (pose : PoseStamped R) (is_fallback : Bool), pose.header.stamp = 0 →
      s.set_discrete_pose_reference pose is_fallback tc = (false, s)) ∧
    (∀ spline : CubicSpline R,
      (spline.header.stamp = 0 ∨
        (spline.t = [] ∨ spline.x = [] ∨ spline.y = [] ∨ spline.z = [] ∨ spline.yaw = []) ∨
        ¬ (spline.x.length = spline.t.length ∧ spline.y.length = spline.t.length ∧
           spline.z.length = spline.t.length ∧ spline.yaw.length = spline.t.length)) →
      s.set_spline_reference spline tc = (false, s)) := by
  refine ⟨?_, ?_, ?_⟩
  · intro path h
    have hc : check_msg_path path = false := by
      unfold check_msg_path
      rcases h with h | h
      · simp [h]
      · simp [h]
    simp [set_discrete_path_reference, hc]
  · intro pose is_fallback h
    have hc : check_msg_pose pose = false := by
      unfold check_msg_pose
      simp [h]
    simp [set_discrete_pose_reference, hc]
  · intro spline h
    have hc := check_msg_spline_false_of_bad spline tc h
    simp [set_spline_reference, hc]

theorem C1_invalid_install_rejected_witness :
    (sampleManager false : ContrailManager ℚ).set_discrete_path_reference
        { header := { seq := 0, stamp := 7, frame_id := "map" }, poses := [] } 20
      = (false, sampleManager false) ∧
    (sampleManager false : ContrailManager ℚ).set_discrete_pose_reference
        { header := { seq := 0, stamp := 0, frame_id := "map" }
          pose := { position := ⟨1, 2, 3⟩, orientation := ⟨0, 0, 0, 1⟩ } } false 20
      = (false, sampleManager false) ∧
    (sampleManager false : ContrailManager ℚ).set_spline_reference
        { header := { seq := 0, stamp := 7, frame_id := "map" }
          t := [0, 1], x := [0], y := [0, 1], z := [0, 1], yaw := [0, 1] } 20
      = (false, sampleManager false) :=
  ⟨(C1_invalid_install_rejected (sampleManager false) 20).1 _ (Or.inl rfl),
   (C1_invalid_install_rejected (sampleManager false) 20).2.1 _ _ rfl,
   (C1_invalid_install_rejected (sampleManager false) 20).2.2 _
     (Or.inr (Or.inr (by simp)))⟩

/-! ## Requests for a reference type -/

/-- C2: a request for a type whose stored payload is invalid is rejected. For
every manager state and every target among SPLINE, PATH and POSE that differs
from the active type and whose stored payload fails its validity check,
`set_reference_used` returns `false` and leaves the active type, the three
stored payloads, the path index, the dwell timer and the reached flag (and the
configuration) unchanged. -/
theorem C2_switch_to_invalid_rejected (s : ContrailManager R) (target : TrackingRef)
    (t : Time) (flag : Bool)
    (hne : target ≠ s.tracked_ref_)
    (hinv : (target = TrackingRef.SPLINE ∧ s.has_spline_reference t = false) ∨
            (target = TrackingRef.PATH ∧ s.has_path_reference = false) ∨
            (target = TrackingRef.POSE ∧ s.has_pose_reference = false)) :
    (s.set_reference_used target t flag).1 = false ∧
    (s.set_reference_used target t flag).2.tracked_ref_ = s.tracked_ref_ ∧
    (s.set_reference_used target t flag).2.msg_spline_ = s.msg_spline_ ∧
    (s.set_reference_used target t flag).2.msg_path_ = s.msg_path_ ∧
    (s.set_reference_used target t flag).2.msg_pose_ = s.msg_pose_ ∧
    (s.set_reference_used target t flag).2.path_c_ = s.path_c_ ∧
    (s.set_reference_used target t flag).2.dsp_reached_time_ = s.dsp_reached_time_ ∧
    (s.set_reference_used target t flag).2.pose_reached_ = s.pose_reached_ ∧
    (s.set_reference_used target t flag).2.param_fallback_to_pose_ = s.param_fallback_to_pose_ ∧
    (s.set_reference_used target t flag).2.param_hold_duration_ = s.param_hold_duration_ ∧
    (s.set_reference_used target t flag).2.param_dsp_radius_ = s.param_dsp_radius_ ∧
    (s.set_reference_used target t flag).2.param_dsp_yaw_ = s.param_dsp_yaw_ := by
  have hne2 : s.tracked_ref_ ≠ target := fun h => hne h.symm
  rcases hinv with ⟨ht, hv⟩ | ⟨ht, hv⟩ | ⟨ht, hv⟩
  · subst ht
    cases flag <;> simp [set_reference_used, hne2, hv]
  · subst ht
    cases flag <;> simp [set_reference_used, hne2, hv, publish_waypoint_reached]
  · subst ht
    cases flag <;> simp [set_reference_used, hne2, hv, publish_waypoint_reached]

theorem C2_switch_to_invalid_rejected_witness :
    ((sampleManager false : ContrailManager ℚ).set_reference_used
        TrackingRef.POSE 20 true).1 = false ∧
    ((sampleManager false : ContrailManager ℚ).set_reference_used
        TrackingRef.POSE 20 true).2.tracked_ref_ = TrackingRef.PATH :=
  ⟨(C2_switch_to_invalid_rejected (sampleManager false : ContrailManager ℚ)
      TrackingRef.POSE 20 true (by decide) (Or.inr (Or.inr ⟨rfl, rfl⟩))).1,
   (C2_switch_to_invalid_rejected (sampleManager false : ContrailManager ℚ)
      TrackingRef.POSE 20 true (by decide) (Or.inr (Or.inr ⟨rfl, rfl⟩))).2.1⟩

/-- C3: a request for the active type is accepted and is a no-op. For every
manager state `set_reference_used` called with the active type returns `true`
and leaves every field but the list of notifications unchanged, whether or not
the stored payload is valid. With the force flag unset nothing is published;
with it set, exactly one notification is published when the type is PATH,
carrying the path index as `current` and the quotient of the path index by the
path length (both as `uint32_t`), exactly one with `current = 0` and quotient
`0/1` when the type is POSE, and nothing when the type is NONE or SPLINE. The
`uint32_t` conversions are the identity on a path index `i` and a path length
`n` below `2 ^ 32`. -/
theorem C3_same_type_noop (s : ContrailManager R) (t : Time) (flag : Bool) :
    (s.set_reference_used s.tracked_ref_ t flag).1 = true ∧
    (s.set_reference_used s.tracked_ref_ t false).2 = s ∧
    (({ (s.set_reference_used s.tracked_ref_ t flag).2 with
        pub_discrete_progress_ := s.pub_discrete_progress_ } : ContrailManager R) = s) ∧
    (s.tracked_ref_ = TrackingRef.PATH →
      (s.set_reference_used s.tracked_ref_ t true).2.pub_discrete_progress_ =
        s.pub_discrete_progress_ ++
          [{ header := { seq := 0, stamp := t, frame_id := s.msg_path_.header.frame_id }
             current := toU32 s.path_c_
             progress := ⟨toU32 s.path_c_, toU32 s.msg_path_.poses.length⟩ }]) ∧
    (s.tracked_ref_ = TrackingRef.POSE →
      (s.set_reference_used s.tracked_ref_ t true).2.pub_discrete_progress_ =
        s.pub_discrete_progress_ ++
          [{ header := { seq := 0, stamp := t, frame_id := s.msg_pose_.header.frame_id }
             current := 0
             progress := ⟨0, 1⟩ }]) ∧
    (s.tracked_ref_ = TrackingRef.NONE ∨ s.tracked_ref_ = TrackingRef.SPLINE →
      (s.set_reference_used s.tracked_ref_ t flag).2 = s) ∧
    (∀ i n : Nat, s.path_c_ = (i : Int) → s.msg_path_.poses.length = n →
      i < 2 ^ 32 → n < 2 ^ 32 →
      toU32 s.path_c_ = i ∧ toU32 s.msg_path_.poses.length = n) := by
  refine ⟨?_, ?_, ?_, ?_, ?_, ?_, ?_⟩
  · simp [set_reference_used]
  · simp [set_reference_used]
  · rcases s with ⟨pub, sp, pa, po, fb, pr, pc, tm, hd, rad, yw, tr⟩
    cases tr <;> cases flag <;> simp [set_reference_used, publish_waypoint_reached]
  · intro h
    simp [set_reference_used, publish_waypoint_reached, h]
  · intro h
    simp [set_reference_used, publish_waypoint_reached, h]
  · intro h
    rcases h with h | h <;> cases flag <;> simp [set_reference_used, h]
  · intro i n hi hn hi2 hn2
    rw [hi, hn]
    exact ⟨toU32_natCast i hi2, toU32_natCast n hn2⟩

theorem C3_same_type_noop_witness :
    ((sampleManager false : ContrailManager ℚ).set_reference_used
        TrackingRef.PATH 20 true).2.pub_discrete_progress_ =
      [{ header := { seq := 0, stamp := 20, frame_id := "map" }
         current := toU32 1
         progress := ⟨toU32 1, toU32 2⟩ }] ∧
    toU32 1 = 1 ∧ toU32 2 = 2 :=
  ⟨(C3_same_type_noop (sampleManager false : ContrailManager ℚ) 20 true).2.2.2.1 rfl,
   (C3_same_type_noop (sampleManager false : ContrailManager ℚ) 20 true).2.2.2.2.2.2
     1 2 rfl rfl (by norm_num) (by norm_num)⟩

/-- C4: a request for NONE is always accepted. For every manager state, time and
force flag, `set_reference_used` with target NONE returns `true`, the active
type afterwards is NONE, nothing is published and the stored payloads, the path
index, the dwell timer and the configuration are unchanged. -/
theorem C4_none_always_accepted (s : ContrailManager R) (t : Time) (flag : Bool) :
    (s.set_reference_used TrackingRef.NONE t flag).1 = true ∧
    (s.set_reference_used TrackingRef.NONE t flag).2.tracked_ref_ = TrackingRef.NONE ∧
    (s.set_reference_used TrackingRef.NONE t flag).2.pub_discrete_progress_ =
      s.pub_discrete_progress_ ∧
    (s.set_reference_used TrackingRef.NONE t flag).2.msg_spline_ = s.msg_spline_ ∧
    (s.set_reference_used TrackingRef.NONE t flag).2.msg_path_ = s.msg_path_ ∧
    (s.set_reference_used TrackingRef.NONE t flag).2.msg_pose_ = s.msg_pose_ ∧
    (s.set_reference_used TrackingRef.NONE t flag).2.path_c_ = s.path_c_ ∧
    (s.set_reference_used TrackingRef.NONE t flag).2.dsp_reached_time_ = s.dsp_reached_time_ ∧
    (s.set_reference_used TrackingRef.NONE t flag).2.param_fallback_to_pose_ =
      s.param_fallback_to_pose_ ∧
    (s.set_reference_used TrackingRef.NONE t flag).2.param_hold_duration_ =
      s.param_hold_duration_ ∧
    (s.set_reference_used TrackingRef.NONE t flag).2.param_dsp_radius_ = s.param_dsp_radius_ ∧
    (s.set_reference_used TrackingRef.NONE t flag).2.param_dsp_yaw_ = s.param_dsp_yaw_ := by
  by_cases h : s.tracked_ref_ = TrackingRef.NONE
  · cases flag <;> simp [set_reference_used, h]
  · cases flag <;> simp [set_reference_used, h]

/-! ## Queries without an active reference -/

/-- C5: a query without an active reference fails and changes nothing. For every
manager state whose active type is NONE, every time and every current pose,
`get_reference` returns `false`, the output setpoint as it was passed in and the
unchanged state (payloads, active type, path index, dwell timer, reached flag,
list of published notifications). -/
theorem C5_get_reference_none [LinearOrderedField R] (num : Numerics R) (s : ContrailManager R)
    (ref : PositionTarget R) (t : Time) (g_c : Affine3d R) (tc now : Time)
    (h : s.tracked_ref_ = TrackingRef.NONE) :
    get_reference num s ref t g_c tc now = (false, ref, s) := by
  simp [get_reference, get_reference_used, h]

theorem C5_get_reference_none_witness :
    get_reference realNumerics
      ({ (sampleManager false : ContrailManager ℝ) with tracked_ref_ := TrackingRef.NONE })
      blankTarget 20 (sampleVehicle 2 0 1) 21 22
    = (false, blankTarget,
       { (sampleManager false : ContrailManager ℝ) with tracked_ref_ := TrackingRef.NONE }) :=
  C5_get_reference_none realNumerics _ blankTarget 20 (sampleVehicle 2 0 1) 21 22 rfl

/-! ## Dwell timing -/

theorem check_waypoint_complete_seq_running (ts : List Time) (s : ContrailManager R)
    (h : s.dsp_reached_time_ ≠ 0) :
    check_waypoint_complete_seq s ts =
      (ts.map (fun tk : Time =>
          decide ((tk : Int) - (s.dsp_reached_time_ : Int) > s.param_hold_duration_)), s) := by
  induction ts with
  | nil => rfl
  | cons t ts ih =>
    have hstep : (s.check_waypoint_complete t).2 = s := by
      unfold check_waypoint_complete
      rw [if_neg h]
      split <;> rfl
    have hres : (s.check_waypoint_complete t).1 =
        decide ((t : Int) - (s.dsp_reached_time_ : Int) > s.param_hold_duration_) := by
      unfold check_waypoint_complete
      rw [if_neg h]
      split
      · next hgt => simp [hgt]
      · next hgt => simp [hgt]
    simp only [check_waypoint_complete_seq, hstep, hres, ih, List.map_cons]

/-- C6: dwell timing of `check_waypoint_complete`. Starting from an unset dwell
timer, for consecutive calls at a non-zero time `t0` and then at any times
`ts`, the call at `t0` returns `false` and sets the timer to `t0`, and the call
at each later time `tk` returns `true` exactly when `tk - t0 > hold` (strictly);
the timer still holds `t0` at the end. With a hold duration of 2 s and
`t0 = 10 s`: the calls at 11.9 s and at 12.0 s return `false`; for any further
calls at times up to 12.0 s, followed by a call at a time after 12.0 s, that
last call is the first to return `true`. -/
theorem C6_dwell_timing (s : ContrailManager R) (h0 : s.dsp_reached_time_ = 0) :
    (∀ (t0 : Time) (ts : List Time), t0 ≠ 0 →
      check_waypoint_complete_seq s (t0 :: ts) =
        (false :: ts.map (fun tk : Time =>
            decide ((tk : Int) - (t0 : Int) > s.param_hold_duration_)),
         { s with dsp_reached_time_ := t0 })) ∧
    (s.param_hold_duration_ = 2000000000 →
      (check_waypoint_complete_seq s [10000000000, 11900000000, 12000000000]).1 =
        [false, false, false] ∧
      ∀ (ts : List Time) (t : Time), (∀ tk ∈ ts, tk ≤ 12000000000) → t > 12000000000 →
        (check_waypoint_complete_seq s (10000000000 :: (ts ++ [t]))).1 =
          false :: (List.replicate ts.length false ++ [true])) := by
  have hgen : ∀ (t0 : Time) (ts : List Time), t0 ≠ 0 →
      check_waypoint_complete_seq s (t0 :: ts) =
        (false :: ts.map (fun tk : Time =>
            decide ((tk : Int) - (t0 : Int) > s.param_hold_duration_)),
         { s with dsp_reached_time_ := t0 }) := by
    intro t0 ts ht0
    have hfirst : s.check_waypoint_complete t0 = (false, { s with dsp_reached_time_ := t0 }) := by
      unfold check_waypoint_complete
      rw [if_pos h0]
    have hrun := check_waypoint_complete_seq_running ts
      ({ s with dsp_reached_time_ := t0 } : ContrailManager R) ht0
    simp only [check_waypoint_complete_seq, hfirst, hrun]
  refine ⟨hgen, ?_⟩
  intro hh
  refine ⟨?_, ?_⟩
  · rw [hgen 10000000000 _ (by norm_num)]
    simp [hh]
  · intro ts t hts ht
    rw [hgen 10000000000 _ (by norm_num)]
    simp only [hh, List.map_append, List.map_cons, List.map_nil]
    have hmap : ts.map (fun tk : Time =>
        decide ((tk : Int) - ((10000000000 : Time) : Int) > (2000000000 : Int))) =
        List.replicate ts.length false := by
      apply List.eq_replicate_iff.mpr
      refine ⟨by simp, ?_⟩
      intro b hb
      rw [List.mem_map] at hb
      obtain ⟨tk, htk, rfl⟩ := hb
      have hle := hts tk htk
      simp only [decide_eq_false_iff_not, gt_iff_lt, not_lt]
      push_cast
      unfold Time at *
      omega
    have hlast : decide ((t : Int) - ((10000000000 : Time) : Int) > (2000000000 : Int)) = true := by
      simp only [decide_eq_true_eq, gt_iff_lt]
      push_cast
      unfold Time at *
      omega
    rw [hmap, hlast]

theorem C6_dwell_timing_witness :
    check_waypoint_complete_seq
      ({ (sampleManager false : ContrailManager ℚ) with dsp_reached_time_ := 0 })
      [10000000000, 11900000000, 12000000000, 12000000001] =
    ([false, false, false, true],
      { (sampleManager false : ContrailManager ℚ) with dsp_reached_time_ := 10000000000 }) := by
  have h := (C6_dwell_timing
    ({ (sampleManager false : ContrailManager ℚ) with dsp_reached_time_ := 0 }) rfl).1
    10000000000 [11900000000, 12000000000, 12000000001] (by norm_num)
  rw [h]
  simp [sampleManager]

/-! ## Steps of the completion detector -/

theorem check_waypoint_complete_start (s : ContrailManager R) (t : Time)
    (h : s.dsp_reached_time_ = 0) :
    s.check_waypoint_complete t = (false, { s with dsp_reached_time_ := t }) := by
  unfold check_waypoint_complete
  rw [if_pos h]

theorem check_waypoint_complete_done (s : ContrailManager R) (t : Time)
    (h : s.dsp_reached_time_ ≠ 0)
    (hd : (t : Int) - (s.dsp_reached_time_ : Int) > s.param_hold_duration_) :
    s.check_waypoint_complete t = (true, s) := by
  unfold check_waypoint_complete
  rw [if_neg h, if_pos hd]

theorem check_waypoint_complete_wait (s : ContrailManager R) (t : Time)
    (h : s.dsp_reached_time_ ≠ 0)
    (hd : ¬ (t : Int) - (s.dsp_reached_time_ : Int) > s.param_hold_duration_) :
    s.check_waypoint_complete t = (false, s) := by
  unfold check_waypoint_complete
  rw [if_neg h, if_neg hd]

theorem toSizeT_pred (n : Nat) (h1 : 1 ≤ n) (h2 : n < 2 ^ 31) :
    toSizeT ((n : Int) - 1) = n - 1 := by
  unfold toSizeT
  omega

theorem DoubleQuot_value_self (n : Nat) (h : 1 ≤ n) :
    DoubleQuot.value ⟨n, n⟩ = some 1 := by
  have hn : n ≠ 0 := by omega
  have hq : ((n : ℚ)) ≠ 0 := by exact_mod_cast hn
  simp [DoubleQuot.value, hn, div_self hq]

/-! ## Completion of the final waypoint -/

/-- C8: completion of the final waypoint with the fallback disabled. For every
valid stored path of length `n >= 1` (with `n` in the range of the `int` path
index), with PATH active, path index `n - 1`, fallback-to-pose off and the dwell
timer set, a `get_reference` query that is in tolerance of `path[n-1]` and has
`t - timer > hold` returns success with the setpoint built from `path[n-1]`.
Afterwards the active type is NONE, the path index is 0, the dwell timer is
unset, the reached flag is clear, every other field is unchanged, and exactly
one notification was published, with `current = n` and quotient `n/n`, whose
value is 1. -/
theorem C8_final_waypoint_no_fallback [LinearOrderedField R] (num : Numerics R)
    (s : ContrailManager R) (ref : PositionTarget R) (t : Time) (g_c : Affine3d R)
    (tc now : Time) (n : Nat) (wp : PoseStamped R)
    (hvalid : s.has_path_reference = true)
    (hlen : s.msg_path_.poses.length = n) (hn : 1 ≤ n) (hint : n < 2 ^ 31)
    (hactive : s.tracked_ref_ = TrackingRef.PATH)
    (hidx : s.path_c_ = (n : Int) - 1)
    (hfb : s.param_fallback_to_pose_ = false)
    (htimer : s.dsp_reached_time_ ≠ 0)
    (hwp : s.msg_path_.poses[n - 1]? = some wp)
    (htol : waypoint_reached_at num s wp.pose g_c = true)
    (hdwell : (t : Int) - (s.dsp_reached_time_ : Int) > s.param_hold_duration_) :
    get_reference num s ref t g_c tc now =
      (true,
       target_from_pose num s.msg_path_.header.frame_id wp.pose now,
       { s with
         tracked_ref_ := TrackingRef.NONE
         pose_reached_ := false
         path_c_ := 0
         dsp_reached_time_ := 0
         pub_discrete_progress_ := s.pub_discrete_progress_ ++
           [{ header := { seq := 0, stamp := t, frame_id := s.msg_path_.header.frame_id }
              current := n
              progress := ⟨n, n⟩ }] }) ∧
    DoubleQuot.value ⟨n, n⟩ = some 1 := by
  refine ⟨?_, DoubleQuot_value_self n hn⟩
  have hsz : toSizeT s.path_c_ = n - 1 := by rw [hidx]; exact toSizeT_pred n hn hint
  have hget : s.msg_path_.poses.getD (n - 1) default = wp := by
    rw [List.getD_eq_getElem?_getD, hwp]; rfl
  have hc := check_waypoint_complete_done s t htimer hdwell
  have hlt : n - 1 < n := by omega
  have hinc : s.path_c_ + 1 = (n : Int) := by rw [hidx]; ring
  have hszn : toSizeT (n : Int) = n := toSizeT_natCast n (by omega)
  have hu32 : toU32 (n : Int) = n := toU32_natCast n (by omega)
  unfold get_reference
  simp only [get_reference_used, hactive]
  unfold get_discrete_path_reference
  simp only [hvalid, hlen, hsz, hget, htol, hc, hlt, if_true]
  simp [hlen, hlt, hinc, hszn, hu32, reset_waypoint_timer, publish_waypoint_reached,
    hfb, set_reference_used, hactive]

theorem C8_final_waypoint_no_fallback_witness :
    get_reference realNumerics (sampleManager false) blankTarget 13000000000
        (sampleVehicle 2 0 1) 21 22 =
      (true,
       target_from_pose realNumerics "map" (sampleWaypoint 2 0 1).pose 22,
       { (sampleManager false : ContrailManager ℝ) with
         tracked_ref_ := TrackingRef.NONE
         pose_reached_ := false
         path_c_ := 0
         dsp_reached_time_ := 0
         pub_discrete_progress_ :=
           [{ header := { seq := 0, stamp := 13000000000, frame_id := "map" }
              current := 2
              progress := ⟨2, 2⟩ }] }) :=
  (C8_final_waypoint_no_fallback realNumerics (sampleManager false) blankTarget 13000000000
    (sampleVehicle 2 0 1) 21 22 2 (sampleWaypoint 2 0 1)
    rfl rfl (by norm_num) (by norm_num) rfl rfl rfl (by decide) rfl
    (sample_in_tolerance _ (sampleManager_radius_pos false) (sampleManager_yaw_pos false) 2 0 1)
    (by decide)).1

theorem get_reference_run_fixed [LinearOrderedField R] (num : Numerics R)
    (s : ContrailManager R)
    (h : ∀ (ref : PositionTarget R) (q : Query R),
      (get_reference num s ref q.t q.g_c q.tc q.now).2.2 = s)
    (qs : List (Query R)) (ref : PositionTarget R) :
    (get_reference_run num (ref, s) qs).2 = s := by
  induction qs generalizing ref with
  | nil => rfl
  | cons q qs ih =>
    have hstep : (get_reference num s ref q.t q.g_c q.tc q.now).2 =
        ((get_reference num s ref q.t q.g_c q.tc q.now).2.1, s) :=
      Prod.ext rfl (h ref q)
    show (get_reference_run num (get_reference num s ref q.t q.g_c q.tc q.now).2 qs).2 = s
    rw [hstep]
    exact ih _

/-- C9: completion of the final waypoint with the fallback enabled. For every
valid stored path of length `n >= 1` (in the range of the `int` path index) with
PATH active, path index `n - 1` and fallback-to-pose on, the `get_reference`
query that completes `path[n-1]` (in tolerance, timer set, `t - timer > hold`)
returns the setpoint of `path[n-1]` and leaves the active type POSE, the stored
pose equal to `path[n-1]` under the header of the path, the reached flag set,
the path index 0, the dwell timer unset and every other field unchanged; it
publishes exactly one notification, with `current = n` and quotient `n/n` of
value 1. From that state every `get_reference` query, for any time, current
pose and clock readings, returns success with the setpoint of that pose and
leaves the state (so also the published list) unchanged, and so does every
sequence of such queries. -/
theorem C9_final_waypoint_fallback [LinearOrderedField R] (num : Numerics R)
    (s : ContrailManager R) (ref : PositionTarget R) (t : Time) (g_c : Affine3d R)
    (tc now : Time) (n : Nat) (wp : PoseStamped R)
    (hvalid : s.has_path_reference = true)
    (hlen : s.msg_path_.poses.length = n) (hn : 1 ≤ n) (hint : n < 2 ^ 31)
    (hactive : s.tracked_ref_ = TrackingRef.PATH)
    (hidx : s.path_c_ = (n : Int) - 1)
    (hfb : s.param_fallback_to_pose_ = true)
    (htimer : s.dsp_reached_time_ ≠ 0)
    (hwp : s.msg_path_.poses[n - 1]? = some wp)
    (htol : waypoint_reached_at num s wp.pose g_c = true)
    (hdwell : (t : Int) - (s.dsp_reached_time_ : Int) > s.param_hold_duration_) :
    ∀ s1 : ContrailManager R,
      s1 = { s with
             tracked_ref_ := TrackingRef.POSE
             msg_pose_ := { header := s.msg_path_.header, pose := wp.pose }
             pose_reached_ := true
             path_c_ := 0
             dsp_reached_time_ := 0
             pub_discrete_progress_ := s.pub_discrete_progress_ ++
               [{ header := { seq := 0, stamp := t, frame_id := s.msg_path_.header.frame_id }
                  current := n
                  progress := ⟨n, n⟩ }] } →
      get_reference num s ref t g_c tc now =
        (true, target_from_pose num s.msg_path_.header.frame_id wp.pose now, s1) ∧
      DoubleQuot.value ⟨n, n⟩ = some 1 ∧
      (∀ (ref2 : PositionTarget R) (t2 : Time) (g2 : Affine3d R) (tc2 now2 : Time),
        get_reference num s1 ref2 t2 g2 tc2 now2 =
          (true, target_from_pose num s.msg_path_.header.frame_id wp.pose now2, s1)) ∧
      (∀ (ref2 : PositionTarget R) (qs : List (Query R)),
        (get_reference_run num (ref2, s1) qs).2 = s1) := by
  intro s1 hs1
  have hstamp : s.msg_path_.header.stamp > 0 := by
    have := hvalid
    simp only [has_path_reference, check_msg_path, Bool.and_eq_true, decide_eq_true_eq] at this
    exact this.1
  have hlater : ∀ (ref2 : PositionTarget R) (t2 : Time) (g2 : Affine3d R) (tc2 now2 : Time),
      get_reference num s1 ref2 t2 g2 tc2 now2 =
        (true, target_from_pose num s.msg_path_.header.frame_id wp.pose now2, s1) := by
    intro ref2 t2 g2 tc2 now2
    subst hs1
    simp [get_reference, get_reference_used, get_discrete_pose_reference, has_pose_reference,
      check_msg_pose, hstamp]
  refine ⟨?_, DoubleQuot_value_self n hn, hlater, ?_⟩
  · have hsz : toSizeT s.path_c_ = n - 1 := by rw [hidx]; exact toSizeT_pred n hn hint
    have hget : s.msg_path_.poses.getD (n - 1) default = wp := by
      rw [List.getD_eq_getElem?_getD, hwp]; rfl
    have hc := check_waypoint_complete_done s t htimer hdwell
    have hlt : n - 1 < n := by omega
    have hinc : s.path_c_ + 1 = (n : Int) := by rw [hidx]; ring
    have hszn : toSizeT (n : Int) = n := toSizeT_natCast n (by omega)
    have hu32 : toU32 (n : Int) = n := toU32_natCast n (by omega)
    have hge : ∀ h : n - 1 < s.msg_path_.poses.length, s.msg_path_.poses[n - 1] = wp := by
      intro h
      rw [List.getElem?_eq_getElem h] at hwp
      exact Option.some.inj hwp
    subst hs1
    unfold get_reference
    simp only [get_reference_used, hactive]
    unfold get_discrete_path_reference
    simp only [hvalid, hlen, hsz, hget, htol, hc, hlt, if_true]
    simp [hlen, hlt, hinc, hszn, hu32, hge, reset_waypoint_timer, publish_waypoint_reached,
      hfb, set_reference_used, set_discrete_pose_reference, check_msg_pose, hstamp,
      has_pose_reference, hactive]
  · intro ref2 qs
    apply get_reference_run_fixed
    intro ref3 q
    rw [hlater]

theorem C9_final_waypoint_fallback_witness :
    get_reference realNumerics (sampleManager true) blankTarget 13000000000
        (sampleVehicle 2 0 1) 21 22 =
      (true,
       target_from_pose realNumerics "map" (sampleWaypoint 2 0 1).pose 22,
       { (sampleManager true : ContrailManager ℝ) with
         tracked_ref_ := TrackingRef.POSE
         msg_pose_ := { header := (samplePath : Path ℝ).header, pose := (sampleWaypoint 2 0 1).pose }
         pose_reached_ := true
         path_c_ := 0
         dsp_reached_time_ := 0
         pub_discrete_progress_ :=
           [{ header := { seq := 0, stamp := 13000000000, frame_id := "map" }
              current := 2
              progress := ⟨2, 2⟩ }] }) :=
  (C9_final_waypoint_fallback realNumerics (sampleManager true) blankTarget 13000000000
    (sampleVehicle 2 0 1) 21 22 2 (sampleWaypoint 2 0 1)
    rfl rfl (by norm_num) (by norm_num) rfl rfl rfl (by decide) rfl
    (sample_in_tolerance _ (sampleManager_radius_pos true) (sampleManager_yaw_pos true) 2 0 1)
    (by decide) _ rfl).1

/-! ## Completion of a pose reference -/

theorem check_waypoint_complete_true (s : ContrailManager R) (t : Time)
    (h : (s.check_waypoint_complete t).1 = true) :
    s.dsp_reached_time_ ≠ 0 ∧
    (t : Int) - (s.dsp_reached_time_ : Int) > s.param_hold_duration_ ∧
    s.check_waypoint_complete t = (true, s) := by
  unfold check_waypoint_complete at h ⊢
  by_cases h0 : s.dsp_reached_time_ = 0
  · rw [if_pos h0] at h
    exact absurd h (by simp)
  · rw [if_neg h0] at h ⊢
    by_cases hd : (t : Int) - (s.dsp_reached_time_ : Int) > s.param_hold_duration_
    · rw [if_pos hd]
      exact ⟨h0, hd, rfl⟩
    · rw [if_neg hd] at h
      exact absurd h (by simp)

/-- C10: completion of a pose reference. With POSE active, a valid stored pose
and the reached flag unset, a `get_reference` query that is in tolerance of the
stored pose and for which `check_waypoint_complete` returns `true` returns
success with the setpoint of the stored pose, publishes exactly one
notification (`current = 1`, quotient `1/1`), sets the reached flag and leaves
the dwell timer unset; the active type afterwards is POSE when fallback-to-pose
is enabled and NONE when it is disabled; every other field is unchanged. -/
theorem C10_pose_completion [LinearOrderedField R] (num : Numerics R)
    (s : ContrailManager R) (ref : PositionTarget R) (t : Time) (g_c : Affine3d R)
    (tc now : Time)
    (hactive : s.tracked_ref_ = TrackingRef.POSE)
    (hvalid : s.has_pose_reference = true)
    (hreached : s.pose_reached_ = false)
    (htol : waypoint_reached_at num s s.msg_pose_.pose g_c = true)
    (hcomplete : (s.check_waypoint_complete t).1 = true) :
    get_reference num s ref t g_c tc now =
      (true,
       target_from_pose num s.msg_pose_.header.frame_id s.msg_pose_.pose now,
       { s with
         tracked_ref_ :=
           if s.param_fallback_to_pose_ = true then TrackingRef.POSE else TrackingRef.NONE
         pose_reached_ := true
         dsp_reached_time_ := 0
         pub_discrete_progress_ := s.pub_discrete_progress_ ++
           [{ header := { seq := 0, stamp := t, frame_id := s.msg_pose_.header.frame_id }
              current := 1
              progress := ⟨1, 1⟩ }] }) ∧
    DoubleQuot.value ⟨1, 1⟩ = some 1 := by
  refine ⟨?_, DoubleQuot_value_self 1 (le_refl 1)⟩
  obtain ⟨_, _, hc⟩ := check_waypoint_complete_true s t hcomplete
  unfold get_reference
  simp only [get_reference_used, hactive]
  unfold get_discrete_pose_reference
  simp only [hvalid, hreached, htol, hc, if_true]
  cases hfb : s.param_fallback_to_pose_
  · simp [hfb, reset_waypoint_timer, publish_waypoint_reached, set_reference_used, hactive]
  · simp [hfb, reset_waypoint_timer, publish_waypoint_reached, hactive]

theorem C10_pose_completion_witness :
    (get_reference realNumerics
        ({ (sampleManager false : ContrailManager ℝ) with
           tracked_ref_ := TrackingRef.POSE, msg_pose_ := sampleWaypoint 2 0 1 })
        blankTarget 13000000000 (sampleVehicle 2 0 1) 21 22).1 = true ∧
    (get_reference realNumerics
        ({ (sampleManager false : ContrailManager ℝ) with
           tracked_ref_ := TrackingRef.POSE, msg_pose_ := sampleWaypoint 2 0 1 })
        blankTarget 13000000000 (sampleVehicle 2 0 1) 21 22).2.2.tracked_ref_ =
      TrackingRef.NONE ∧
    (get_reference realNumerics
        ({ (sampleManager false : ContrailManager ℝ) with
           tracked_ref_ := TrackingRef.POSE, msg_pose_ := sampleWaypoint 2 0 1 })
        blankTarget 13000000000 (sampleVehicle 2 0 1) 21 22).2.2.pub_discrete_progress_ =
      [{ header := { seq := 0, stamp := 13000000000, frame_id := "map" }
         current := 1
         progress := ⟨1, 1⟩ }] := by
  have h := (C10_pose_completion realNumerics
    ({ (sampleManager false : ContrailManager ℝ) with
       tracked_ref_ := TrackingRef.POSE, msg_pose_ := sampleWaypoint 2 0 1 })
    blankTarget 13000000000 (sampleVehicle 2 0 1) 21 22 rfl rfl rfl
    (sample_in_tolerance _ (sampleManager_radius_pos false) (sampleManager_yaw_pos false) 2 0 1)
    (by decide)).1
  rw [h]
  exact ⟨rfl, rfl, rfl⟩

/-! ## The cases of a path query -/

theorem has_path_reference_stamp (s : ContrailManager R) (h : s.has_path_reference = true) :
    s.msg_path_.header.stamp > 0 ∧ s.msg_path_.poses.length > 0 := by
  simpa [has_path_reference, check_msg_path] using h

theorem get_discrete_path_reference_skip [LinearOrderedField R] (num : Numerics R)
    (s : ContrailManager R) (ref : PositionTarget R) (t : Time) (g_c : Affine3d R)
    (tc now : Time)
    (h : ¬ (s.has_path_reference = true ∧ toSizeT s.path_c_ < s.msg_path_.poses.length)) :
    get_discrete_path_reference num s ref t g_c tc now = (false, ref, s) := by
  unfold get_discrete_path_reference
  by_cases hv : s.has_path_reference = true
  · have hi : ¬ toSizeT s.path_c_ < s.msg_path_.poses.length := fun hi => h ⟨hv, hi⟩
    rw [if_pos hv, if_neg hi]
  · rw [if_neg hv]

theorem get_discrete_path_reference_outside [LinearOrderedField R] (num : Numerics R)
    (s : ContrailManager R) (ref : PositionTarget R) (t : Time) (g_c : Affine3d R)
    (tc now : Time)
    (hv : s.has_path_reference = true)
    (hi : toSizeT s.path_c_ < s.msg_path_.poses.length)
    (htol : waypoint_reached_at num s
      (s.msg_path_.poses.getD (toSizeT s.path_c_) default).pose g_c = false) :
    get_discrete_path_reference num s ref t g_c tc now =
      (true,
       target_from_pose num s.msg_path_.header.frame_id
         (s.msg_path_.poses.getD (toSizeT s.path_c_) default).pose now,
       { s with dsp_reached_time_ := 0 }) := by
  unfold get_discrete_path_reference
  rw [if_pos hv, if_pos hi]
  simp only [htol]
  simp [reset_waypoint_timer]

theorem get_discrete_path_reference_dwelling [LinearOrderedField R] (num : Numerics R)
    (s : ContrailManager R) (ref : PositionTarget R) (t : Time) (g_c : Affine3d R)
    (tc now : Time)
    (hv : s.has_path_reference = true)
    (hi : toSizeT s.path_c_ < s.msg_path_.poses.length)
    (htol : waypoint_reached_at num s
      (s.msg_path_.poses.getD (toSizeT s.path_c_) default).pose g_c = true)
    (hc : (s.check_waypoint_complete t).1 = false) :
    get_discrete_path_reference num s ref t g_c tc now =
      (true,
       target_from_pose num s.msg_path_.header.frame_id
         (s.msg_path_.poses.getD (toSizeT s.path_c_) default).pose now,
       { s with
         dsp_reached_time_ := if s.dsp_reached_time_ = 0 then t else s.dsp_reached_time_ }) := by
  have hc2 : (s.check_waypoint_complete t).2 =
      { s with
        dsp_reached_time_ := if s.dsp_reached_time_ = 0 then t else s.dsp_reached_time_ } := by
    unfold check_waypoint_complete
    by_cases h0 : s.dsp_reached_time_ = 0
    · simp [h0]
    · simp only [h0, if_false]
      split <;> rfl
  unfold get_discrete_path_reference
  rw [if_pos hv, if_pos hi]
  simp only [htol, hc, if_true, hc2]
  simp

theorem get_discrete_path_reference_complete [LinearOrderedField R] (num : Numerics R)
    (s : ContrailManager R) (ref : PositionTarget R) (t : Time) (g_c : Affine3d R)
    (tc now : Time)
    (hv : s.has_path_reference = true)
    (hi : toSizeT s.path_c_ < s.msg_path_.poses.length)
    (htol : waypoint_reached_at num s
      (s.msg_path_.poses.getD (toSizeT s.path_c_) default).pose g_c = true)
    (hc : (s.check_waypoint_complete t).1 = true) :
    get_discrete_path_reference num s ref t g_c tc now =
      (true,
       target_from_pose num s.msg_path_.header.frame_id
         (s.msg_path_.poses.getD (toSizeT s.path_c_) default).pose now,
       if toSizeT (s.path_c_ + 1) ≥ s.msg_path_.poses.length then
         if s.param_fallback_to_pose_ = true then
           { s with
             tracked_ref_ := TrackingRef.POSE
             msg_pose_ :=
               { header := s.msg_path_.header
                 pose := (s.msg_path_.poses.getD (s.msg_path_.poses.length - 1) default).pose }
             pose_reached_ := true
             path_c_ := 0
             dsp_reached_time_ := 0
             pub_discrete_progress_ := s.pub_discrete_progress_ ++
               [{ header := { seq := 0, stamp := t, frame_id := s.msg_path_.header.frame_id }
                  current := toU32 (s.path_c_ + 1)
                  progress := ⟨toU32 (s.path_c_ + 1), toU32 s.msg_path_.poses.length⟩ }] }
         else
           { s with
             tracked_ref_ := TrackingRef.NONE
             pose_reached_ :=
               if s.tracked_ref_ = TrackingRef.NONE then s.pose_reached_ else false
             path_c_ := 0
             dsp_reached_time_ := 0
             pub_discrete_progress_ := s.pub_discrete_progress_ ++
               [{ header := { seq := 0, stamp := t, frame_id := s.msg_path_.header.frame_id }
                  current := toU32 (s.path_c_ + 1)
                  progress := ⟨toU32 (s.path_c_ + 1), toU32 s.msg_path_.poses.length⟩ }] }
       else
         { s with
           path_c_ := s.path_c_ + 1
           dsp_reached_time_ := 0
           pub_discrete_progress_ := s.pub_discrete_progress_ ++
             [{ header := { seq := 0, stamp := t, frame_id := s.msg_path_.header.frame_id }
                current := toU32 (s.path_c_ + 1)
                progress := ⟨toU32 (s.path_c_ + 1), toU32 s.msg_path_.poses.length⟩ }] }) := by
  obtain ⟨_, _, hc2⟩ := check_waypoint_complete_true s t hc
  obtain ⟨hstamp, _⟩ := has_path_reference_stamp s hv
  unfold get_discrete_path_reference
  rw [if_pos hv, if_pos hi]
  simp only [htol, hc2, if_true, hi]
  by_cases hfin : toSizeT (s.path_c_ + 1) ≥ s.msg_path_.poses.length
  · cases hfb : s.param_fallback_to_pose_
    · by_cases hnone : s.tracked_ref_ = TrackingRef.NONE
      · simp [hfin, hfb, hnone, reset_waypoint_timer, publish_waypoint_reached,
          set_reference_used]
      · simp [hfin, hfb, hnone, reset_waypoint_timer, publish_waypoint_reached,
          set_reference_used]
    · by_cases hpose : s.tracked_ref_ = TrackingRef.POSE
      · simp [hfin, hfb, hpose, reset_waypoint_timer, publish_waypoint_reached,
          set_reference_used, set_discrete_pose_reference, check_msg_pose, hstamp,
          has_pose_reference]
      · simp [hfin, hfb, hpose, reset_waypoint_timer, publish_waypoint_reached,
          set_reference_used, set_discrete_pose_reference, check_msg_pose, hstamp,
          has_pose_reference]
  · have hfin2 : toSizeT (s.path_c_ + 1) < s.msg_path_.poses.length := not_le.mp hfin
    have hfin3 : ¬ s.msg_path_.poses.length ≤ toSizeT (s.path_c_ + 1) := not_le.mpr hfin2
    simp [hfin3, reset_waypoint_timer, publish_waypoint_reached]

/-! ## The cases of a pose query -/

theorem check_waypoint_complete_false_state (s : ContrailManager R) (t : Time) :
    (s.check_waypoint_complete t).1 = false →
    (s.check_waypoint_complete t).2 =
      { s with
        dsp_reached_time_ := if s.dsp_reached_time_ = 0 then t else s.dsp_reached_time_ } := by
  intro _
  unfold check_waypoint_complete
  by_cases h0 : s.dsp_reached_time_ = 0
  · simp [h0]
  · simp only [h0, if_false]
    split <;> rfl

theorem get_discrete_pose_reference_skip [LinearOrderedField R] (num : Numerics R)
    (s : ContrailManager R) (ref : PositionTarget R) (t : Time) (g_c : Affine3d R)
    (now : Time) (hv : s.has_pose_reference = false) :
    get_discrete_pose_reference num s ref t g_c now = (true, ref, s) := by
  unfold get_discrete_pose_reference
  simp [hv]

theorem get_discrete_pose_reference_latched [LinearOrderedField R] (num : Numerics R)
    (s : ContrailManager R) (ref : PositionTarget R) (t : Time) (g_c : Affine3d R)
    (now : Time) (hv : s.has_pose_reference = true) (hr : s.pose_reached_ = true) :
    get_discrete_pose_reference num s ref t g_c now =
      (true, target_from_pose num s.msg_pose_.header.frame_id s.msg_pose_.pose now, s) := by
  unfold get_discrete_pose_reference
  simp [hv, hr]

theorem get_discrete_pose_reference_outside [LinearOrderedField R] (num : Numerics R)
    (s : ContrailManager R) (ref : PositionTarget R) (t : Time) (g_c : Affine3d R)
    (now : Time) (hv : s.has_pose_reference = true) (hr : s.pose_reached_ = false)
    (htol : waypoint_reached_at num s s.msg_pose_.pose g_c = false) :
    get_discrete_pose_reference num s ref t g_c now =
      (true, target_from_pose num s.msg_pose_.header.frame_id s.msg_pose_.pose now,
       { s with dsp_reached_time_ := 0 }) := by
  unfold get_discrete_pose_reference
  simp [hv, hr, htol, reset_waypoint_timer]

theorem get_discrete_pose_reference_dwelling [LinearOrderedField R] (num : Numerics R)
    (s : ContrailManager R) (ref : PositionTarget R) (t : Time) (g_c : Affine3d R)
    (now : Time) (hv : s.has_pose_reference = true) (hr : s.pose_reached_ = false)
    (htol : waypoint_reached_at num s s.msg_pose_.pose g_c = true)
    (hc : (s.check_waypoint_complete t).1 = false) :
    get_discrete_pose_reference num s ref t g_c now =
      (true, target_from_pose num s.msg_pose_.header.frame_id s.msg_pose_.pose now,
       { s with
         dsp_reached_time_ := if s.dsp_reached_time_ = 0 then t else s.dsp_reached_time_ }) := by
  have hc2 := check_waypoint_complete_false_state s t hc
  unfold get_discrete_pose_reference
  simp only [hv, hr, htol, hc, if_true, hc2]
  simp

theorem get_discrete_pose_reference_complete [LinearOrderedField R] (num : Numerics R)
    (s : ContrailManager R) (ref : PositionTarget R) (t : Time) (g_c : Affine3d R)
    (now : Time) (hv : s.has_pose_reference = true) (hr : s.pose_reached_ = false)
    (htol : waypoint_reached_at num s s.msg_pose_.pose g_c = true)
    (hc : (s.check_waypoint_complete t).1 = true) :
    get_discrete_pose_reference num s ref t g_c now =
      (true, target_from_pose num s.msg_pose_.header.frame_id s.msg_pose_.pose now,
       { s with
         tracked_ref_ :=
           if s.param_fallback_to_pose_ = true then s.tracked_ref_ else TrackingRef.NONE
         pose_reached_ := true
         dsp_reached_time_ := 0
         pub_discrete_progress_ := s.pub_discrete_progress_ ++
           [{ header := { seq := 0, stamp := t, frame_id := s.msg_pose_.header.frame_id }
              current := 1
              progress := ⟨1, 1⟩ }] }) := by
  obtain ⟨_, _, hc2⟩ := check_waypoint_complete_true s t hc
  unfold get_discrete_pose_reference
  simp only [hv, hr, htol, hc2, if_true]
  cases hfb : s.param_fallback_to_pose_
  · by_cases hnone : s.tracked_ref_ = TrackingRef.NONE
    · simp [hfb, hnone, reset_waypoint_timer, publish_waypoint_reached, set_reference_used]
    · simp [hfb, hnone, reset_waypoint_timer, publish_waypoint_reached, set_reference_used]
  · simp [hfb, reset_waypoint_timer, publish_waypoint_reached]

/-! ## The cases of `get_reference` by current target -/

theorem current_target_path [LinearOrderedField R] (s : ContrailManager R) (p : Pose R)
    (ha : s.tracked_ref_ = TrackingRef.PATH) (h : current_target s = some p) :
    s.has_path_reference = true ∧ toSizeT s.path_c_ < s.msg_path_.poses.length ∧
    p = (s.msg_path_.poses.getD (toSizeT s.path_c_) default).pose := by
  unfold current_target at h
  rw [ha] at h
  simp only at h
  split at h
  · next hc => exact ⟨hc.1, hc.2, (Option.some.inj h).symm⟩
  · exact absurd h (by simp)

theorem current_target_pose [LinearOrderedField R] (s : ContrailManager R) (p : Pose R)
    (ha : s.tracked_ref_ = TrackingRef.POSE) (h : current_target s = some p) :
    s.has_pose_reference = true ∧ s.pose_reached_ = false ∧ p = s.msg_pose_.pose := by
  unfold current_target at h
  rw [ha] at h
  simp only at h
  split at h
  · next hc => exact ⟨hc.1, hc.2, (Option.some.inj h).symm⟩
  · exact absurd h (by simp)

theorem current_target_active [LinearOrderedField R] (s : ContrailManager R) (p : Pose R)
    (h : current_target s = some p) :
    s.tracked_ref_ = TrackingRef.PATH ∨ s.tracked_ref_ = TrackingRef.POSE := by
  unfold current_target at h
  cases ha : s.tracked_ref_ <;> simp [ha] at h <;> simp

theorem get_reference_no_target [LinearOrderedField R] (num : Numerics R)
    (s : ContrailManager R) (ref : PositionTarget R) (t : Time) (g_c : Affine3d R)
    (tc now : Time) (h : current_target s = none) :
    (get_reference num s ref t g_c tc now).2.2 = s := by
  unfold current_target at h
  unfold get_reference
  cases ha : s.tracked_ref_
  · simp [get_reference_used, ha]
  · simp [get_reference_used, ha, get_spline_reference]
  · rw [ha] at h
    simp only [ite_eq_right_iff, reduceCtorEq, imp_false] at h
    simp [get_reference_used, ha, get_discrete_path_reference_skip num s ref t g_c tc now h]
  · rw [ha] at h
    simp only [ite_eq_right_iff, reduceCtorEq, imp_false, not_and, Bool.not_eq_false] at h
    simp only [get_reference_used, ha, reduceCtorEq, if_false, if_true]
    by_cases hv : s.has_pose_reference = true
    · rw [get_discrete_pose_reference_latched num s ref t g_c now hv (h hv)]
    · rw [get_discrete_pose_reference_skip num s ref t g_c now (by simpa using hv)]

theorem get_reference_step_outside [LinearOrderedField R] (num : Numerics R)
    (s : ContrailManager R) (ref : PositionTarget R) (t : Time) (g_c : Affine3d R)
    (tc now : Time) (p : Pose R) (h : current_target s = some p)
    (htol : waypoint_reached_at num s p g_c = false) :
    (get_reference num s ref t g_c tc now).2.2 = { s with dsp_reached_time_ := 0 } := by
  rcases current_target_active s p h with ha | ha
  · obtain ⟨hv, hi, hp⟩ := current_target_path s p ha h
    rw [hp] at htol
    simp [get_reference, get_reference_used, ha,
      get_discrete_path_reference_outside num s ref t g_c tc now hv hi htol]
  · obtain ⟨hv, hr, hp⟩ := current_target_pose s p ha h
    rw [hp] at htol
    simp [get_reference, get_reference_used, ha,
      get_discrete_pose_reference_outside num s ref t g_c now hv hr htol]

theorem get_reference_step_dwelling [LinearOrderedField R] (num : Numerics R)
    (s : ContrailManager R) (ref : PositionTarget R) (t : Time) (g_c : Affine3d R)
    (tc now : Time) (p : Pose R) (h : current_target s = some p)
    (htol : waypoint_reached_at num s p g_c = true)
    (hc : (s.check_waypoint_complete t).1 = false) :
    (get_reference num s ref t g_c tc now).2.2 =
      { s with
        dsp_reached_time_ := if s.dsp_reached_time_ = 0 then t else s.dsp_reached_time_ } := by
  rcases current_target_active s p h with ha | ha
  · obtain ⟨hv, hi, hp⟩ := current_target_path s p ha h
    rw [hp] at htol
    simp [get_reference, get_reference_used, ha,
      get_discrete_path_reference_dwelling num s ref t g_c tc now hv hi htol hc]
  · obtain ⟨hv, hr, hp⟩ := current_target_pose s p ha h
    rw [hp] at htol
    simp [get_reference, get_reference_used, ha,
      get_discrete_pose_reference_dwelling num s ref t g_c now hv hr htol hc]

theorem get_reference_step_complete [LinearOrderedField R] (num : Numerics R)
    (s : ContrailManager R) (ref : PositionTarget R) (t : Time) (g_c : Affine3d R)
    (tc now : Time) (p : Pose R) (h : current_target s = some p)
    (htol : waypoint_reached_at num s p g_c = true)
    (hc : (s.check_waypoint_complete t).1 = true) :
    (get_reference num s ref t g_c tc now).2.2.dsp_reached_time_ = 0 ∧
    ∃ m : WaypointProgress,
      (get_reference num s ref t g_c tc now).2.2.pub_discrete_progress_ =
        s.pub_discrete_progress_ ++ [m] := by
  rcases current_target_active s p h with ha | ha
  · obtain ⟨hv, hi, hp⟩ := current_target_path s p ha h
    rw [hp] at htol
    have hstep := get_discrete_path_reference_complete num s ref t g_c tc now hv hi htol hc
    simp only [get_reference, get_reference_used, ha, reduceCtorEq, if_false, if_true, hstep]
    split
    · split
      · exact ⟨rfl, _, rfl⟩
      · exact ⟨rfl, _, rfl⟩
    · exact ⟨rfl, _, rfl⟩
  · obtain ⟨hv, hr, hp⟩ := current_target_pose s p ha h
    rw [hp] at htol
    have hstep := get_discrete_pose_reference_complete num s ref t g_c now hv hr htol hc
    have hget : get_reference num s ref t g_c tc now =
        get_discrete_pose_reference num s ref t g_c now := by
      simp [get_reference, get_reference_used, ha]
    rw [hget, hstep]
    exact ⟨rfl, _, rfl⟩

theorem get_reference_hold [LinearOrderedField R] (num : Numerics R)
    (s : ContrailManager R) (ref : PositionTarget R) (t : Time) (g_c : Affine3d R)
    (tc now : Time) :
    (get_reference num s ref t g_c tc now).2.2.param_hold_duration_ =
      s.param_hold_duration_ := by
  cases hct : current_target s with
  | none => rw [get_reference_no_target num s ref t g_c tc now hct]
  | some p =>
    cases htol : waypoint_reached_at num s p g_c with
    | false => rw [get_reference_step_outside num s ref t g_c tc now p hct htol]
    | true =>
      cases hc : (s.check_waypoint_complete t).1 with
      | false => rw [get_reference_step_dwelling num s ref t g_c tc now p hct htol hc]
      | true =>
        rcases current_target_active s p hct with ha | ha
        · obtain ⟨hv, hi, hp⟩ := current_target_path s p ha hct
          rw [hp] at htol
          have hstep := get_discrete_path_reference_complete num s ref t g_c tc now hv hi htol hc
          simp only [get_reference, get_reference_used, ha, reduceCtorEq, if_false, if_true,
            hstep]
          split
          · split <;> rfl
          · rfl
        · obtain ⟨hv, hr, hp⟩ := current_target_pose s p ha hct
          rw [hp] at htol
          have hstep := get_discrete_pose_reference_complete num s ref t g_c now hv hr htol hc
          simp only [get_reference, get_reference_used, ha, reduceCtorEq, if_false, if_true,
            hstep]

/-- A query publishes a notification only if it is in tolerance and
`check_waypoint_complete` returns `true`. -/
theorem get_reference_publishes [LinearOrderedField R] (num : Numerics R)
    (s : ContrailManager R) (ref : PositionTarget R) (t : Time) (g_c : Affine3d R)
    (tc now : Time)
    (h : (get_reference num s ref t g_c tc now).2.2.pub_discrete_progress_ ≠
      s.pub_discrete_progress_) :
    in_tolerance num s g_c = true ∧ (s.check_waypoint_complete t).1 = true := by
  cases hct : current_target s with
  | none =>
    rw [get_reference_no_target num s ref t g_c tc now hct] at h
    exact absurd rfl h
  | some p =>
    cases htol : waypoint_reached_at num s p g_c with
    | false =>
      rw [get_reference_step_outside num s ref t g_c tc now p hct htol] at h
      exact absurd rfl h
    | true =>
      cases hc : (s.check_waypoint_complete t).1 with
      | false =>
        rw [get_reference_step_dwelling num s ref t g_c tc now p hct htol hc] at h
        exact absurd rfl h
      | true =>
        refine ⟨?_, rfl⟩
        unfold in_tolerance
        rw [hct]
        exact htol

/-! ## Sequences of queries -/

theorem get_reference_run_append [LinearOrderedField R] (num : Numerics R)
    (l1 l2 : List (Query R)) (rs : PositionTarget R × ContrailManager R) :
    get_reference_run num rs (l1 ++ l2) =
      get_reference_run num (get_reference_run num rs l1) l2 := by
  induction l1 generalizing rs with
  | nil => rfl
  | cons q qs ih =>
    simp only [List.cons_append, get_reference_run]
    exact ih _

theorem all_in_tolerance_append [LinearOrderedField R] (num : Numerics R)
    (l1 l2 : List (Query R)) (rs : PositionTarget R × ContrailManager R) :
    all_in_tolerance num rs (l1 ++ l2) =
      (all_in_tolerance num rs l1 &&
        all_in_tolerance num (get_reference_run num rs l1) l2) := by
  induction l1 generalizing rs with
  | nil => simp [all_in_tolerance, get_reference_run]
  | cons q qs ih =>
    rw [List.cons_append]
    simp only [all_in_tolerance, get_reference_run]
    rw [ih, Bool.and_assoc]

theorem current_target_timer [LinearOrderedField R] (s : ContrailManager R) (t : Time) :
    current_target ({ s with dsp_reached_time_ := t } : ContrailManager R) =
      current_target s := rfl

/-- The invariant of a run of queries that starts with an unset timer: the hold
duration is unchanged, and a set timer holds the time of an earlier query of the
run from which on every query was in tolerance. -/
theorem get_reference_run_dwell [LinearOrderedField R] (num : Numerics R)
    (s0 : ContrailManager R) (ref0 : PositionTarget R) (te : Time)
    (h0 : s0.dsp_reached_time_ = 0) (pre : List (Query R)) :
    (∀ x ∈ pre, te < x.t) →
    (get_reference_run num (ref0, s0) pre).2.param_hold_duration_ =
      s0.param_hold_duration_ ∧
    ((get_reference_run num (ref0, s0) pre).2.dsp_reached_time_ ≠ 0 →
      current_target (get_reference_run num (ref0, s0) pre).2 ≠ none ∧
      ∃ (a : List (Query R)) (q1 : Query R) (b : List (Query R)),
        pre = a ++ q1 :: b ∧
        (get_reference_run num (ref0, s0) pre).2.dsp_reached_time_ = q1.t ∧
        te < q1.t ∧
        all_in_tolerance num (get_reference_run num (ref0, s0) a) (q1 :: b) = true) := by
  induction pre using List.reverseRecOn with
  | nil =>
    intro _
    refine ⟨rfl, ?_⟩
    intro h
    exact absurd h0 h
  | append_singleton l x ih =>
    intro hall
    obtain ⟨hhold, hinv⟩ := ih (fun y hy => hall y (List.mem_append_left _ hy))
    have hx : te < x.t := hall x (by simp)
    rw [get_reference_run_append]
    simp only [get_reference_run]
    generalize hrs : get_reference_run num (ref0, s0) l = rs at hhold hinv ⊢
    refine ⟨by rw [get_reference_hold]; exact hhold, ?_⟩
    intro htimer
    cases hct : current_target rs.2 with
    | none =>
      rw [get_reference_no_target num rs.2 rs.1 x.t x.g_c x.tc x.now hct] at htimer
      exact absurd hct (hinv htimer).1
    | some p =>
      cases htol : waypoint_reached_at num rs.2 p x.g_c with
      | false =>
        rw [get_reference_step_outside num rs.2 rs.1 x.t x.g_c x.tc x.now p hct htol] at htimer
        exact absurd rfl htimer
      | true =>
        have hin : in_tolerance num rs.2 x.g_c = true := by
          unfold in_tolerance
          rw [hct]
          exact htol
        cases hc : (rs.2.check_waypoint_complete x.t).1 with
        | true =>
          exact absurd
            (get_reference_step_complete num rs.2 rs.1 x.t x.g_c x.tc x.now p hct htol hc).1
            htimer
        | false =>
          rw [get_reference_step_dwelling num rs.2 rs.1 x.t x.g_c x.tc x.now p hct htol hc]
            at htimer ⊢
          rw [current_target_timer]
          refine ⟨by rw [hct]; simp, ?_⟩
          by_cases hz : rs.2.dsp_reached_time_ = 0
          · refine ⟨l, x, [], rfl, ?_, hx, ?_⟩
            · simp [hz]
            · rw [hrs]
              simp [all_in_tolerance, hin]
          · obtain ⟨_, a, q1, b, hsplit, htm, hte, hallin⟩ := hinv hz
            refine ⟨a, q1, b ++ [x], ?_, ?_, hte, ?_⟩
            · rw [hsplit]; simp
            · show (if rs.2.dsp_reached_time_ = 0 then x.t else rs.2.dsp_reached_time_) = q1.t
              rw [if_neg hz]
              exact htm
            · have hrun : get_reference_run num (get_reference_run num (ref0, s0) a) (q1 :: b)
                  = rs := by
                rw [← get_reference_run_append, ← hsplit, hrs]
              rw [← List.cons_append, all_in_tolerance_append, hallin, hrun]
              simp [all_in_tolerance, hin]

/-! ## Reachable states are consistent -/

theorem set_reference_used_frame (s : ContrailManager R) (state : TrackingRef) (t : Time)
    (flag : Bool) :
    (s.set_reference_used state t flag).2.path_c_ = s.path_c_ ∧
    (s.set_reference_used state t flag).2.msg_path_ = s.msg_path_ ∧
    (s.set_reference_used state t flag).2.msg_pose_ = s.msg_pose_ ∧
    ((s.set_reference_used state t flag).2.tracked_ref_ = TrackingRef.POSE →
      s.tracked_ref_ = TrackingRef.POSE ∨ s.has_pose_reference = true) := by
  rcases s with ⟨pub, sp, pa, po, fb, pr, pc, tm, hd, rad, yw, tr⟩
  cases state <;> cases tr <;> cases flag <;>
    simp [set_reference_used, publish_waypoint_reached, has_pose_reference,
      has_path_reference, has_spline_reference] <;>
    split_ifs <;> simp_all

theorem consistent_set_reference_used (s : ContrailManager R) (state : TrackingRef)
    (t : Time) (flag : Bool) (h : s.Consistent) :
    (s.set_reference_used state t flag).2.Consistent := by
  obtain ⟨h1, h2, h3, h4⟩ := h
  obtain ⟨f1, f2, f3, f4⟩ := set_reference_used_frame s state t flag
  refine ⟨?_, ?_, ?_, ?_⟩
  · rw [f1]; exact h1
  · rw [f2]; exact h2
  · intro hv
    rw [f1, f2]
    apply h3
    simpa [has_path_reference, f2] using hv
  · intro ha
    have : s.has_pose_reference = true := by
      rcases f4 ha with hp | hp
      · exact h4 hp
      · exact hp
    simpa [has_pose_reference, f3] using this

theorem consistent_set_spline_reference (s : ContrailManager R) (spline : CubicSpline R)
    (tc : Time) (h : s.Consistent) :
    (s.set_spline_reference spline tc).2.Consistent := by
  unfold set_spline_reference
  split
  · exact consistent_set_reference_used _ _ _ _ h
  · exact h

theorem consistent_set_discrete_path_reference (s : ContrailManager R) (path : Path R)
    (tc : Time) (hlen : path.poses.length < 2 ^ 31) (h : s.Consistent) :
    (s.set_discrete_path_reference path tc).2.Consistent := by
  obtain ⟨h1, h2, h3, h4⟩ := h
  unfold set_discrete_path_reference
  split
  · next hv =>
    apply consistent_set_reference_used
    refine ⟨le_refl _, hlen, ?_, h4⟩
    intro _
    have hpos : 0 < path.poses.length := by
      simp only [check_msg_path, Bool.and_eq_true, decide_eq_true_eq] at hv
      exact hv.2
    show (0 : Int) < (path.poses.length : Int)
    exact_mod_cast hpos
  · exact ⟨h1, h2, h3, h4⟩

theorem consistent_set_discrete_pose_reference (s : ContrailManager R) (pose : PoseStamped R)
    (is_fallback : Bool) (tc : Time) (h : s.Consistent) :
    (s.set_discrete_pose_reference pose is_fallback tc).2.Consistent := by
  obtain ⟨h1, h2, h3, h4⟩ := h
  unfold set_discrete_pose_reference
  split
  · next hv =>
    apply consistent_set_reference_used
    exact ⟨h1, h2, h3, fun _ => hv⟩
  · exact ⟨h1, h2, h3, h4⟩

theorem consistent_timer (s : ContrailManager R) (t : Time) (h : s.Consistent) :
    ({ s with dsp_reached_time_ := t } : ContrailManager R).Consistent := h

theorem consistent_get_discrete_path_reference [LinearOrderedField R] (num : Numerics R)
    (s : ContrailManager R) (ref : PositionTarget R) (t : Time) (g_c : Affine3d R)
    (tc now : Time) (h : s.Consistent) :
    (get_discrete_path_reference num s ref t g_c tc now).2.2.Consistent := by
  by_cases hg : s.has_path_reference = true ∧ toSizeT s.path_c_ < s.msg_path_.poses.length
  · obtain ⟨hv, hi⟩ := hg
    cases htol : waypoint_reached_at num s
        (s.msg_path_.poses.getD (toSizeT s.path_c_) default).pose g_c with
    | false =>
      rw [get_discrete_path_reference_outside num s ref t g_c tc now hv hi htol]
      exact consistent_timer s 0 h
    | true =>
      cases hc : (s.check_waypoint_complete t).1 with
      | false =>
        rw [get_discrete_path_reference_dwelling num s ref t g_c tc now hv hi htol hc]
        exact consistent_timer s _ h
      | true =>
        rw [get_discrete_path_reference_complete num s ref t g_c tc now hv hi htol hc]
        obtain ⟨h1, h2, h3, h4⟩ := h
        obtain ⟨hstamp, hpos⟩ := has_path_reference_stamp s hv
        have hposI : (0 : Int) < (s.msg_path_.poses.length : Int) := by exact_mod_cast hpos
        have hlt := h3 hv
        simp only
        split
        · split
          · refine ⟨le_refl _, h2, fun _ => hposI, fun _ => ?_⟩
            simp [has_pose_reference, check_msg_pose, hstamp]
          · refine ⟨le_refl _, h2, fun _ => hposI, fun hp => ?_⟩
            exact absurd hp (by simp)
        · next hfin =>
          have hfin2 : toSizeT (s.path_c_ + 1) < s.msg_path_.poses.length := not_le.mp hfin
          refine ⟨by show 0 ≤ s.path_c_ + 1; omega, h2, fun _ => ?_, h4⟩
          show s.path_c_ + 1 < (s.msg_path_.poses.length : Int)
          unfold toSizeT at hfin2
          omega
  · rw [get_discrete_path_reference_skip num s ref t g_c tc now hg]
    exact h

theorem consistent_get_discrete_pose_reference [LinearOrderedField R] (num : Numerics R)
    (s : ContrailManager R) (ref : PositionTarget R) (t : Time) (g_c : Affine3d R)
    (now : Time) (h : s.Consistent) :
    (get_discrete_pose_reference num s ref t g_c now).2.2.Consistent := by
  cases hv : s.has_pose_reference with
  | false =>
    rw [get_discrete_pose_reference_skip num s ref t g_c now hv]
    exact h
  | true =>
    cases hr : s.pose_reached_ with
    | true =>
      rw [get_discrete_pose_reference_latched num s ref t g_c now hv hr]
      exact h
    | false =>
      cases htol : waypoint_reached_at num s s.msg_pose_.pose g_c with
      | false =>
        rw [get_discrete_pose_reference_outside num s ref t g_c now hv hr htol]
        exact consistent_timer s 0 h
      | true =>
        cases hc : (s.check_waypoint_complete t).1 with
        | false =>
          rw [get_discrete_pose_reference_dwelling num s ref t g_c now hv hr htol hc]
          exact consistent_timer s _ h
        | true =>
          rw [get_discrete_pose_reference_complete num s ref t g_c now hv hr htol hc]
          obtain ⟨h1, h2, h3, h4⟩ := h
          exact ⟨h1, h2, h3, fun _ => hv⟩

theorem consistent_get_reference [LinearOrderedField R] (num : Numerics R)
    (s : ContrailManager R) (ref : PositionTarget R) (t : Time) (g_c : Affine3d R)
    (tc now : Time) (h : s.Consistent) :
    (get_reference num s ref t g_c tc now).2.2.Consistent := by
  unfold get_reference
  cases ha : s.tracked_ref_
  · simpa [get_reference_used, ha] using h
  · simpa [get_reference_used, ha, get_spline_reference] using h
  · simpa [get_reference_used, ha] using
      consistent_get_discrete_path_reference num s ref t g_c tc now h
  · simpa [get_reference_used, ha] using
      consistent_get_discrete_pose_reference num s ref t g_c now h

/-- Every reachable state is consistent. -/
theorem reachable_consistent [LinearOrderedField R] (num : Numerics R)
    (s : ContrailManager R) (h : Reachable num s) : s.Consistent := by
  induction h with
  | initial =>
    refine ⟨le_refl _, by simp [ContrailManager.initial], ?_, ?_⟩
    · intro hv
      simp [ContrailManager.initial, has_path_reference, check_msg_path] at hv
    · intro hp
      simp [ContrailManager.initial] at hp
  | callback_cfg_settings s config _ ih => exact ih
  | set_reference_used s state t flag _ ih =>
    exact consistent_set_reference_used s state t flag ih
  | set_spline_reference s spline tc _ ih =>
    exact consistent_set_spline_reference s spline tc ih
  | set_discrete_path_reference s path tc hlen _ ih =>
    exact consistent_set_discrete_path_reference s path tc hlen ih
  | set_discrete_pose_reference s pose fb tc _ ih =>
    exact consistent_set_discrete_pose_reference s pose fb tc ih
  | get_reference s ref t g_c tc now _ ih =>
    exact consistent_get_reference num s ref t g_c tc now ih
  | get_spline_reference s ref t _ ih => exact ih
  | get_discrete_path_reference s ref t g_c tc now _ ih =>
    exact consistent_get_discrete_path_reference num s ref t g_c tc now ih
  | get_discrete_pose_reference s ref t g_c now _ ih =>
    exact consistent_get_discrete_pose_reference num s ref t g_c now ih

/-! ## Dwell reset on excursion -/

theorem outside_tolerance_not_reached [LinearOrderedField R] (num : Numerics R)
    (s : ContrailManager R) (p : Pose R) (g_c : Affine3d R)
    (h : outside_tolerance num s p g_c) :
    waypoint_reached_at num s p g_c = false := by
  unfold waypoint_reached_at check_waypoint_reached
  rcases h with h | h
  · have : ¬ radial_dist num (position_from_msg p.position) g_c.translation <
        s.param_dsp_radius_ := not_lt.mpr h
    simp [this]
  · have : ¬ rotation_dist num
        (yaw_from_quaternion num (quaternion_from_msg num p.orientation))
        (yaw_from_quaternion num (num.quat_of_matrix g_c.linear)) <
        s.param_dsp_yaw_ := not_lt.mpr h
    simp [this]

theorem consistent_index_in_path (s : ContrailManager R) (h : s.Consistent)
    (hv : s.has_path_reference = true) :
    toSizeT s.path_c_ < s.msg_path_.poses.length := by
  obtain ⟨h1, h2, h3, _⟩ := h
  have hlt := h3 hv
  unfold toSizeT
  omega

/-- C7: dwell reset on excursion. In every reachable state of the manager:
when PATH is active with a valid path, a `get_reference` query in which the
vehicle is outside the tolerance of `path[path_c_]` (radial distance at least
the radius, or yaw distance at least the yaw tolerance) returns the setpoint of
that waypoint and changes nothing but the dwell timer, which it leaves unset;
when POSE is active with the reached flag unset, the same holds for the stored
pose. Consequently, from any state with an unset dwell timer (such as the one
an excursion query at time `te` leaves) and for any later queries `pre` and
then `q`, with nothing but queries in between and every query of `pre` at a
time after `te`: if `q` publishes a completion notification, then `pre` contains
a query `q1` at a time `t1 > te` such that `q1`, every query after it and `q`
itself are in tolerance, and `q.t - t1 > hold`. However long the vehicle dwelt
before `te` plays no role. -/
theorem C7_dwell_reset_on_excursion [LinearOrderedField R] (num : Numerics R) :
    (∀ (s : ContrailManager R) (ref : PositionTarget R) (t : Time) (g_c : Affine3d R)
        (tc now : Time),
      Reachable num s →
      s.tracked_ref_ = TrackingRef.PATH →
      s.has_path_reference = true →
      outside_tolerance num s
        (s.msg_path_.poses.getD (toSizeT s.path_c_) default).pose g_c →
      toSizeT s.path_c_ < s.msg_path_.poses.length ∧
      get_reference num s ref t g_c tc now =
        (true,
         target_from_pose num s.msg_path_.header.frame_id
           (s.msg_path_.poses.getD (toSizeT s.path_c_) default).pose now,
         { s with dsp_reached_time_ := 0 })) ∧
    (∀ (s : ContrailManager R) (ref : PositionTarget R) (t : Time) (g_c : Affine3d R)
        (tc now : Time),
      Reachable num s →
      s.tracked_ref_ = TrackingRef.POSE →
      s.pose_reached_ = false →
      outside_tolerance num s s.msg_pose_.pose g_c →
      get_reference num s ref t g_c tc now =
        (true,
         target_from_pose num s.msg_pose_.header.frame_id s.msg_pose_.pose now,
         { s with dsp_reached_time_ := 0 })) ∧
    (∀ (s0 : ContrailManager R) (ref0 : PositionTarget R) (te : Time)
        (pre : List (Query R)) (q : Query R),
      s0.dsp_reached_time_ = 0 →
      (∀ x ∈ pre, te < x.t) →
      (get_reference num (get_reference_run num (ref0, s0) pre).2
          (get_reference_run num (ref0, s0) pre).1 q.t q.g_c q.tc q.now).2.2.pub_discrete_progress_
        ≠ (get_reference_run num (ref0, s0) pre).2.pub_discrete_progress_ →
      ∃ (a : List (Query R)) (q1 : Query R) (b : List (Query R)),
        pre = a ++ q1 :: b ∧
        te < q1.t ∧
        all_in_tolerance num (get_reference_run num (ref0, s0) a) (q1 :: b ++ [q]) = true ∧
        (q.t : Int) - (q1.t : Int) > s0.param_hold_duration_) := by
  refine ⟨?_, ?_, ?_⟩
  · intro s ref t g_c tc now hreach ha hv hout
    have hi := consistent_index_in_path s (reachable_consistent num s hreach) hv
    have htol := outside_tolerance_not_reached num s _ g_c hout
    refine ⟨hi, ?_⟩
    simp [get_reference, get_reference_used, ha,
      get_discrete_path_reference_outside num s ref t g_c tc now hv hi htol]
  · intro s ref t g_c tc now hreach ha hr hout
    have hv := (reachable_consistent num s hreach).2.2.2 ha
    have htol := outside_tolerance_not_reached num s _ g_c hout
    simp [get_reference, get_reference_used, ha,
      get_discrete_pose_reference_outside num s ref t g_c now hv hr htol]
  · intro s0 ref0 te pre q h0 hall hpub
    obtain ⟨hhold, hinv⟩ := get_reference_run_dwell num s0 ref0 te h0 pre hall
    obtain ⟨hin, hc⟩ := get_reference_publishes num _ _ q.t q.g_c q.tc q.now hpub
    obtain ⟨htimer, hdwell, _⟩ := check_waypoint_complete_true _ _ hc
    obtain ⟨_, a, q1, b, hsplit, htm, hte, hallin⟩ := hinv htimer
    refine ⟨a, q1, b, hsplit, hte, ?_, ?_⟩
    · have hrun : get_reference_run num (get_reference_run num (ref0, s0) a) (q1 :: b) =
          get_reference_run num (ref0, s0) pre := by
        rw [← get_reference_run_append, ← hsplit]
      rw [all_in_tolerance_append, hallin, hrun]
      simp [all_in_tolerance, hin]
    · rw [htm, hhold] at hdwell
      exact hdwell

theorem sample_reachable_path (fb : Bool) :
    Reachable realNumerics (sampleTrackingPath fb : ContrailManager ℝ) :=
  Reachable.set_discrete_path_reference _ _ _ (by decide)
    (Reachable.callback_cfg_settings _ _ Reachable.initial)

theorem sample_reachable_pose (fb : Bool) :
    Reachable realNumerics (sampleTrackingPose fb : ContrailManager ℝ) :=
  Reachable.set_discrete_pose_reference _ _ _ _
    (Reachable.callback_cfg_settings _ _ Reachable.initial)

theorem sampleTracking_radius (fb : Bool) :
    (sampleTrackingPath fb : ContrailManager ℝ).param_dsp_radius_ = 1 / 2 ∧
    (sampleTrackingPose fb : ContrailManager ℝ).param_dsp_radius_ = 1 / 2 ∧
    (sampleTrackingPath fb : ContrailManager ℝ).param_dsp_yaw_ = 1 / 10 :=
  ⟨rfl, rfl, rfl⟩

/-- The sample run: tracking `samplePath` from its first waypoint, the vehicle
is in tolerance at `t = 10 s` and still at `t = 13 s`, when the query
publishes the completion of the waypoint. -/
theorem sample_run_publishes :
    (get_reference realNumerics
        (get_reference_run realNumerics
          (blankTarget, (sampleTrackingPath false : ContrailManager ℝ))
          [sampleQuery 10000000000 0 0 1]).2
        (get_reference_run realNumerics
          (blankTarget, (sampleTrackingPath false : ContrailManager ℝ))
          [sampleQuery 10000000000 0 0 1]).1
        (sampleQuery 13000000000 (0 : ℝ) 0 1).t (sampleQuery 13000000000 (0 : ℝ) 0 1).g_c
        (sampleQuery 13000000000 (0 : ℝ) 0 1).tc
        (sampleQuery 13000000000 (0 : ℝ) 0 1).now).2.2.pub_discrete_progress_ ≠
      (get_reference_run realNumerics
        (blankTarget, (sampleTrackingPath false : ContrailManager ℝ))
        [sampleQuery 10000000000 0 0 1]).2.pub_discrete_progress_ := by
  have hr : (0 : ℝ) < (sampleTrackingPath false : ContrailManager ℝ).param_dsp_radius_ := by
    rw [(sampleTracking_radius false).1]; norm_num
  have hy : (0 : ℝ) < (sampleTrackingPath false : ContrailManager ℝ).param_dsp_yaw_ := by
    rw [(sampleTracking_radius false).2.2]; norm_num
  have hs1 : (get_reference_run realNumerics
      (blankTarget, (sampleTrackingPath false : ContrailManager ℝ))
      [sampleQuery 10000000000 0 0 1]).2 =
      { (sampleTrackingPath false : ContrailManager ℝ) with
        dsp_reached_time_ := 10000000000 } :=
    get_reference_step_dwelling realNumerics (sampleTrackingPath false) blankTarget
      10000000000 (sampleVehicle 0 0 1) 10000000000 10000000000
      (sampleWaypoint 0 0 1).pose rfl
      (sample_in_tolerance _ hr hy 0 0 1) rfl
  rw [hs1]
  obtain ⟨_, m, hm⟩ := get_reference_step_complete realNumerics
    ({ (sampleTrackingPath false : ContrailManager ℝ) with dsp_reached_time_ := 10000000000 })
    (get_reference_run realNumerics
      (blankTarget, (sampleTrackingPath false : ContrailManager ℝ))
      [sampleQuery 10000000000 0 0 1]).1
    13000000000 (sampleVehicle 0 0 1) 13000000000 13000000000
    (sampleWaypoint 0 0 1).pose rfl
    (sample_in_tolerance _ hr hy 0 0 1) (by decide)
  show (get_reference realNumerics _ _ 13000000000 (sampleVehicle 0 0 1) 13000000000
    13000000000).2.2.pub_discrete_progress_ ≠ _
  rw [hm]
  simp

theorem C7_dwell_reset_on_excursion_witness :
    get_reference realNumerics (sampleTrackingPath false) blankTarget 11000000000
        (sampleVehicle (0 + 1) 0 1) 21 22 =
      (true,
       target_from_pose realNumerics "map" (sampleWaypoint 0 0 1).pose 22,
       { (sampleTrackingPath false : ContrailManager ℝ) with dsp_reached_time_ := 0 }) ∧
    get_reference realNumerics (sampleTrackingPose false) blankTarget 11000000000
        (sampleVehicle (2 + 1) 0 1) 21 22 =
      (true,
       target_from_pose realNumerics "map" (sampleWaypoint 2 0 1).pose 22,
       { (sampleTrackingPose false : ContrailManager ℝ) with dsp_reached_time_ := 0 }) ∧
    ∃ (a : List (Query ℝ)) (q1 : Query ℝ) (b : List (Query ℝ)),
      [sampleQuery 10000000000 (0 : ℝ) 0 1] = a ++ q1 :: b ∧
      9000000000 < q1.t ∧
      all_in_tolerance realNumerics
        (get_reference_run realNumerics (blankTarget, sampleTrackingPath false) a)
        (q1 :: b ++ [sampleQuery 13000000000 0 0 1]) = true ∧
      ((sampleQuery 13000000000 (0 : ℝ) 0 1).t : Int) - (q1.t : Int) >
        (sampleTrackingPath false : ContrailManager ℝ).param_hold_duration_ :=
  ⟨((C7_dwell_reset_on_excursion realNumerics).1 (sampleTrackingPath false) blankTarget
      11000000000 (sampleVehicle (0 + 1) 0 1) 21 22 (sample_reachable_path false) rfl rfl
      (sample_outside_tolerance _
        (by rw [(sampleTracking_radius false).1]; norm_num) 0 0 1)).2,
   (C7_dwell_reset_on_excursion realNumerics).2.1 (sampleTrackingPose false) blankTarget
      11000000000 (sampleVehicle (2 + 1) 0 1) 21 22 (sample_reachable_pose false) rfl rfl
      (sample_outside_tolerance _
        (by rw [(sampleTracking_radius false).2.1]; norm_num) 2 0 1),
   (C7_dwell_reset_on_excursion realNumerics).2.2 (sampleTrackingPath false) blankTarget
      9000000000 [sampleQuery 10000000000 0 0 1] (sampleQuery 13000000000 0 0 1) rfl
      (by intro x hx; rw [List.mem_singleton] at hx; rw [hx]; decide)
      sample_run_publishes⟩

/-! ## The latched pose -/

/-- C11: the latched pose. For every manager state with a valid stored pose and
the reached flag set, every time, every current pose and every configuration
(radius, yaw tolerance, hold duration, fallback flag),
`get_discrete_pose_reference` returns `true` with the setpoint built from the
stored pose and the unchanged state: dwell timer, active type, payloads, path
index, reached flag and published list are as before. The result depends on
neither the time nor the current pose nor the configuration, so no tolerance or
dwell evaluation takes part in it. -/
theorem C11_latched_pose [LinearOrderedField R] (num : Numerics R)
    (s : ContrailManager R) (ref : PositionTarget R) (t : Time) (g_c : Affine3d R)
    (now : Time) (config : ManagerParamsConfig R)
    (hvalid : s.has_pose_reference = true) (hreached : s.pose_reached_ = true) :
    get_discrete_pose_reference num s ref t g_c now =
      (true, target_from_pose num s.msg_pose_.header.frame_id s.msg_pose_.pose now, s) ∧
    get_discrete_pose_reference num (s.callback_cfg_settings config) ref t g_c now =
      (true, target_from_pose num s.msg_pose_.header.frame_id s.msg_pose_.pose now,
       s.callback_cfg_settings config) := by
  refine ⟨get_discrete_pose_reference_latched num s ref t g_c now hvalid hreached, ?_⟩
  exact get_discrete_pose_reference_latched num (s.callback_cfg_settings config) ref t g_c now
    hvalid hreached

theorem C11_latched_pose_witness :
    get_discrete_pose_reference realNumerics
        ({ (sampleManager true : ContrailManager ℝ) with
           tracked_ref_ := TrackingRef.POSE
           msg_pose_ := sampleWaypoint 2 0 1
           pose_reached_ := true })
        blankTarget 30000000000 (sampleVehicle 7 7 7) 31 =
      (true, target_from_pose realNumerics "map" (sampleWaypoint 2 0 1).pose 31,
       { (sampleManager true : ContrailManager ℝ) with
         tracked_ref_ := TrackingRef.POSE
         msg_pose_ := sampleWaypoint 2 0 1
         pose_reached_ := true }) :=
  (C11_latched_pose realNumerics
    ({ (sampleManager true : ContrailManager ℝ) with
       tracked_ref_ := TrackingRef.POSE
       msg_pose_ := sampleWaypoint 2 0 1
       pose_reached_ := true })
    blankTarget 30000000000 (sampleVehicle 7 7 7) 31
    { fallback_to_pose := false, waypoint_hold_duration := 0, waypoint_radius := 0,
      waypoint_yaw_accuracy := 0 } rfl rfl).1

/-! ## The setpoint of a path query -/

theorem get_discrete_path_reference_setpoint [LinearOrderedField R] (num : Numerics R)
    (s : ContrailManager R) (ref : PositionTarget R) (t : Time) (g_c : Affine3d R)
    (tc now : Time)
    (hv : s.has_path_reference = true)
    (hi : toSizeT s.path_c_ < s.msg_path_.poses.length) :
    (get_discrete_path_reference num s ref t g_c tc now).1 = true ∧
    (get_discrete_path_reference num s ref t g_c tc now).2.1 =
      target_from_pose num s.msg_path_.header.frame_id
        (s.msg_path_.poses.getD (toSizeT s.path_c_) default).pose now := by
  cases htol : waypoint_reached_at num s
      (s.msg_path_.poses.getD (toSizeT s.path_c_) default).pose g_c with
  | false =>
    rw [get_discrete_path_reference_outside num s ref t g_c tc now hv hi htol]
    exact ⟨rfl, rfl⟩
  | true =>
    cases hc : (s.check_waypoint_complete t).1 with
    | false =>
      rw [get_discrete_path_reference_dwelling num s ref t g_c tc now hv hi htol hc]
      exact ⟨rfl, rfl⟩
    | true =>
      rw [get_discrete_path_reference_complete num s ref t g_c tc now hv hi htol hc]
      exact ⟨rfl, rfl⟩

theorem getD_of_getElem? {α : Type} (l : List α) (i : Nat) (d a : α)
    (h : l[i]? = some a) : l.getD i d = a := by
  rw [List.getD_eq_getElem?_getD, h]
  rfl

theorem toU32_zero : toU32 0 = 0 := by
  unfold toU32
  omega

/-- C13: installing a valid path. For every manager state and every path
payload with a non-zero stamp and at least one pose,
`set_discrete_path_reference` returns `true`; afterwards the stored path is the
payload, the path index is 0, the dwell timer is unset, the active type is PATH,
the reached flag is cleared if the active type was not already PATH (and
untouched otherwise), every other field is unchanged, and exactly one
notification was published, stamped with the clock reading, with `current = 0`
and the quotient of 0 by the length of the new path (as `uint32_t`, which is the
length itself below `2 ^ 32`). -/
theorem C13_install_path (s : ContrailManager R) (path : Path R) (tc : Time)
    (hstamp : path.header.stamp ≠ 0) (hposes : path.poses ≠ []) :
    s.set_discrete_path_reference path tc =
      (true,
       { s with
         msg_path_ := path
         path_c_ := 0
         dsp_reached_time_ := 0
         tracked_ref_ := TrackingRef.PATH
         pose_reached_ :=
           if s.tracked_ref_ = TrackingRef.PATH then s.pose_reached_ else false
         pub_discrete_progress_ := s.pub_discrete_progress_ ++
           [{ header := { seq := 0, stamp := tc, frame_id := path.header.frame_id }
              current := 0
              progress := ⟨0, toU32 path.poses.length⟩ }] }) ∧
    (path.poses.length < 2 ^ 32 → toU32 path.poses.length = path.poses.length) := by
  have hv : check_msg_path path = true := by
    have h1 : 0 < path.header.stamp := Nat.pos_of_ne_zero hstamp
    have h2 : 0 < path.poses.length := List.length_pos.mpr hposes
    simp [check_msg_path, h1, h2]
  refine ⟨?_, fun h => toU32_natCast _ h⟩
  by_cases ha : s.tracked_ref_ = TrackingRef.PATH
  · simp [set_discrete_path_reference, hv, set_reference_used, reset_waypoint_timer,
      publish_waypoint_reached, ha, toU32_zero]
  · simp [set_discrete_path_reference, hv, set_reference_used, reset_waypoint_timer,
      publish_waypoint_reached, ha, toU32_zero, has_path_reference]

theorem C13_install_path_witness :
    ((sampleManager false : ContrailManager ℚ).set_discrete_path_reference
        { header := { seq := 0, stamp := 7, frame_id := "odom" }
          poses := [sampleWaypoint 1 1 1, sampleWaypoint 2 2 2, sampleWaypoint 3 3 3] } 20).1
      = true ∧
    ((sampleManager false : ContrailManager ℚ).set_discrete_path_reference
        { header := { seq := 0, stamp := 7, frame_id := "odom" }
          poses := [sampleWaypoint 1 1 1, sampleWaypoint 2 2 2, sampleWaypoint 3 3 3] }
        20).2.pub_discrete_progress_
      = [{ header := { seq := 0, stamp := 20, frame_id := "odom" }
           current := 0
           progress := ⟨0, toU32 3⟩ }] ∧
    toU32 3 = 3 := by
  have h := C13_install_path (sampleManager false : ContrailManager ℚ)
    { header := { seq := 0, stamp := 7, frame_id := "odom" }
      poses := [sampleWaypoint 1 1 1, sampleWaypoint 2 2 2, sampleWaypoint 3 3 3] } 20
    (by decide) (by simp)
  refine ⟨?_, ?_, h.2 (by norm_num)⟩
  · rw [h.1]
  · rw [h.1]
    rfl

/-- C14: installing a valid pose. For every manager state, every pose payload
with a non-zero stamp and either value of `is_fallback`,
`set_discrete_pose_reference` returns `true`; afterwards the stored pose is the
payload, the dwell timer is unset, the active type is POSE, the reached flag
equals `is_fallback` and every other field is unchanged. With `is_fallback`
false exactly one notification is published, stamped with the clock reading,
with `current = 0` and quotient `0/1`; with `is_fallback` true none is. -/
theorem C14_install_pose (s : ContrailManager R) (pose : PoseStamped R)
    (is_fallback : Bool) (tc : Time) (hstamp : pose.header.stamp ≠ 0) :
    s.set_discrete_pose_reference pose is_fallback tc =
      (true,
       { s with
         msg_pose_ := pose
         dsp_reached_time_ := 0
         tracked_ref_ := TrackingRef.POSE
         pose_reached_ := is_fallback
         pub_discrete_progress_ :=
           if is_fallback = true then s.pub_discrete_progress_
           else s.pub_discrete_progress_ ++
             [{ header := { seq := 0, stamp := tc, frame_id := pose.header.frame_id }
                current := 0
                progress := ⟨0, 1⟩ }] }) := by
  have hv : check_msg_pose pose = true := by
    have h1 : 0 < pose.header.stamp := Nat.pos_of_ne_zero hstamp
    simp [check_msg_pose, h1]
  by_cases ha : s.tracked_ref_ = TrackingRef.POSE
  · cases is_fallback <;>
      simp [set_discrete_pose_reference, hv, set_reference_used, reset_waypoint_timer,
        publish_waypoint_reached, ha]
  · cases is_fallback <;>
      simp [set_discrete_pose_reference, hv, set_reference_used, reset_waypoint_timer,
        publish_waypoint_reached, ha, has_pose_reference]

theorem C14_install_pose_witness :
    ((sampleManager false : ContrailManager ℚ).set_discrete_pose_reference
        (sampleWaypoint 4 5 6) false 20).2.pub_discrete_progress_
      = [{ header := { seq := 0, stamp := 20, frame_id := "map" }
           current := 0
           progress := ⟨0, 1⟩ }] ∧
    ((sampleManager false : ContrailManager ℚ).set_discrete_pose_reference
        (sampleWaypoint 4 5 6) true 20).2.pub_discrete_progress_ = [] ∧
    ((sampleManager false : ContrailManager ℚ).set_discrete_pose_reference
        (sampleWaypoint 4 5 6) true 20).2.pose_reached_ = true := by
  have h1 := C14_install_pose (sampleManager false : ContrailManager ℚ)
    (sampleWaypoint 4 5 6) false 20 (by decide)
  have h2 := C14_install_pose (sampleManager false : ContrailManager ℚ)
    (sampleWaypoint 4 5 6) true 20 (by decide)
  rw [h1, h2]
  exact ⟨rfl, rfl, rfl⟩

/-! ## The validity predicates -/

/-- C15: the validity predicates are the ones the specification defines.
`check_msg_spline` is true exactly when the stamp is non-zero and the `t`, `x`,
`y`, `z` and `yaw` arrays all have the same non-zero length, and its result does
not depend on the query time; `check_msg_path` is true exactly when the stamp is
non-zero and there is at least one pose; `check_msg_pose` is true exactly when
the stamp is non-zero. -/
theorem C15_validity_predicates :
    (∀ (c : CubicSpline R) (t : Time), check_msg_spline c t = true ↔ spec_curve_valid c) ∧
    (∀ (c : CubicSpline R) (t1 t2 : Time), check_msg_spline c t1 = check_msg_spline c t2) ∧
    (∀ p : Path R, check_msg_path p = true ↔ spec_path_valid p) ∧
    (∀ q : PoseStamped R, check_msg_pose q = true ↔ spec_pose_valid q) := by
  refine ⟨?_, ?_, ?_, ?_⟩
  · intro c t
    unfold check_msg_spline spec_curve_valid
    by_cases hs : c.header.stamp > 0
    · have hne : c.header.stamp ≠ 0 := Nat.pos_iff_ne_zero.mp hs
      simp only [hs, if_true, Bool.and_eq_true, decide_eq_true_eq]
      constructor
      · rintro ⟨⟨⟨⟨ht, hx⟩, hy⟩, hz⟩, hw⟩
        exact ⟨hne, c.t.length, Nat.pos_iff_ne_zero.mp ht, rfl, hx, hy, hz, hw⟩
      · rintro ⟨_, n, hn, ht, hx, hy, hz, hw⟩
        refine ⟨⟨⟨⟨?_, ?_⟩, ?_⟩, ?_⟩, ?_⟩
        · rw [ht]; exact Nat.pos_of_ne_zero hn
        · rw [hx, ht]
        · rw [hy, ht]
        · rw [hz, ht]
        · rw [hw, ht]
    · have h0 : c.header.stamp = 0 := Nat.eq_zero_of_not_pos hs
      simp [hs, h0]
  · intro c t1 t2
    rfl
  · intro p
    unfold check_msg_path spec_path_valid
    simp only [Bool.and_eq_true, decide_eq_true_eq]
    constructor
    · rintro ⟨h1, h2⟩
      exact ⟨Nat.pos_iff_ne_zero.mp h1, h2⟩
    · rintro ⟨h1, h2⟩
      exact ⟨Nat.pos_of_ne_zero h1, h2⟩
  · intro q
    unfold check_msg_pose spec_pose_valid
    simp only [decide_eq_true_eq]
    exact Nat.pos_iff_ne_zero

/-! ## Advancing inside a path -/

/-- C17: advancing to the next waypoint. For every valid stored path of length
`n` (in the range of the `int` path index) with PATH active and path index `i`
such that `i + 1 < n`: a `get_reference` query on which the waypoint completes
(in tolerance of `path[i]` and `check_waypoint_complete` true) returns the
setpoint of `path[i]`, sets the index to exactly `i + 1`, leaves the dwell timer
unset, publishes exactly one notification with `current = i + 1` and the
quotient of `i + 1` by `n`, and changes nothing else, so the active type is
still PATH and the stored path is the same; a query on which the waypoint does
not complete changes at most the dwell timer, so the index is still `i` and
nothing is published. -/
theorem C17_non_final_advance [LinearOrderedField R] (num : Numerics R)
    (s : ContrailManager R) (ref : PositionTarget R) (t : Time) (g_c : Affine3d R)
    (tc now : Time) (n i : Nat) (wp : PoseStamped R)
    (hvalid : s.has_path_reference = true)
    (hlen : s.msg_path_.poses.length = n) (hint : n < 2 ^ 31)
    (hactive : s.tracked_ref_ = TrackingRef.PATH)
    (hidx : s.path_c_ = (i : Int)) (hi : i + 1 < n)
    (hwp : s.msg_path_.poses[i]? = some wp) :
    (waypoint_reached_at num s wp.pose g_c = true →
      (s.check_waypoint_complete t).1 = true →
      get_reference num s ref t g_c tc now =
        (true,
         target_from_pose num s.msg_path_.header.frame_id wp.pose now,
         { s with
           path_c_ := (i : Int) + 1
           dsp_reached_time_ := 0
           pub_discrete_progress_ := s.pub_discrete_progress_ ++
             [{ header := { seq := 0, stamp := t, frame_id := s.msg_path_.header.frame_id }
                current := i + 1
                progress := ⟨i + 1, n⟩ }] })) ∧
    (¬ (waypoint_reached_at num s wp.pose g_c = true ∧
          (s.check_waypoint_complete t).1 = true) →
      ∃ tm : Time,
        get_reference num s ref t g_c tc now =
          (true,
           target_from_pose num s.msg_path_.header.frame_id wp.pose now,
           { s with dsp_reached_time_ := tm })) := by
  have hsz : toSizeT s.path_c_ = i := by
    rw [hidx]; exact toSizeT_natCast i (by omega)
  have hin : toSizeT s.path_c_ < s.msg_path_.poses.length := by
    rw [hsz, hlen]; omega
  have hget : s.msg_path_.poses.getD (toSizeT s.path_c_) default = wp := by
    rw [hsz]; exact getD_of_getElem? _ _ _ _ hwp
  have hdisp : get_reference num s ref t g_c tc now =
      get_discrete_path_reference num s ref t g_c tc now := by
    simp [get_reference, get_reference_used, hactive]
  refine ⟨?_, ?_⟩
  · intro htol hc
    rw [← hget] at htol
    rw [hdisp, get_discrete_path_reference_complete num s ref t g_c tc now hvalid hin htol hc,
      hget]
    have hnext : toSizeT (s.path_c_ + 1) = i + 1 := by
      rw [hidx]
      have := toSizeT_natCast (i + 1) (by omega)
      simpa using this
    have hnot : ¬ toSizeT (s.path_c_ + 1) ≥ s.msg_path_.poses.length := by
      rw [hnext, hlen]; omega
    have hu1 : toU32 (s.path_c_ + 1) = i + 1 := by
      rw [hidx]
      have := toU32_natCast (i + 1) (by omega)
      simpa using this
    have hu2 : toU32 (s.msg_path_.poses.length : Int) = n := by
      rw [hlen]; exact toU32_natCast n (by omega)
    rw [if_neg hnot, hu1, hu2, hidx]
  · intro hnc
    rw [hdisp]
    cases htol : waypoint_reached_at num s wp.pose g_c with
    | false =>
      rw [← hget] at htol
      rw [get_discrete_path_reference_outside num s ref t g_c tc now hvalid hin htol, hget]
      exact ⟨0, rfl⟩
    | true =>
      have hc : (s.check_waypoint_complete t).1 = false := by
        cases hc : (s.check_waypoint_complete t).1 with
        | false => rfl
        | true => exact absurd ⟨htol, hc⟩ hnc
      rw [← hget] at htol
      rw [get_discrete_path_reference_dwelling num s ref t g_c tc now hvalid hin htol hc, hget]
      exact ⟨_, rfl⟩

theorem sample_dwelling_tolerances :
    (0 : ℝ) < ({ (sampleTrackingPath false : ContrailManager ℝ) with
      dsp_reached_time_ := 10000000000 } : ContrailManager ℝ).param_dsp_radius_ ∧
    (0 : ℝ) < ({ (sampleTrackingPath false : ContrailManager ℝ) with
      dsp_reached_time_ := 10000000000 } : ContrailManager ℝ).param_dsp_yaw_ := by
  refine ⟨?_, ?_⟩
  · show (0 : ℝ) < (sampleTrackingPath false : ContrailManager ℝ).param_dsp_radius_
    rw [(sampleTracking_radius false).1]; norm_num
  · show (0 : ℝ) < (sampleTrackingPath false : ContrailManager ℝ).param_dsp_yaw_
    rw [(sampleTracking_radius false).2.2]; norm_num

theorem C17_non_final_advance_witness :
    get_reference realNumerics
        ({ (sampleTrackingPath false : ContrailManager ℝ) with
           dsp_reached_time_ := 10000000000 })
        blankTarget 13000000000 (sampleVehicle 0 0 1) 13 14 =
      (true,
       target_from_pose realNumerics "map" (sampleWaypoint 0 0 1).pose 14,
       { (sampleTrackingPath false : ContrailManager ℝ) with
         path_c_ := ((0 : Nat) : Int) + 1
         dsp_reached_time_ := 0
         pub_discrete_progress_ :=
           (sampleTrackingPath false : ContrailManager ℝ).pub_discrete_progress_ ++
             [{ header := { seq := 0, stamp := 13000000000, frame_id := "map" }
                current := 0 + 1
                progress := ⟨0 + 1, 2⟩ }] }) ∧
    ∃ tm : Time,
      get_reference realNumerics
          ({ (sampleTrackingPath false : ContrailManager ℝ) with
             dsp_reached_time_ := 10000000000 })
          blankTarget 11000000000 (sampleVehicle 0 0 1) 13 14 =
        (true,
         target_from_pose realNumerics "map" (sampleWaypoint 0 0 1).pose 14,
         { (sampleTrackingPath false : ContrailManager ℝ) with dsp_reached_time_ := tm }) :=
  ⟨(C17_non_final_advance realNumerics
      ({ (sampleTrackingPath false : ContrailManager ℝ) with
         dsp_reached_time_ := 10000000000 })
      blankTarget 13000000000 (sampleVehicle 0 0 1) 13 14 2 0 (sampleWaypoint 0 0 1)
      rfl rfl (by norm_num) rfl rfl (by norm_num) rfl).1
      (sample_in_tolerance _ sample_dwelling_tolerances.1 sample_dwelling_tolerances.2 0 0 1)
      (by decide),
   (C17_non_final_advance realNumerics
      ({ (sampleTrackingPath false : ContrailManager ℝ) with
         dsp_reached_time_ := 10000000000 })
      blankTarget 11000000000 (sampleVehicle 0 0 1) 13 14 2 0 (sampleWaypoint 0 0 1)
      rfl rfl (by norm_num) rfl rfl (by norm_num) rfl).2
      (fun h => absurd h.2 (by decide))⟩

/-! ## The index invariant -/

theorem get_discrete_path_reference_msg_path [LinearOrderedField R] (num : Numerics R)
    (s : ContrailManager R) (ref : PositionTarget R) (t : Time) (g_c : Affine3d R)
    (tc now : Time) :
    (get_discrete_path_reference num s ref t g_c tc now).2.2.msg_path_ = s.msg_path_ := by
  by_cases hg : s.has_path_reference = true ∧ toSizeT s.path_c_ < s.msg_path_.poses.length
  · obtain ⟨hv, hi⟩ := hg
    cases htol : waypoint_reached_at num s
        (s.msg_path_.poses.getD (toSizeT s.path_c_) default).pose g_c with
    | false => rw [get_discrete_path_reference_outside num s ref t g_c tc now hv hi htol]
    | true =>
      cases hc : (s.check_waypoint_complete t).1 with
      | false => rw [get_discrete_path_reference_dwelling num s ref t g_c tc now hv hi htol hc]
      | true =>
        rw [get_discrete_path_reference_complete num s ref t g_c tc now hv hi htol hc]
        simp only
        split
        · split <;> rfl
        · rfl
  · rw [get_discrete_path_reference_skip num s ref t g_c tc now hg]

theorem get_discrete_pose_reference_path_frame [LinearOrderedField R] (num : Numerics R)
    (s : ContrailManager R) (ref : PositionTarget R) (t : Time) (g_c : Affine3d R)
    (now : Time) :
    (get_discrete_pose_reference num s ref t g_c now).2.2.path_c_ = s.path_c_ ∧
    (get_discrete_pose_reference num s ref t g_c now).2.2.msg_path_ = s.msg_path_ := by
  cases hv : s.has_pose_reference with
  | false =>
    rw [get_discrete_pose_reference_skip num s ref t g_c now hv]
    exact ⟨rfl, rfl⟩
  | true =>
    cases hr : s.pose_reached_ with
    | true =>
      rw [get_discrete_pose_reference_latched num s ref t g_c now hv hr]
      exact ⟨rfl, rfl⟩
    | false =>
      cases htol : waypoint_reached_at num s s.msg_pose_.pose g_c with
      | false =>
        rw [get_discrete_pose_reference_outside num s ref t g_c now hv hr htol]
        exact ⟨rfl, rfl⟩
      | true =>
        cases hc : (s.check_waypoint_complete t).1 with
        | false =>
          rw [get_discrete_pose_reference_dwelling num s ref t g_c now hv hr htol hc]
          exact ⟨rfl, rfl⟩
        | true =>
          rw [get_discrete_pose_reference_complete num s ref t g_c now hv hr htol hc]
          exact ⟨rfl, rfl⟩

theorem index_zero_get_discrete_path_reference [LinearOrderedField R] (num : Numerics R)
    (s : ContrailManager R) (ref : PositionTarget R) (t : Time) (g_c : Affine3d R)
    (tc now : Time) (h : s.has_path_reference = false → s.path_c_ = 0) :
    (get_discrete_path_reference num s ref t g_c tc now).2.2.has_path_reference = false →
    (get_discrete_path_reference num s ref t g_c tc now).2.2.path_c_ = 0 := by
  intro hpost
  have hm := get_discrete_path_reference_msg_path num s ref t g_c tc now
  have hv : s.has_path_reference = false := by
    simpa [has_path_reference, hm] using hpost
  have hg : ¬ (s.has_path_reference = true ∧
      toSizeT s.path_c_ < s.msg_path_.poses.length) := by
    rw [hv]; simp
  rw [get_discrete_path_reference_skip num s ref t g_c tc now hg]
  exact h hv

theorem index_zero_get_discrete_pose_reference [LinearOrderedField R] (num : Numerics R)
    (s : ContrailManager R) (ref : PositionTarget R) (t : Time) (g_c : Affine3d R)
    (now : Time) (h : s.has_path_reference = false → s.path_c_ = 0) :
    (get_discrete_pose_reference num s ref t g_c now).2.2.has_path_reference = false →
    (get_discrete_pose_reference num s ref t g_c now).2.2.path_c_ = 0 := by
  obtain ⟨f1, f2⟩ := get_discrete_pose_reference_path_frame num s ref t g_c now
  intro hpost
  rw [f1]
  apply h
  simpa [has_path_reference, f2] using hpost

theorem index_zero_set_reference_used (s : ContrailManager R) (state : TrackingRef)
    (t : Time) (flag : Bool) (h : s.has_path_reference = false → s.path_c_ = 0) :
    (s.set_reference_used state t flag).2.has_path_reference = false →
    (s.set_reference_used state t flag).2.path_c_ = 0 := by
  obtain ⟨f1, f2, _, _⟩ := set_reference_used_frame s state t flag
  intro hpost
  rw [f1]
  apply h
  simpa [has_path_reference, f2] using hpost

/-- In a reachable state an invalid stored path goes with the path index 0. -/
theorem reachable_index_zero [LinearOrderedField R] (num : Numerics R)
    (s : ContrailManager R) (h : Reachable num s) :
    s.has_path_reference = false → s.path_c_ = 0 := by
  induction h with
  | initial => intro _; rfl
  | callback_cfg_settings s config _ ih => exact ih
  | set_reference_used s state t flag _ ih =>
    exact index_zero_set_reference_used s state t flag ih
  | set_spline_reference s spline tc _ ih =>
    unfold set_spline_reference
    split
    · exact index_zero_set_reference_used _ _ _ _ ih
    · exact ih
  | set_discrete_path_reference s path tc hlen _ ih =>
    unfold set_discrete_path_reference
    split
    · apply index_zero_set_reference_used
      intro _
      rfl
    · exact ih
  | set_discrete_pose_reference s pose fb tc _ ih =>
    unfold set_discrete_pose_reference
    split
    · exact index_zero_set_reference_used _ _ _ _ ih
    · exact ih
  | get_reference s ref t g_c tc now _ ih =>
    unfold get_reference
    cases ha : s.tracked_ref_
    · simpa [get_reference_used, ha] using ih
    · simpa [get_reference_used, ha, get_spline_reference] using ih
    · simpa [get_reference_used, ha] using
        index_zero_get_discrete_path_reference num s ref t g_c tc now ih
    · simpa [get_reference_used, ha] using
        index_zero_get_discrete_pose_reference num s ref t g_c now ih
  | get_spline_reference s ref t _ ih => exact ih
  | get_discrete_path_reference s ref t g_c tc now _ ih =>
    exact index_zero_get_discrete_path_reference num s ref t g_c tc now ih
  | get_discrete_pose_reference s ref t g_c now _ ih =>
    exact index_zero_get_discrete_pose_reference num s ref t g_c now ih

/-- C18: the index invariant. In every state reachable from the initial state
by payload installs (of paths with fewer than `2 ^ 31` poses, the range of the
`int` index), `set_reference_used` requests, configuration updates and queries
(`get_reference`, `get_discrete_path_reference` and the other public query
functions), `0 <= path_c_ <= length` of the stored path. Whenever the stored
path is valid, `path_c_ < length`: the index as `size_t` is the index itself, it
is below the length, `path[path_c_]` exists, and a direct path query takes the
branch that produces a setpoint, never the one of the guard `idx >= length`. -/
theorem C18_index_invariant [LinearOrderedField R] (num : Numerics R)
    (s : ContrailManager R) (h : Reachable num s) :
    0 ≤ s.path_c_ ∧
    s.path_c_ ≤ (s.msg_path_.poses.length : Int) ∧
    (s.has_path_reference = true →
      s.path_c_ < (s.msg_path_.poses.length : Int) ∧
      (toSizeT s.path_c_ : Int) = s.path_c_ ∧
      ¬ (toSizeT s.path_c_ ≥ s.msg_path_.poses.length) ∧
      (∃ wp : PoseStamped R, s.msg_path_.poses[toSizeT s.path_c_]? = some wp) ∧
      ∀ (ref : PositionTarget R) (t : Time) (g_c : Affine3d R) (tc now : Time),
        (get_discrete_path_reference num s ref t g_c tc now).1 = true) := by
  have hc := reachable_consistent num s h
  have hz := reachable_index_zero num s h
  obtain ⟨h1, h2, h3, _⟩ := hc
  refine ⟨h1, ?_, ?_⟩
  · cases hv : s.has_path_reference with
    | false =>
      rw [hz hv]
      exact Int.ofNat_nonneg _
    | true => exact le_of_lt (h3 hv)
  · intro hv
    have hlt := h3 hv
    have hin : toSizeT s.path_c_ < s.msg_path_.poses.length :=
      consistent_index_in_path s ⟨h1, h2, h3, ‹_›⟩ hv
    refine ⟨hlt, ?_, not_le.mpr hin, ⟨_, List.getElem?_eq_getElem hin⟩, ?_⟩
    · unfold toSizeT
      omega
    · intro ref t g_c tc now
      exact (get_discrete_path_reference_setpoint num s ref t g_c tc now hv hin).1

theorem C18_index_invariant_witness :
    0 ≤ (sampleTrackingPath false : ContrailManager ℝ).path_c_ ∧
    (sampleTrackingPath false : ContrailManager ℝ).path_c_ ≤
      ((sampleTrackingPath false : ContrailManager ℝ).msg_path_.poses.length : Int) ∧
    (sampleTrackingPath false : ContrailManager ℝ).path_c_ <
      ((sampleTrackingPath false : ContrailManager ℝ).msg_path_.poses.length : Int) ∧
    (get_reference realNumerics (sampleTrackingPath false) blankTarget 10000000000
        (sampleVehicle 0 0 1) 10 11).2.2.path_c_ <
      ((get_reference realNumerics (sampleTrackingPath false) blankTarget 10000000000
        (sampleVehicle 0 0 1) 10 11).2.2.msg_path_.poses.length : Int) :=
  ⟨(C18_index_invariant realNumerics _ (sample_reachable_path false)).1,
   (C18_index_invariant realNumerics _ (sample_reachable_path false)).2.1,
   ((C18_index_invariant realNumerics _ (sample_reachable_path false)).2.2 rfl).1,
   ((C18_index_invariant realNumerics _
      (Reachable.get_reference _ blankTarget 10000000000 (sampleVehicle 0 0 1) 10 11
        (sample_reachable_path false))).2.2
      (by
        have hm : (get_reference realNumerics (sampleTrackingPath false) blankTarget
            10000000000 (sampleVehicle 0 0 1) 10 11).2.2.msg_path_ =
            (sampleTrackingPath false : ContrailManager ℝ).msg_path_ := by
          have hd : get_reference realNumerics (sampleTrackingPath false) blankTarget
              10000000000 (sampleVehicle 0 0 1) 10 11 =
              get_discrete_path_reference realNumerics (sampleTrackingPath false) blankTarget
                10000000000 (sampleVehicle 0 0 1) 10 11 := rfl
          rw [hd]
          exact get_discrete_path_reference_msg_path _ _ _ _ _ _ _
        show check_msg_path _ = true
        rw [hm]
        rfl)).1⟩

/-! ## The reached-flag invariant -/

theorem reached_step_set_reference_used (s : ContrailManager R) (state : TrackingRef)
    (t : Time) (flag : Bool) :
    reached_step s (s.set_reference_used state t flag).2 := by
  unfold reached_step
  rcases s with ⟨pub, sp, pa, po, fb, pr, pc, tm, hd, rad, yw, tr⟩
  cases state <;> cases tr <;> cases flag <;>
    simp [set_reference_used, publish_waypoint_reached, has_pose_reference,
      has_path_reference, has_spline_reference] <;>
    split_ifs <;> simp_all

theorem reached_step_of_eq (s s0 s1 : ContrailManager R)
    (ht : s0.tracked_ref_ = s.tracked_ref_) (hr : s0.pose_reached_ = s.pose_reached_)
    (h : reached_step s0 s1) : reached_step s s1 := by
  unfold reached_step at h ⊢
  rw [ht, hr] at h
  exact h

theorem reached_step_refl (s : ContrailManager R) : reached_step s s :=
  Or.inl ⟨rfl, rfl⟩

theorem reached_step_set_discrete_pose_reference (s : ContrailManager R)
    (pose : PoseStamped R) (is_fallback : Bool) (tc : Time) :
    reached_step s (s.set_discrete_pose_reference pose is_fallback tc).2 := by
  unfold set_discrete_pose_reference
  split
  · next hv =>
    right; right; left
    by_cases ha : s.tracked_ref_ = TrackingRef.POSE
    · cases is_fallback <;>
        simp [set_reference_used, reset_waypoint_timer, publish_waypoint_reached, ha]
    · cases is_fallback <;>
        simp [set_reference_used, reset_waypoint_timer, publish_waypoint_reached, ha,
          has_pose_reference, hv]
  · exact reached_step_refl s

theorem reached_step_get_reference [LinearOrderedField R] (num : Numerics R)
    (s : ContrailManager R) (ref : PositionTarget R) (t : Time) (g_c : Affine3d R)
    (tc now : Time) :
    reached_step s (get_reference num s ref t g_c tc now).2.2 := by
  cases hct : current_target s with
  | none =>
    rw [get_reference_no_target num s ref t g_c tc now hct]
    exact reached_step_refl s
  | some p =>
    cases htol : waypoint_reached_at num s p g_c with
    | false =>
      rw [get_reference_step_outside num s ref t g_c tc now p hct htol]
      exact Or.inl ⟨rfl, rfl⟩
    | true =>
      cases hc : (s.check_waypoint_complete t).1 with
      | false =>
        rw [get_reference_step_dwelling num s ref t g_c tc now p hct htol hc]
        exact Or.inl ⟨rfl, rfl⟩
      | true =>
        rcases current_target_active s p hct with ha | ha
        · obtain ⟨hv, hi, hp⟩ := current_target_path s p ha hct
          rw [hp] at htol
          have hget : get_reference num s ref t g_c tc now =
              get_discrete_path_reference num s ref t g_c tc now := by
            simp [get_reference, get_reference_used, ha]
          rw [hget, get_discrete_path_reference_complete num s ref t g_c tc now hv hi htol hc]
          simp only
          split
          · split
            · exact Or.inr (Or.inr (Or.inl rfl))
            · right; left
              simp [ha]
          · exact Or.inl ⟨rfl, rfl⟩
        · obtain ⟨hv, hr, hp⟩ := current_target_pose s p ha hct
          rw [hp] at htol
          have hget : get_reference num s ref t g_c tc now =
              get_discrete_pose_reference num s ref t g_c now := by
            simp [get_reference, get_reference_used, ha]
          rw [hget, get_discrete_pose_reference_complete num s ref t g_c now hv hr htol hc]
          cases hfb : s.param_fallback_to_pose_
          · exact Or.inr (Or.inr (Or.inr ⟨ha, by simp⟩))
          · exact Or.inr (Or.inr (Or.inl (by simp [ha])))

/-- The invariant behind the reached flag: an active discrete reference is the
recorded last one, and a set flag goes with POSE active, or with NONE active
after POSE. One operation preserves it. -/
theorem reached_invariant_step (s s1 : ContrailManager R) (last : TrackingRef)
    (hstep : reached_step s s1)
    (h1 : s.tracked_ref_ = TrackingRef.PATH ∨ s.tracked_ref_ = TrackingRef.POSE →
      last = s.tracked_ref_)
    (h2 : s.pose_reached_ = true →
      s.tracked_ref_ = TrackingRef.POSE ∨
        (s.tracked_ref_ = TrackingRef.NONE ∧ last = TrackingRef.POSE)) :
    (s1.tracked_ref_ = TrackingRef.PATH ∨ s1.tracked_ref_ = TrackingRef.POSE →
      last_discrete last s1.tracked_ref_ = s1.tracked_ref_) ∧
    (s1.pose_reached_ = true →
      s1.tracked_ref_ = TrackingRef.POSE ∨
        (s1.tracked_ref_ = TrackingRef.NONE ∧
          last_discrete last s1.tracked_ref_ = TrackingRef.POSE)) := by
  refine ⟨?_, ?_⟩
  · intro h
    unfold last_discrete
    rw [if_pos h]
  · intro hr
    rcases hstep with ⟨ht, hp⟩ | hf | hpose | ⟨hwas, hnone⟩
    · rw [hp] at hr
      rcases h2 hr with h | ⟨h, hl⟩
      · left; rw [ht]; exact h
      · right
        refine ⟨by rw [ht]; exact h, ?_⟩
        unfold last_discrete
        rw [ht, h]
        simpa using hl
    · rw [hf] at hr
      exact absurd hr (by simp)
    · exact Or.inl hpose
    · right
      refine ⟨hnone, ?_⟩
      unfold last_discrete
      rw [hnone]
      have := h1 (Or.inr hwas)
      rw [hwas] at this
      simpa using this

theorem operated_invariant [LinearOrderedField R] (num : Numerics R)
    (s : ContrailManager R) (last : TrackingRef) (h : Operated num s last) :
    (s.tracked_ref_ = TrackingRef.PATH ∨ s.tracked_ref_ = TrackingRef.POSE →
      last = s.tracked_ref_) ∧
    (s.pose_reached_ = true →
      s.tracked_ref_ = TrackingRef.POSE ∨
        (s.tracked_ref_ = TrackingRef.NONE ∧ last = TrackingRef.POSE)) := by
  induction h with
  | initial =>
    refine ⟨?_, ?_⟩
    · intro h
      rcases h with h | h <;> simp [ContrailManager.initial] at h
    · intro h
      simp [ContrailManager.initial] at h
  | callback_cfg_settings s last config _ ih =>
    exact reached_invariant_step s _ last (Or.inl ⟨rfl, rfl⟩) ih.1 ih.2
  | set_reference_used s last state t flag _ ih =>
    exact reached_invariant_step s _ last (reached_step_set_reference_used s state t flag)
      ih.1 ih.2
  | set_spline_reference s last spline tc _ ih =>
    apply reached_invariant_step s _ last _ ih.1 ih.2
    unfold set_spline_reference
    split
    · exact reached_step_of_eq s _ _ rfl rfl (reached_step_set_reference_used _ _ _ _)
    · exact reached_step_refl s
  | set_discrete_path_reference s last path tc _ ih =>
    apply reached_invariant_step s _ last _ ih.1 ih.2
    unfold set_discrete_path_reference
    split
    · exact reached_step_of_eq s _ _ rfl rfl (reached_step_set_reference_used _ _ _ _)
    · exact reached_step_refl s
  | set_discrete_pose_reference s last pose fb tc _ ih =>
    exact reached_invariant_step s _ last
      (reached_step_set_discrete_pose_reference s pose fb tc) ih.1 ih.2
  | get_reference s last ref t g_c tc now _ ih =>
    exact reached_invariant_step s _ last (reached_step_get_reference num s ref t g_c tc now)
      ih.1 ih.2

/-- C20: the reached-flag invariant. In every state reached from the initial
state by payload installs, `set_reference_used` requests, configuration updates
and `get_reference` queries: if the reached flag is set, then POSE is active, or
NONE is active and POSE was the discrete reference active most recently; so the
reached flag is clear whenever PATH or SPLINE is active. -/
theorem C20_reached_flag_invariant [LinearOrderedField R] (num : Numerics R)
    (s : ContrailManager R) (last : TrackingRef) (h : Operated num s last) :
    (s.pose_reached_ = true →
      s.tracked_ref_ = TrackingRef.POSE ∨
        (s.tracked_ref_ = TrackingRef.NONE ∧ last = TrackingRef.POSE)) ∧
    (s.tracked_ref_ = TrackingRef.PATH ∨ s.tracked_ref_ = TrackingRef.SPLINE →
      s.pose_reached_ = false) := by
  obtain ⟨_, h2⟩ := operated_invariant num s last h
  refine ⟨h2, ?_⟩
  intro ha
  cases hr : s.pose_reached_ with
  | false => rfl
  | true =>
    rcases h2 hr with hp | ⟨hn, _⟩
    · rcases ha with ha | ha <;> rw [hp] at ha <;> exact absurd ha (by simp)
    · rcases ha with ha | ha <;> rw [hn] at ha <;> exact absurd ha (by simp)

theorem sample_operated_holding (fb : Bool) :
    Operated realNumerics (sampleHoldingPose fb : ContrailManager ℝ)
      (last_discrete
        (last_discrete TrackingRef.NONE (sampleConfigured fb : ContrailManager ℝ).tracked_ref_)
        (sampleHoldingPose fb : ContrailManager ℝ).tracked_ref_) :=
  Operated.set_discrete_pose_reference _ _ _ _ _
    (Operated.callback_cfg_settings _ _ _ Operated.initial)

theorem C20_reached_flag_invariant_witness :
    ((sampleHoldingPose false : ContrailManager ℝ).tracked_ref_ = TrackingRef.POSE ∨
      ((sampleHoldingPose false : ContrailManager ℝ).tracked_ref_ = TrackingRef.NONE ∧
        last_discrete
          (last_discrete TrackingRef.NONE
            (sampleConfigured false : ContrailManager ℝ).tracked_ref_)
          (sampleHoldingPose false : ContrailManager ℝ).tracked_ref_ = TrackingRef.POSE)) ∧
    (samplePathAfterPose false : ContrailManager ℝ).pose_reached_ = false :=
  ⟨(C20_reached_flag_invariant realNumerics _ _ (sample_operated_holding false)).1 rfl,
   (C20_reached_flag_invariant realNumerics _ _
      (Operated.set_discrete_path_reference _ _ samplePath 7000000000
        (sample_operated_holding false))).2 (Or.inl rfl)⟩

/-! ## The dwell timer across a change of reference type -/

theorem sample_reachable_path_with_pose (fb : Bool) :
    Reachable realNumerics (samplePathWithPose fb : ContrailManager ℝ) :=
  Reachable.set_discrete_path_reference _ _ _ (by decide) (sample_reachable_pose fb)

/-- The sample manager tracking the first waypoint of `samplePath`, after a
query at `t = 10 s` with the vehicle on that waypoint: the query started the
dwell and changed nothing else. -/
theorem sample_dwell_started :
    (get_reference realNumerics (samplePathWithPose false) blankTarget 10000000000
        (sampleVehicle 0 0 1) 10000000000 10000000000).2.2 =
      { (samplePathWithPose false : ContrailManager ℝ) with
        dsp_reached_time_ := 10000000000 } :=
  get_reference_step_dwelling realNumerics (samplePathWithPose false) blankTarget
    10000000000 (sampleVehicle 0 0 1) 10000000000 10000000000
    (sampleWaypoint 0 0 1).pose rfl
    (sample_in_tolerance _ (by show (0 : ℝ) < 1 / 2; norm_num)
      (by show (0 : ℝ) < 1 / 10; norm_num) 0 0 1)
    rfl

/-- C19 (the code at the failing input): the dwell timer survives a change of
the active type. The sample manager tracks `samplePath` with a valid, unreached
pose at `(2, 0, 1)` stored; a query at `t = 10 s` on the first waypoint starts
the dwell. The state is reachable. The request `set_reference_used(POSE)` at
`t = 11 s` is accepted and changes the active type from PATH to POSE, and the
dwell timer still holds 10 s afterwards. The next query, at `t = 12.5 s` with
the vehicle on the pose, is the first one made against the pose, and it
completes the pose at once: it publishes the `1/1` notification and sets the
reached flag, the dwell started against the path waypoint being credited to the
pose. Likewise the installation of a valid curve in the dwelling state is
accepted, makes SPLINE the active type and leaves the timer at 10 s. -/
theorem C19_type_switch_keeps_timer :
    Reachable realNumerics
      ({ (samplePathWithPose false : ContrailManager ℝ) with
         dsp_reached_time_ := 10000000000 }) ∧
    ({ (samplePathWithPose false : ContrailManager ℝ) with
       dsp_reached_time_ := 10000000000 } : ContrailManager ℝ).tracked_ref_ =
      TrackingRef.PATH ∧
    (({ (samplePathWithPose false : ContrailManager ℝ) with
        dsp_reached_time_ := 10000000000 } : ContrailManager ℝ).set_reference_used
      TrackingRef.POSE 11000000000 false).1 = true ∧
    (({ (samplePathWithPose false : ContrailManager ℝ) with
        dsp_reached_time_ := 10000000000 } : ContrailManager ℝ).set_reference_used
      TrackingRef.POSE 11000000000 false).2.tracked_ref_ = TrackingRef.POSE ∧
    (({ (samplePathWithPose false : ContrailManager ℝ) with
        dsp_reached_time_ := 10000000000 } : ContrailManager ℝ).set_reference_used
      TrackingRef.POSE 11000000000 false).2.dsp_reached_time_ = 10000000000 ∧
    (get_reference realNumerics
        (({ (samplePathWithPose false : ContrailManager ℝ) with
            dsp_reached_time_ := 10000000000 } : ContrailManager ℝ).set_reference_used
          TrackingRef.POSE 11000000000 false).2
        blankTarget 12500000000 (sampleVehicle 2 0 1) 12500000000
        12500000000).2.2.pose_reached_ = true ∧
    (get_reference realNumerics
        (({ (samplePathWithPose false : ContrailManager ℝ) with
            dsp_reached_time_ := 10000000000 } : ContrailManager ℝ).set_reference_used
          TrackingRef.POSE 11000000000 false).2
        blankTarget 12500000000 (sampleVehicle 2 0 1) 12500000000
        12500000000).2.2.pub_discrete_progress_ =
      (({ (samplePathWithPose false : ContrailManager ℝ) with
          dsp_reached_time_ := 10000000000 } : ContrailManager ℝ).set_reference_used
        TrackingRef.POSE 11000000000 false).2.pub_discrete_progress_ ++
        [{ header := { seq := 0, stamp := 12500000000, frame_id := "map" }
           current := 1
           progress := ⟨1, 1⟩ }] ∧
    (({ (samplePathWithPose false : ContrailManager ℝ) with
        dsp_reached_time_ := 10000000000 } : ContrailManager ℝ).set_spline_reference
      sampleSpline 11000000000).1 = true ∧
    (({ (samplePathWithPose false : ContrailManager ℝ) with
        dsp_reached_time_ := 10000000000 } : ContrailManager ℝ).set_spline_reference
      sampleSpline 11000000000).2.tracked_ref_ = TrackingRef.SPLINE ∧
    (({ (samplePathWithPose false : ContrailManager ℝ) with
        dsp_reached_time_ := 10000000000 } : ContrailManager ℝ).set_spline_reference
      sampleSpline 11000000000).2.dsp_reached_time_ = 10000000000 := by
  have hreach : Reachable realNumerics
      ({ (samplePathWithPose false : ContrailManager ℝ) with
         dsp_reached_time_ := 10000000000 }) := by
    rw [← sample_dwell_started]
    exact Reachable.get_reference _ _ _ _ _ _ (sample_reachable_path_with_pose false)
  have hstep := get_discrete_pose_reference_complete realNumerics
    (({ (samplePathWithPose false : ContrailManager ℝ) with
        dsp_reached_time_ := 10000000000 } : ContrailManager ℝ).set_reference_used
      TrackingRef.POSE 11000000000 false).2
    blankTarget 12500000000 (sampleVehicle 2 0 1) 12500000000 rfl rfl
    (sample_in_tolerance _ (by show (0 : ℝ) < 1 / 2; norm_num)
      (by show (0 : ℝ) < 1 / 10; norm_num) 2 0 1)
    (by decide)
  have hget : get_reference realNumerics
      (({ (samplePathWithPose false : ContrailManager ℝ) with
          dsp_reached_time_ := 10000000000 } : ContrailManager ℝ).set_reference_used
        TrackingRef.POSE 11000000000 false).2
      blankTarget 12500000000 (sampleVehicle 2 0 1) 12500000000 12500000000 =
      get_discrete_pose_reference realNumerics
        (({ (samplePathWithPose false : ContrailManager ℝ) with
            dsp_reached_time_ := 10000000000 } : ContrailManager ℝ).set_reference_used
          TrackingRef.POSE 11000000000 false).2
        blankTarget 12500000000 (sampleVehicle 2 0 1) 12500000000 := rfl
  refine ⟨hreach, rfl, rfl, rfl, rfl, ?_, ?_, rfl, rfl, rfl⟩
  · rw [hget, hstep]
  · rw [hget, hstep]
    rfl

/-! ## Yaw extraction -/

theorem sin_eq_half (x : ℝ) : Real.sin x = 2 * Real.sin (x / 2) * Real.cos (x / 2) := by
  rw [← Real.sin_two_mul]
  congr 1
  ring

theorem cos_eq_half (x : ℝ) : Real.cos x = Real.cos (x / 2) ^ 2 - Real.sin (x / 2) ^ 2 := by
  rw [← Real.cos_two_mul']
  congr 1
  ring

theorem euler_zyx_unit (psi theta phi : ℝ) :
    (euler_zyx psi theta phi).w * (euler_zyx psi theta phi).w +
      (euler_zyx psi theta phi).x * (euler_zyx psi theta phi).x +
      (euler_zyx psi theta phi).y * (euler_zyx psi theta phi).y +
      (euler_zyx psi theta phi).z * (euler_zyx psi theta phi).z = 1 := by
  have h1 := Real.cos_sq_add_sin_sq (psi / 2)
  have h2 := Real.cos_sq_add_sin_sq (theta / 2)
  have h3 := Real.cos_sq_add_sin_sq (phi / 2)
  simp only [euler_zyx, quat_mul]
  linear_combination
    ((Real.cos (theta / 2) ^ 2 + Real.sin (theta / 2) ^ 2) *
      (Real.cos (psi / 2) ^ 2 + Real.sin (psi / 2) ^ 2)) * h3 +
    (Real.cos (psi / 2) ^ 2 + Real.sin (psi / 2) ^ 2) * h2 + h1

theorem euler_zyx_siny (psi theta phi : ℝ) :
    2 * ((euler_zyx psi theta phi).w * (euler_zyx psi theta phi).z +
      (euler_zyx psi theta phi).x * (euler_zyx psi theta phi).y) =
    Real.cos theta * Real.sin psi := by
  have h3 := Real.cos_sq_add_sin_sq (phi / 2)
  rw [sin_eq_half psi, cos_eq_half theta]
  simp only [euler_zyx, quat_mul]
  linear_combination
    (2 * Real.cos (psi / 2) * Real.sin (psi / 2) *
      (Real.cos (theta / 2) ^ 2 - Real.sin (theta / 2) ^ 2)) * h3

theorem euler_zyx_cosy (psi theta phi : ℝ) :
    1 - 2 * ((euler_zyx psi theta phi).y * (euler_zyx psi theta phi).y +
      (euler_zyx psi theta phi).z * (euler_zyx psi theta phi).z) =
    Real.cos theta * Real.cos psi := by
  have h1 := Real.cos_sq_add_sin_sq (psi / 2)
  have h2 := Real.cos_sq_add_sin_sq (theta / 2)
  have h3 := Real.cos_sq_add_sin_sq (phi / 2)
  rw [cos_eq_half psi, cos_eq_half theta]
  simp only [euler_zyx, quat_mul]
  linear_combination
    (-2 * (Real.sin (theta / 2) ^ 2 * Real.cos (psi / 2) ^ 2 +
      Real.cos (theta / 2) ^ 2 * Real.sin (psi / 2) ^ 2)) * h3 -
    (Real.cos (psi / 2) ^ 2 + Real.sin (psi / 2) ^ 2) * h2 - h1

theorem realNumerics_atan2_polar (r psi : ℝ) (hr : 0 < r)
    (hpsi : psi ∈ Set.Ioc (-Real.pi) Real.pi) :
    realNumerics.atan2 (r * Real.sin psi) (r * Real.cos psi) = psi := by
  have hz : (⟨r * Real.cos psi, r * Real.sin psi⟩ : ℂ) =
      (r : ℂ) * (Complex.cos psi + Complex.sin psi * Complex.I) := by
    apply Complex.ext <;>
      simp [Complex.cos_ofReal_re, Complex.sin_ofReal_re, Complex.cos_ofReal_im,
        Complex.sin_ofReal_im]
  show Complex.arg ⟨r * Real.cos psi, r * Real.sin psi⟩ = psi
  rw [hz]
  exact Complex.arg_mul_cos_add_sin_mul_I hr hpsi

theorem realNumerics_normalized_unit (q : Quaterniond ℝ)
    (h : q.w * q.w + q.x * q.x + q.y * q.y + q.z * q.z = 1) :
    realNumerics.normalized q = q := by
  simp [realNumerics, h]

/-- C16: yaw extraction ignores roll and pitch, over the real numbers. For every
yaw `psi` in `(-pi, pi]`, every roll `phi` and every pitch `theta` with
`|theta| < pi/2`, the unit quaternion `q` of the Z-Y-X Euler rotation
`(psi, theta, phi)` satisfies
`yaw_from_quaternion(q) = atan2(2(wz + xy), 1 - 2(y^2 + z^2)) = psi`, also when
`q` arrives as a message and is normalised first. Hence two such orientations
with the same yaw and any rolls and pitches have the same extracted yaw, and
`check_waypoint_reached` gives the same result for them, on the side of the
target and on the side of the vehicle, for any positions, radius and yaw
tolerance. -/
theorem C16_yaw_ignores_roll_pitch (psi theta phi : ℝ)
    (hpsi : psi ∈ Set.Ioc (-Real.pi) Real.pi) (htheta : |theta| < Real.pi / 2) :
    (euler_zyx psi theta phi).w * (euler_zyx psi theta phi).w +
        (euler_zyx psi theta phi).x * (euler_zyx psi theta phi).x +
        (euler_zyx psi theta phi).y * (euler_zyx psi theta phi).y +
        (euler_zyx psi theta phi).z * (euler_zyx psi theta phi).z = 1 ∧
    yaw_from_quaternion realNumerics (euler_zyx psi theta phi) =
      realNumerics.atan2
        (2 * ((euler_zyx psi theta phi).w * (euler_zyx psi theta phi).z +
          (euler_zyx psi theta phi).x * (euler_zyx psi theta phi).y))
        (1 - 2 * ((euler_zyx psi theta phi).y * (euler_zyx psi theta phi).y +
          (euler_zyx psi theta phi).z * (euler_zyx psi theta phi).z)) ∧
    yaw_from_quaternion realNumerics (euler_zyx psi theta phi) = psi ∧
    yaw_from_quaternion realNumerics
      (quaternion_from_msg realNumerics (quaternion_to_msg (euler_zyx psi theta phi))) = psi ∧
    ∀ theta2 phi2 : ℝ, |theta2| < Real.pi / 2 →
      yaw_from_quaternion realNumerics (euler_zyx psi theta2 phi2) =
        yaw_from_quaternion realNumerics (euler_zyx psi theta phi) ∧
      (∀ (s : ContrailManager ℝ) (pos_s : Vector3d ℝ) (yaw_s : ℝ) (pos_c : Vector3d ℝ),
        s.check_waypoint_reached realNumerics pos_s yaw_s pos_c
            (yaw_from_quaternion realNumerics (euler_zyx psi theta2 phi2)) =
          s.check_waypoint_reached realNumerics pos_s yaw_s pos_c
            (yaw_from_quaternion realNumerics (euler_zyx psi theta phi))) ∧
      (∀ (s : ContrailManager ℝ) (position : Point ℝ) (g_c : Affine3d ℝ),
        waypoint_reached_at realNumerics s
            ⟨position, quaternion_to_msg (euler_zyx psi theta2 phi2)⟩ g_c =
          waypoint_reached_at realNumerics s
            ⟨position, quaternion_to_msg (euler_zyx psi theta phi)⟩ g_c) := by
  have hyaw : ∀ th ph : ℝ, |th| < Real.pi / 2 →
      yaw_from_quaternion realNumerics (euler_zyx psi th ph) = psi := by
    intro th ph hth
    have hcos : 0 < Real.cos th := by
      apply Real.cos_pos_of_mem_Ioo
      rw [abs_lt] at hth
      exact ⟨hth.1, hth.2⟩
    show realNumerics.atan2 _ _ = psi
    rw [euler_zyx_siny, euler_zyx_cosy]
    exact realNumerics_atan2_polar _ _ hcos hpsi
  have hmsg : ∀ th ph : ℝ, |th| < Real.pi / 2 →
      yaw_from_quaternion realNumerics
        (quaternion_from_msg realNumerics (quaternion_to_msg (euler_zyx psi th ph))) = psi := by
    intro th ph hth
    have hq : quaternion_from_msg realNumerics (quaternion_to_msg (euler_zyx psi th ph)) =
        euler_zyx psi th ph :=
      realNumerics_normalized_unit (euler_zyx psi th ph) (euler_zyx_unit psi th ph)
    rw [hq]
    exact hyaw th ph hth
  refine ⟨euler_zyx_unit psi theta phi, rfl, hyaw theta phi htheta, hmsg theta phi htheta, ?_⟩
  intro theta2 phi2 htheta2
  refine ⟨?_, ?_, ?_⟩
  · rw [hyaw theta2 phi2 htheta2, hyaw theta phi htheta]
  · intro s pos_s yaw_s pos_c
    rw [hyaw theta2 phi2 htheta2, hyaw theta phi htheta]
  · intro s position g_c
    unfold waypoint_reached_at
    simp only [hmsg theta2 phi2 htheta2, hmsg theta phi htheta]

theorem C16_yaw_ignores_roll_pitch_witness :
    yaw_from_quaternion realNumerics (euler_zyx 1 1 2) = 1 ∧
    yaw_from_quaternion realNumerics (euler_zyx 1 (-1) 0) =
      yaw_from_quaternion realNumerics (euler_zyx 1 1 2) :=
  have hpi := Real.pi_gt_three
  have h1 : (1 : ℝ) ∈ Set.Ioc (-Real.pi) Real.pi := ⟨by linarith, by linarith⟩
  have h2 : |(1 : ℝ)| < Real.pi / 2 := by rw [abs_one]; linarith
  have h3 : |(-1 : ℝ)| < Real.pi / 2 := by rw [abs_neg, abs_one]; linarith
  ⟨(C16_yaw_ignores_roll_pitch 1 1 2 h1 h2).2.2.1,
   ((C16_yaw_ignores_roll_pitch 1 1 2 h1 h2).2.2.2.2 (-1) 0 h3).1⟩

/-! ## The yaw distance -/

/-- C21: the yaw-distance fold. For all real yaws `a` and `b`,
`rotation_dist(a, b)` is `|a - b|` when `|a - b| <= pi` and `|a - b| - pi`
otherwise (and the same with any scalar type and any value of `M_PI`). This is
not the shortest-arc circular distance: `a = 3` and `b = -3` lie in `[-pi, pi]`,
`rotation_dist(3, -3) = 6 - pi`, while
`min(|a - b|, 2 pi - |a - b|) = 2 pi - 6`, and the two differ. -/
theorem C21_rotation_dist_fold [LinearOrderedField R] :
    (∀ (num : Numerics R) (a b : R),
      rotation_dist num a b = if |a - b| ≤ num.pi then |a - b| else |a - b| - num.pi) ∧
    (∀ a b : ℝ,
      rotation_dist realNumerics a b =
        if |a - b| ≤ Real.pi then |a - b| else |a - b| - Real.pi) ∧
    (3 : ℝ) ∈ Set.Icc (-Real.pi) Real.pi ∧
    (-3 : ℝ) ∈ Set.Icc (-Real.pi) Real.pi ∧
    rotation_dist realNumerics 3 (-3) = 6 - Real.pi ∧
    min |(3 : ℝ) - (-3)| (2 * Real.pi - |(3 : ℝ) - (-3)|) = 2 * Real.pi - 6 ∧
    rotation_dist realNumerics 3 (-3) ≠
      min |(3 : ℝ) - (-3)| (2 * Real.pi - |(3 : ℝ) - (-3)|) ∧
    ∃ a b : ℝ, a ∈ Set.Icc (-Real.pi) Real.pi ∧ b ∈ Set.Icc (-Real.pi) Real.pi ∧
      rotation_dist realNumerics a b ≠ min |a - b| (2 * Real.pi - |a - b|) := by
  have hgen : ∀ (S : Type) [LinearOrderedField S] (num : Numerics S) (a b : S),
      rotation_dist num a b = if |a - b| ≤ num.pi then |a - b| else |a - b| - num.pi := by
    intro S _ num a b
    unfold rotation_dist
    by_cases h : |a - b| > num.pi
    · simp only [h, if_true]
      rw [if_neg (not_le.mpr h)]
    · simp only [h, if_false]
      rw [if_pos (not_lt.mp h)]
  have h3 := Real.pi_gt_three
  have h4 := Real.pi_lt_four
  have habs : |(3 : ℝ) - (-3)| = 6 := by norm_num
  have hfold : rotation_dist realNumerics 3 (-3) = 6 - Real.pi := by
    rw [hgen ℝ realNumerics 3 (-3), habs]
    have hpi : realNumerics.pi = Real.pi := rfl
    rw [hpi, if_neg (by linarith)]
  have hmin : min |(3 : ℝ) - (-3)| (2 * Real.pi - |(3 : ℝ) - (-3)|) = 2 * Real.pi - 6 := by
    rw [habs]
    exact min_eq_right (by linarith)
  have hne : rotation_dist realNumerics 3 (-3) ≠
      min |(3 : ℝ) - (-3)| (2 * Real.pi - |(3 : ℝ) - (-3)|) := by
    rw [hfold, hmin]
    intro h
    linarith
  have hin3 : (3 : ℝ) ∈ Set.Icc (-Real.pi) Real.pi := ⟨by linarith, by linarith⟩
  have hin3n : (-3 : ℝ) ∈ Set.Icc (-Real.pi) Real.pi := ⟨by linarith, by linarith⟩
  exact ⟨hgen R, hgen ℝ realNumerics, hin3, hin3n, hfold, hmin, hne, 3, -3, hin3, hin3n, hne⟩

/-! ## The active payload is valid -/

theorem set_reference_used_active (s : ContrailManager R) (state : TrackingRef) (t : Time)
    (flag : Bool) :
    (s.set_reference_used state t flag).2.msg_spline_ = s.msg_spline_ ∧
    ((s.set_reference_used state t flag).2.tracked_ref_ = TrackingRef.SPLINE →
      s.tracked_ref_ = TrackingRef.SPLINE ∨ s.has_spline_reference t = true) ∧
    ((s.set_reference_used state t flag).2.tracked_ref_ = TrackingRef.PATH →
      s.tracked_ref_ = TrackingRef.PATH ∨ s.has_path_reference = true) := by
  rcases s with ⟨pub, sp, pa, po, fb, pr, pc, tm, hd, rad, yw, tr⟩
  cases state <;> cases tr <;> cases flag <;>
    simp [set_reference_used, publish_waypoint_reached, has_pose_reference,
      has_path_reference, has_spline_reference] <;>
    split_ifs <;> simp_all

theorem has_spline_reference_any_time (s : ContrailManager R) (t1 t2 : Time) :
    s.has_spline_reference t1 = s.has_spline_reference t2 := rfl

theorem active_valid_set_reference_used (s : ContrailManager R) (state : TrackingRef)
    (t : Time) (flag : Bool) (h : s.ActiveValid) :
    (s.set_reference_used state t flag).2.ActiveValid := by
  obtain ⟨h1, h2, h3⟩ := h
  obtain ⟨f0, fs, fp⟩ := set_reference_used_active s state t flag
  obtain ⟨_, f2, f3, f4⟩ := set_reference_used_frame s state t flag
  refine ⟨?_, ?_, ?_⟩
  · intro ha t2
    have hv : s.has_spline_reference t2 = true := by
      rcases fs ha with hs | hs
      · exact h1 hs t2
      · rw [has_spline_reference_any_time s t2 t]; exact hs
    simpa [has_spline_reference, f0] using hv
  · intro ha
    have hv : s.has_path_reference = true := by
      rcases fp ha with hs | hs
      · exact h2 hs
      · exact hs
    simpa [has_path_reference, f2] using hv
  · intro ha
    have hv : s.has_pose_reference = true := by
      rcases f4 ha with hs | hs
      · exact h3 hs
      · exact hs
    simpa [has_pose_reference, f3] using hv

/-- A step that keeps the stored spline, path and pose and leaves the active
type as it was or makes it NONE preserves the validity of the active payload. -/
theorem active_valid_of_frame (s s1 : ContrailManager R)
    (hsp : s1.msg_spline_ = s.msg_spline_) (hpa : s1.msg_path_ = s.msg_path_)
    (hpo : s1.msg_pose_ = s.msg_pose_)
    (ht : s1.tracked_ref_ = s.tracked_ref_ ∨ s1.tracked_ref_ = TrackingRef.NONE)
    (h : s.ActiveValid) : s1.ActiveValid := by
  obtain ⟨h1, h2, h3⟩ := h
  refine ⟨?_, ?_, ?_⟩
  · intro ha t
    rcases ht with ht | ht
    · have := h1 (ht ▸ ha) t
      simpa [has_spline_reference, hsp] using this
    · rw [ht] at ha; exact absurd ha (by simp)
  · intro ha
    rcases ht with ht | ht
    · have := h2 (ht ▸ ha)
      simpa [has_path_reference, hpa] using this
    · rw [ht] at ha; exact absurd ha (by simp)
  · intro ha
    rcases ht with ht | ht
    · have := h3 (ht ▸ ha)
      simpa [has_pose_reference, hpo] using this
    · rw [ht] at ha; exact absurd ha (by simp)

theorem active_valid_get_discrete_path_reference [LinearOrderedField R] (num : Numerics R)
    (s : ContrailManager R) (ref : PositionTarget R) (t : Time) (g_c : Affine3d R)
    (tc now : Time) (h : s.ActiveValid) :
    (get_discrete_path_reference num s ref t g_c tc now).2.2.ActiveValid := by
  by_cases hg : s.has_path_reference = true ∧ toSizeT s.path_c_ < s.msg_path_.poses.length
  · obtain ⟨hv, hi⟩ := hg
    cases htol : waypoint_reached_at num s
        (s.msg_path_.poses.getD (toSizeT s.path_c_) default).pose g_c with
    | false =>
      rw [get_discrete_path_reference_outside num s ref t g_c tc now hv hi htol]
      exact active_valid_of_frame s _ rfl rfl rfl (Or.inl rfl) h
    | true =>
      cases hc : (s.check_waypoint_complete t).1 with
      | false =>
        rw [get_discrete_path_reference_dwelling num s ref t g_c tc now hv hi htol hc]
        exact active_valid_of_frame s _ rfl rfl rfl (Or.inl rfl) h
      | true =>
        rw [get_discrete_path_reference_complete num s ref t g_c tc now hv hi htol hc]
        obtain ⟨hstamp, _⟩ := has_path_reference_stamp s hv
        simp only
        split
        · split
          · refine ⟨fun ha => absurd ha (by simp), fun ha => absurd ha (by simp), fun _ => ?_⟩
            simp [has_pose_reference, check_msg_pose, hstamp]
          · exact active_valid_of_frame s _ rfl rfl rfl (Or.inr rfl) h
        · exact active_valid_of_frame s _ rfl rfl rfl (Or.inl rfl) h
  · rw [get_discrete_path_reference_skip num s ref t g_c tc now hg]
    exact h

theorem active_valid_get_discrete_pose_reference [LinearOrderedField R] (num : Numerics R)
    (s : ContrailManager R) (ref : PositionTarget R) (t : Time) (g_c : Affine3d R)
    (now : Time) (h : s.ActiveValid) :
    (get_discrete_pose_reference num s ref t g_c now).2.2.ActiveValid := by
  cases hv : s.has_pose_reference with
  | false =>
    rw [get_discrete_pose_reference_skip num s ref t g_c now hv]
    exact h
  | true =>
    cases hr : s.pose_reached_ with
    | true =>
      rw [get_discrete_pose_reference_latched num s ref t g_c now hv hr]
      exact h
    | false =>
      cases htol : waypoint_reached_at num s s.msg_pose_.pose g_c with
      | false =>
        rw [get_discrete_pose_reference_outside num s ref t g_c now hv hr htol]
        exact active_valid_of_frame s _ rfl rfl rfl (Or.inl rfl) h
      | true =>
        cases hc : (s.check_waypoint_complete t).1 with
        | false =>
          rw [get_discrete_pose_reference_dwelling num s ref t g_c now hv hr htol hc]
          exact active_valid_of_frame s _ rfl rfl rfl (Or.inl rfl) h
        | true =>
          rw [get_discrete_pose_reference_complete num s ref t g_c now hv hr htol hc]
          refine active_valid_of_frame s _ rfl rfl rfl ?_ h
          cases hfb : s.param_fallback_to_pose_
          · exact Or.inr (by simp)
          · exact Or.inl (by simp)

theorem active_valid_get_reference [LinearOrderedField R] (num : Numerics R)
    (s : ContrailManager R) (ref : PositionTarget R) (t : Time) (g_c : Affine3d R)
    (tc now : Time) (h : s.ActiveValid) :
    (get_reference num s ref t g_c tc now).2.2.ActiveValid := by
  unfold get_reference
  cases ha : s.tracked_ref_
  · simpa [get_reference_used, ha] using h
  · simpa [get_reference_used, ha, get_spline_reference] using h
  · simpa [get_reference_used, ha] using
      active_valid_get_discrete_path_reference num s ref t g_c tc now h
  · simpa [get_reference_used, ha] using
      active_valid_get_discrete_pose_reference num s ref t g_c now h

/-- Every reachable state has a valid active payload. -/
theorem reachable_active_valid [LinearOrderedField R] (num : Numerics R)
    (s : ContrailManager R) (h : Reachable num s) : s.ActiveValid := by
  induction h with
  | initial =>
    refine ⟨?_, ?_, ?_⟩ <;> intro ha <;> simp [ContrailManager.initial] at ha
  | callback_cfg_settings s config _ ih => exact ih
  | set_reference_used s state t flag _ ih =>
    exact active_valid_set_reference_used s state t flag ih
  | set_spline_reference s spline tc _ ih =>
    unfold set_spline_reference
    split
    · next hv =>
      apply active_valid_set_reference_used
      exact ⟨fun _ _ => hv, ih.2.1, ih.2.2⟩
    · exact ih
  | set_discrete_path_reference s path tc _ _ ih =>
    unfold set_discrete_path_reference
    split
    · next hv =>
      apply active_valid_set_reference_used
      exact ⟨ih.1, fun _ => hv, ih.2.2⟩
    · exact ih
  | set_discrete_pose_reference s pose fb tc _ ih =>
    unfold set_discrete_pose_reference
    split
    · next hv =>
      apply active_valid_set_reference_used
      exact ⟨ih.1, ih.2.1, fun _ => hv⟩
    · exact ih
  | get_reference s ref t g_c tc now _ ih =>
    exact active_valid_get_reference num s ref t g_c tc now ih
  | get_spline_reference s ref t _ ih => exact ih
  | get_discrete_path_reference s ref t g_c tc now _ ih =>
    exact active_valid_get_discrete_path_reference num s ref t g_c tc now ih
  | get_discrete_pose_reference s ref t g_c now _ ih =>
    exact active_valid_get_discrete_pose_reference num s ref t g_c now ih

theorem get_discrete_pose_reference_success [LinearOrderedField R] (num : Numerics R)
    (s : ContrailManager R) (ref : PositionTarget R) (t : Time) (g_c : Affine3d R)
    (now : Time) :
    (get_discrete_pose_reference num s ref t g_c now).1 = true := by
  unfold get_discrete_pose_reference
  split <;> rfl

/-- C22: the active payload is always valid. In every state reachable from the
initial state by payload installs (of paths with fewer than `2 ^ 31` poses),
`set_reference_used` requests, configuration updates and queries
(`get_reference` and the other public query functions), the payload of the
active type passes its validity predicate: SPLINE active implies a valid stored
spline, PATH active a valid stored path, POSE active a valid stored pose.
Consequently, in every such state and for every query, `get_reference` returns
success if and only if the active type is not NONE. -/
theorem C22_active_payload_valid [LinearOrderedField R] (num : Numerics R)
    (s : ContrailManager R) (h : Reachable num s) :
    (s.tracked_ref_ = TrackingRef.SPLINE →
      ∀ t : Time, check_msg_spline s.msg_spline_ t = true) ∧
    (s.tracked_ref_ = TrackingRef.PATH → check_msg_path s.msg_path_ = true) ∧
    (s.tracked_ref_ = TrackingRef.POSE → check_msg_pose s.msg_pose_ = true) ∧
    ∀ (ref : PositionTarget R) (t : Time) (g_c : Affine3d R) (tc now : Time),
      ((get_reference num s ref t g_c tc now).1 = true ↔
        s.tracked_ref_ ≠ TrackingRef.NONE) := by
  obtain ⟨h1, h2, h3⟩ := reachable_active_valid num s h
  have hc := reachable_consistent num s h
  refine ⟨h1, h2, h3, ?_⟩
  intro ref t g_c tc now
  unfold get_reference
  cases ha : s.tracked_ref_
  · simp [get_reference_used, ha]
  · simp [get_reference_used, ha, get_spline_reference]
  · have hv := h2 ha
    have hi := consistent_index_in_path s hc hv
    simp [get_reference_used, ha,
      (get_discrete_path_reference_setpoint num s ref t g_c tc now hv hi).1]
  · simp [get_reference_used, ha, get_discrete_pose_reference_success num s ref t g_c now]

theorem C22_active_payload_valid_witness :
    check_msg_path (sampleTrackingPath false : ContrailManager ℝ).msg_path_ = true ∧
    check_msg_pose (sampleTrackingPose false : ContrailManager ℝ).msg_pose_ = true ∧
    (get_reference realNumerics (sampleTrackingPath false) blankTarget 10000000000
      (sampleVehicle 0 0 1) 10 11).1 = true ∧
    ¬ (get_reference realNumerics (sampleConfigured false) blankTarget 10000000000
      (sampleVehicle 0 0 1) 10 11).1 = true :=
  ⟨(C22_active_payload_valid realNumerics _ (sample_reachable_path false)).2.1 rfl,
   (C22_active_payload_valid realNumerics _ (sample_reachable_pose false)).2.2.1 rfl,
   ((C22_active_payload_valid realNumerics _ (sample_reachable_path false)).2.2.2
      blankTarget 10000000000 (sampleVehicle 0 0 1) 10 11).mpr (by decide),
   fun hs =>
     ((C22_active_payload_valid realNumerics (sampleConfigured false)
        (Reachable.callback_cfg_settings _ _ Reachable.initial)).2.2.2
        blankTarget 10000000000 (sampleVehicle 0 0 1) 10 11).mp hs rfl⟩

/-! ## The notification rule of `set_reference_used` -/

/-- C23: the notification rule of `set_reference_used`. Every call publishes at
most one progress notification. It publishes one if and only if the target is
PATH or POSE and either the force flag of the caller is set, or the call
switched the active type into PATH, or the call switched the active type into
POSE while the reached flag was unset. For target PATH the notification carries
the path index and the quotient of the path index by the path length (as
`uint32_t`), for target POSE `current = 0` and the quotient `0/1`. The decision
does not depend on whether the request was accepted: a rejected request for
PATH or POSE with the force flag set still publishes one, and for target PATH
with an empty stored path the notification has total count 0, so its quotient is
a division by zero and has no value. -/
theorem C23_notification_rule (s : ContrailManager R) (target : TrackingRef) (t : Time)
    (flag : Bool) :
    ((s.set_reference_used target t flag).2.pub_discrete_progress_ =
        s.pub_discrete_progress_ ∨
      ∃ m : WaypointProgress,
        (s.set_reference_used target t flag).2.pub_discrete_progress_ =
          s.pub_discrete_progress_ ++ [m]) ∧
    ((∃ m : WaypointProgress,
        (s.set_reference_used target t flag).2.pub_discrete_progress_ =
          s.pub_discrete_progress_ ++ [m]) ↔
      (target = TrackingRef.PATH ∨ target = TrackingRef.POSE) ∧
      (flag = true ∨
        (target = TrackingRef.PATH ∧ s.tracked_ref_ ≠ TrackingRef.PATH ∧
          (s.set_reference_used target t flag).2.tracked_ref_ = TrackingRef.PATH) ∨
        (target = TrackingRef.POSE ∧ s.tracked_ref_ ≠ TrackingRef.POSE ∧
          (s.set_reference_used target t flag).2.tracked_ref_ = TrackingRef.POSE ∧
          s.pose_reached_ = false))) ∧
    (∀ m : WaypointProgress,
      (s.set_reference_used target t flag).2.pub_discrete_progress_ =
        s.pub_discrete_progress_ ++ [m] →
      (target = TrackingRef.PATH →
        m = { header := { seq := 0, stamp := t, frame_id := s.msg_path_.header.frame_id }
              current := toU32 s.path_c_
              progress := ⟨toU32 s.path_c_, toU32 s.msg_path_.poses.length⟩ }) ∧
      (target = TrackingRef.POSE →
        m = { header := { seq := 0, stamp := t, frame_id := s.msg_pose_.header.frame_id }
              current := 0
              progress := ⟨0, 1⟩ }) ∧
      (target = TrackingRef.PATH → s.msg_path_.poses = [] →
        m.progress.den = 0 ∧ m.progress.value = none)) ∧
    (flag = true → (target = TrackingRef.PATH ∨ target = TrackingRef.POSE) →
      (s.set_reference_used target t flag).1 = false →
      ∃ m : WaypointProgress,
        (s.set_reference_used target t flag).2.pub_discrete_progress_ =
          s.pub_discrete_progress_ ++ [m]) := by
  rcases s with ⟨pub, sp, pa, po, fb, pr, pc, tm, hd, rad, yw, tr⟩
  refine ⟨?_, ?_, ?_, ?_⟩
  · cases target <;> cases tr <;> cases flag <;>
      simp [set_reference_used, publish_waypoint_reached, has_pose_reference,
        has_path_reference, has_spline_reference] <;>
      split_ifs <;> simp_all
  · cases target <;> cases tr <;> cases flag <;>
      simp [set_reference_used, publish_waypoint_reached, has_pose_reference,
        has_path_reference, has_spline_reference] <;>
      split_ifs <;> simp_all
  · intro m hm
    refine ⟨?_, ?_, ?_⟩
    · intro ht
      subst ht
      cases tr <;> cases flag <;>
        simp [set_reference_used, publish_waypoint_reached, has_pose_reference,
          has_path_reference, has_spline_reference] at hm <;>
        (try split_ifs at hm) <;> simp_all
    · intro ht
      subst ht
      cases tr <;> cases flag <;>
        simp [set_reference_used, publish_waypoint_reached, has_pose_reference,
          has_path_reference, has_spline_reference] at hm <;>
        (try split_ifs at hm) <;> simp_all
    · intro ht hempty
      subst ht
      have hlen : pa.poses.length = 0 := by
        have h0 : pa.poses = [] := hempty
        rw [h0]
        rfl
      cases tr <;> cases flag <;>
        simp [set_reference_used, publish_waypoint_reached, has_pose_reference,
          has_path_reference, has_spline_reference, check_msg_path, hlen] at hm <;>
        (try subst hm) <;>
        simp_all [DoubleQuot.value, toU32]
  · intro hf ht hrej
    subst hf
    rcases ht with ht | ht <;> subst ht <;> cases tr <;>
      simp [set_reference_used, publish_waypoint_reached, has_pose_reference,
        has_path_reference, has_spline_reference] at hrej ⊢ <;>
      split_ifs <;> simp_all

theorem C23_notification_rule_witness :
    ((ContrailManager.initial : ContrailManager ℚ).set_reference_used
      TrackingRef.PATH 20 true).1 = false ∧
    ∃ m : WaypointProgress,
      ((ContrailManager.initial : ContrailManager ℚ).set_reference_used
        TrackingRef.PATH 20 true).2.pub_discrete_progress_ =
        (ContrailManager.initial : ContrailManager ℚ).pub_discrete_progress_ ++ [m] ∧
      m.progress.den = 0 ∧ m.progress.value = none := by
  obtain ⟨_, _, h3, h4⟩ := C23_notification_rule
    (ContrailManager.initial : ContrailManager ℚ) TrackingRef.PATH 20 true
  obtain ⟨m, hm⟩ := h4 rfl (Or.inl rfl) rfl
  exact ⟨rfl, m, hm, (h3 m hm).2.2 rfl rfl⟩

end Theorems

end Contrail
